import Mathlib

/-!
# Survey bot: survey-progression engine

A shallow embedding of the answer validator (`internal/entity/entity.go`) and of the
orchestrator (`internal/service/service.go`) of the survey bot, with the properties of the
specification proved about it.

Conventions of the embedding.

* Go `string` is Lean `String` (a sequence of Unicode code points; raw text is assumed to be
  valid UTF-8). `int` and `int64` are `Int` (a 64-bit platform, so `int(number)` is the identity
  on every value `strconv.ParseInt(_, 10, 64)` returns).
* A Go function returning `(T, error)` returns `Except GoError T`; where the function can also
  stop with a run-time panic (an index out of range) it returns `Res T`.
* Collaborators behind interfaces (`DBRepo`, `TelegramRepo`, `entity.ResultsProcessor`, the
  logger, the chat context) are fields of a record of state-passing functions over an abstract
  world `W`; every call is appended to a trace.
-/

namespace SurveyBot

/-! ## Errors -/

/-- Sentinel error values: package-level `errors.New` variables of `entity` and `service`, and
the two sentinels of Go's `strconv`. -/
inductive Sentinel
  | ErrNotFound
  | ErrAlreadyExists
  | ErrParseAnswerTypeSegment
  | ErrParseAnswerTypeSelect
  | ErrParseAnswerTypeMultiSelect
  | ErrAnswerOutOfRange
  | ErrAnswerNotFound
  | ErrSyntax
  | ErrRange
  deriving DecidableEq, Repr

/-- Go error values, as built by `errors.New`, `fmt.Errorf` (with zero, one or two `%w` verbs)
and `strconv` (`*NumError`). -/
inductive GoError
  | sentinel (s : Sentinel)
  | new (msg : String)
  | wrap (pfx : String) (inner : GoError)
  | wrap2 (pfx : String) (first : GoError) (mid : String) (second : GoError)
  | numError (fn : String) (num : String) (kind : Sentinel)
  deriving DecidableEq, Repr

/-- Text of a sentinel, the argument of its `errors.New`. -/
def Sentinel.Error : Sentinel → String
  | .ErrNotFound => "not found"
  | .ErrAlreadyExists => "already exists"
  | .ErrParseAnswerTypeSegment => "can't parse answer to segment"
  | .ErrParseAnswerTypeSelect => "can't parse answer to select"
  | .ErrParseAnswerTypeMultiSelect => "can't parse answer to multiselect"
  | .ErrAnswerOutOfRange => "answer is out of range"
  | .ErrAnswerNotFound => "answer not found"
  | .ErrSyntax => "invalid syntax"
  | .ErrRange => "value out of range"

/-- The method `Error()`. For a `*NumError` the number is shown between plain double quotes
(Go quotes it with `strconv.Quote`, which differs only on characters that need escaping). -/
def GoError.Error : GoError → String
  | .sentinel s => s.Error
  | .new msg => msg
  | .wrap pfx inner => pfx ++ inner.Error
  | .wrap2 pfx first mid second => pfx ++ first.Error ++ mid ++ second.Error
  | .numError fn num kind => "strconv." ++ fn ++ ": parsing \"" ++ num ++ "\": " ++ kind.Error

/-- The function `errors.Is(err, target)` for a sentinel target: the chain of wrapped errors
(both branches of a two-`%w` error) is searched for the sentinel itself. -/
def GoError.Is : GoError → Sentinel → Bool
  | .sentinel s, t => decide (s = t)
  | .new _, _ => false
  | .wrap _ inner, t => inner.Is t
  | .wrap2 _ first _ second, t => first.Is t || second.Is t
  | .numError _ _ kind, t => decide (kind = t)

/-- Outcome of a Go call that may return a value, return an error, or panic. -/
inductive Res (α : Type)
  | ok (a : α)
  | err (e : GoError)
  | panic (msg : String)
  deriving DecidableEq, Repr

instance instDecidableEqExcept {ε α : Type} [DecidableEq ε] [DecidableEq α] :
    DecidableEq (Except ε α)
  | .ok a, .ok b => if h : a = b then isTrue (by rw [h]) else isFalse (by intro h2; cases h2; exact h rfl)
  | .error a, .error b =>
    if h : a = b then isTrue (by rw [h]) else isFalse (by intro h2; cases h2; exact h rfl)
  | .ok _, .error _ => isFalse (by intro h; cases h)
  | .error _, .ok _ => isFalse (by intro h; cases h)

/-! ## `strconv`, `strings` -/

/-- Largest `uint64`. -/
def maxUint64 : Nat := 2 ^ 64 - 1

/-- The digit loop of `strconv.ParseUint(s, 10, 64)`: `n` is the value accumulated so far.
A character that is not a decimal digit is a syntax error; `n >= cutoff` (with
`cutoff = maxUint64/10 + 1`) or a sum above `maxUint64` is a range error. -/
def parseUintLoop (n : Nat) : List Char → Except Sentinel Nat
  | [] => .ok n
  | c :: cs =>
    if '0'.toNat ≤ c.toNat ∧ c.toNat ≤ '9'.toNat then
      if n ≥ maxUint64 / 10 + 1 then .error .ErrRange
      else if n * 10 + (c.toNat - '0'.toNat) > maxUint64 then .error .ErrRange
      else parseUintLoop (n * 10 + (c.toNat - '0'.toNat)) cs
    else .error .ErrSyntax

/-- The function `strconv.ParseUint(s, 10, 64)`. -/
def ParseUint (s : List Char) : Except Sentinel Nat :=
  if s = [] then .error .ErrSyntax else parseUintLoop 0 s

/-- The second half of `strconv.ParseInt(s0, 10, 64)`: what follows the sign is converted by
`ParseUint` and the result checked against the range of `int64`; `neg` tells a leading `-`. -/
def parseIntUnsigned (s0 : String) (neg : Bool) (rest : List Char) : Except GoError Int :=
  match ParseUint rest with
  | .error .ErrRange => .error (.numError "ParseInt" s0 .ErrRange)
  | .error _ => .error (.numError "ParseInt" s0 .ErrSyntax)
  | .ok un =>
    if !neg && un ≥ 2 ^ 63 then .error (.numError "ParseInt" s0 .ErrRange)
    else if neg && un > 2 ^ 63 then .error (.numError "ParseInt" s0 .ErrRange)
    else .ok (if neg then -(un : Int) else (un : Int))

/-- The function `strconv.ParseInt(s, 10, 64)`: an optional leading sign is picked off, the
rest is converted as an unsigned number, and the value must fit in an `int64`. -/
def ParseInt (s : String) : Except GoError Int :=
  match s.data with
  | [] => .error (.numError "ParseInt" s .ErrSyntax)
  | c :: cs =>
    if c = '+' then parseIntUnsigned s false cs
    else if c = '-' then parseIntUnsigned s true cs
    else parseIntUnsigned s false (c :: cs)

/-- The predicate `unicode.IsSpace`. -/
def isSpace (c : Char) : Bool :=
  let n := c.toNat
  n = 0x09 || n = 0x0A || n = 0x0B || n = 0x0C || n = 0x0D || n = 0x20 || n = 0x85 || n = 0xA0
    || n = 0x1680 || (0x2000 ≤ n && n ≤ 0x200A) || n = 0x2028 || n = 0x2029 || n = 0x202F
    || n = 0x205F || n = 0x3000

/-- The function `strings.TrimSpace`: leading and trailing white space removed. -/
def TrimSpace (s : String) : String :=
  ⟨((s.data.dropWhile isSpace).reverse.dropWhile isSpace).reverse⟩

/-- Pieces of a character list between commas; the empty list gives one empty piece. -/
def splitComma : List Char → List (List Char)
  | [] => [[]]
  | c :: cs =>
    if c = ',' then [] :: splitComma cs
    else
      match splitComma cs with
      | [] => [[c]]
      | piece :: pieces => (c :: piece) :: pieces

/-- The call `strings.Split(s, ",")`. -/
def SplitComma (s : String) : List String :=
  (splitComma s.data).map String.mk

/-! ## Entities (`internal/entity/entity.go`) -/

/-- The type `uuid.UUID`: identifiers are compared for equality and, in `GetUsersList`, by the
order of their string forms. -/
abbrev UUID := Nat

/-- The type `time.Time`, as an abstract instant; `0` is the zero value. -/
abbrev Time := Nat

/-- The type `entity.State`, a string. -/
abbrev State := String

/-- The type `entity.AnswerType`, a string. -/
abbrev AnswerType := String

def FinishedState : State := "finished"
def ActiveState : State := "active"
def NotStartedState : State := "not_started"

def AnswerTypeSegment : AnswerType := "segment"
def AnswerTypeSelect : AnswerType := "select"
def AnswerTypeMultiSelect : AnswerType := "multiselect"

structure User where
  GUID : UUID
  UserID : Int
  ChatID : Int
  Nickname : String
  CurrentSurvey : Option UUID
  LastActivity : Time
  deriving DecidableEq, Repr

structure Question where
  Text : String
  AnswerType : AnswerType
  PossibleAnswers : List Int
  AnswersText : List String
  deriving DecidableEq, Repr

/-- The struct `entity.Answer`; the field `Type` is written `Typ`. -/
structure Answer where
  Typ : AnswerType
  Data : List Int
  deriving DecidableEq, Repr

/-- A value of the open map `ResultsMetadata.Raw`. -/
inductive MetaValue
  | int (v : Int)
  | str (s : String)
  | float (v : ℚ)
  deriving DecidableEq, Repr

structure ResultsMetadata where
  Raw : List (String × MetaValue)
  deriving DecidableEq, Repr

structure Results where
  Text : String
  Metadata : ResultsMetadata
  deriving DecidableEq, Repr

structure Survey where
  GUID : UUID
  CalculationsType : String
  ID : Int
  Name : String
  Description : String
  Questions : List Question
  deriving DecidableEq, Repr

structure SurveyState where
  State : State
  UserGUID : UUID
  SurveyGUID : UUID
  Answers : List Answer
  Results : Option Results
  deriving DecidableEq, Repr

/-- Method `Question.getAnswerSegment`. -/
def Question.getAnswerSegment (q : Question) (answerRaw : String) : Res Answer :=
  match ParseInt answerRaw with
  | .error e =>
    .err (.wrap2 "failed to parse argument, " e ": " (.sentinel .ErrParseAnswerTypeSegment))
  | .ok number =>
    match q.PossibleAnswers[0]? with
    | none => .panic "index out of range [0]"
    | some lo =>
      if number < lo then .err (.sentinel .ErrAnswerOutOfRange)
      else
        match q.PossibleAnswers[1]? with
        | none => .panic "index out of range [1]"
        | some hi =>
          if number > hi then .err (.sentinel .ErrAnswerOutOfRange)
          else .ok { Typ := AnswerTypeSegment, Data := [number] }

/-- Method `Question.getAnswerSelect`. -/
def Question.getAnswerSelect (q : Question) (answerRaw : String) : Res Answer :=
  match ParseInt answerRaw with
  | .error e =>
    .err (.wrap2 "failed to parse argument, " e ": " (.sentinel .ErrParseAnswerTypeSelect))
  | .ok number =>
    if q.PossibleAnswers.contains number then
      .ok { Typ := AnswerTypeSelect, Data := [number] }
    else .err (.sentinel .ErrAnswerNotFound)

/-- The loop of `Question.getAnswerMultiSelect` over the split arguments; `answers` is the
slice built so far. -/
def Question.multiSelectLoop (q : Question) : List String → List Int → Res (List Int)
  | [], answers => .ok answers
  | arg :: args, answers =>
    match ParseInt (TrimSpace arg) with
    | .error e =>
      .err (.wrap2 "failed to parse argument, " e ": " (.sentinel .ErrParseAnswerTypeMultiSelect))
    | .ok number =>
      if !q.PossibleAnswers.contains number then .err (.sentinel .ErrAnswerNotFound)
      else q.multiSelectLoop args (answers ++ [number])

/-- Method `Question.getAnswerMultiSelect`. -/
def Question.getAnswerMultiSelect (q : Question) (answerRaw : String) : Res Answer :=
  match q.multiSelectLoop (SplitComma answerRaw) [] with
  | .ok answers => .ok { Typ := AnswerTypeMultiSelect, Data := answers }
  | .err e => .err e
  | .panic m => .panic m

/-- Method `Question.GetAnswer`. -/
def Question.GetAnswer (q : Question) (answerRaw : String) : Res Answer :=
  if q.AnswerType = AnswerTypeSegment then q.getAnswerSegment answerRaw
  else if q.AnswerType = AnswerTypeSelect then q.getAnswerSelect answerRaw
  else if q.AnswerType = AnswerTypeMultiSelect then q.getAnswerMultiSelect answerRaw
  else .err (.new "unknown answer type")

/-- The loop of `Question.Validate` over `q.AnswersText`. -/
def Question.validateAnswersText : List String → Except GoError Unit
  | [] => .ok ()
  | answerText :: rest =>
    if answerText = "" then .error (.new "empty answer text")
    else Question.validateAnswersText rest

/-- The loop of `Question.Validate` over `q.PossibleAnswers`. -/
def Question.validatePossibleAnswers (q : Question) : List Int → Except GoError Unit
  | [] => .ok ()
  | possibleAnswer :: rest =>
    if possibleAnswer < 0 ∨ (q.AnswersText.length : Int) < possibleAnswer then
      .error (.new "possible answer is out of range")
    else q.validatePossibleAnswers rest

/-- Method `Question.Validate`. The predicate `unicode.IsUpper` of Go's library is an argument.
Past the test for the empty text, `text.At(0)` is the first code point of the text and
`text.At(text.RuneCount() - 1)` the last one. -/
def Question.Validate (IsUpper : Char → Bool) (q : Question) : Except GoError Unit :=
  match q.Text.data with
  | [] => .error (.new "empty question text")
  | first :: rest =>
    if !IsUpper first then .error (.new "question text should start with uppercase letter")
    else
      let lastSymbol := (first :: rest).getLast (List.cons_ne_nil first rest)
      if lastSymbol ≠ '?' ∧ lastSymbol ≠ '.' then
        .error (.new "question text should end with '?' or '.'")
      else
        match Question.validateAnswersText q.AnswersText with
        | .error err => .error err
        | .ok () =>
          if q.AnswerType = AnswerTypeSegment then
            if q.PossibleAnswers.length ≠ 2 then
              .error (.new "possible answers length should be 2")
            else .ok ()
          else if q.AnswerType = AnswerTypeSelect ∨ q.AnswerType = AnswerTypeMultiSelect then
            if q.PossibleAnswers.length = 0 then .error (.new "empty possible answers")
            else if q.PossibleAnswers.length ≠ q.AnswersText.length then
              .error (.new "possible answers and answers text length mismatch")
            else q.validatePossibleAnswers q.PossibleAnswers
          else .error (.new "unknown answer type")

/-- The loop of `Survey.Validate` over the questions; `i` is the index of the next one. -/
def Survey.validateQuestions (IsUpper : Char → Bool) : Nat → List Question → Except GoError Unit
  | _, [] => .ok ()
  | i, question :: rest =>
    match question.Validate IsUpper with
    | .error err => .error (.wrap ("failed to validate question " ++ toString i ++ ", ") err)
    | .ok () => Survey.validateQuestions IsUpper (i + 1) rest

/-- Method `Survey.Validate`. -/
def Survey.Validate (IsUpper : Char → Bool) (s : Survey) : Except GoError Unit :=
  if s.Name = "" then .error (.new "empty survey name")
  else if s.Description = "" then .error (.new "empty survey description")
  else if s.CalculationsType = "" then .error (.new "empty calculations type")
  else if s.Questions.length = 0 then .error (.new "empty questions")
  else Survey.validateQuestions IsUpper 0 s.Questions

/-- The struct `entity.SurveyStateReport`. -/
structure SurveyStateReport where
  SurveyGUID : UUID
  SurveyName : String
  Description : String
  StartedAt : Time
  FinishedAt : Time
  UserGUID : String
  UserID : Int
  Answers : List Answer
  Results : Option Results
  deriving DecidableEq, Repr

/-- Library functions that `ToCSV` calls, as arguments: the method `String` of `uuid.UUID`,
`json.Marshal` on a `ResultsMetadata`, and the method `Format(time.RFC3339)` of `time.Time`. -/
structure Encoders where
  uuidString : UUID → String
  marshalMetadata : ResultsMetadata → Except GoError String
  formatRFC3339 : Time → String

/-- The function `strconv.Itoa`, also the verb `%d` of `fmt.Sprintf` on an `int`: the decimal
numeral, with a leading `-` for a negative number. -/
def Itoa (v : Int) : String := toString v

/-- Function `toStringSlice`. -/
def toStringSlice (m : List Int) : List String := m.map Itoa

/-- The loop of `ToCSV` over the answers: the columns it appends, in order. An answer of type
segment or select without any code is a run-time panic. -/
def answerColumns : List Answer → Res (List String)
  | [] => .ok []
  | answer :: rest =>
    if answer.Typ = AnswerTypeSegment ∨ answer.Typ = AnswerTypeSelect then
      match answer.Data[0]? with
      | none => .panic "index out of range [0] with length 0"
      | some code =>
        match answerColumns rest with
        | .ok columns => .ok (Itoa code :: columns)
        | .err e => .err e
        | .panic p => .panic p
    else
      match answerColumns rest with
      | .ok columns => .ok (" ".intercalate (toStringSlice answer.Data) :: columns)
      | .err e => .err e
      | .panic p => .panic p

/-- Method `SurveyStateReport.ToCSV`. -/
def SurveyStateReport.ToCSV (enc : Encoders) (ss : SurveyStateReport) : Res (List String) :=
  let marshalled : Except GoError (String × String) :=
    match ss.Results with
    | none => .ok ("", "")
    | some results =>
      match enc.marshalMetadata results.Metadata with
      | .error err => .error (.wrap "failed to marshal metadata: " err)
      | .ok metadata => .ok (results.Text, metadata)
  match marshalled with
  | .error err => .err err
  | .ok (text, metadata) =>
    let result : List String :=
      [enc.uuidString ss.SurveyGUID, ss.SurveyName, ss.Description, ss.UserGUID, Itoa ss.UserID,
        text, metadata, enc.formatRFC3339 ss.StartedAt, enc.formatRFC3339 ss.FinishedAt]
    match answerColumns ss.Answers with
    | .ok columns => .ok (result ++ columns)
    | .err e => .err e
    | .panic p => .panic p

/-! ## Scoring (`internal/resultsprocessor/processor.go`) -/

/-- The value of an `int` after an operation whose exact result is `v`: Go's integer arithmetic
wraps around modulo `2 ^ 64` (a 64-bit platform). -/
def wrapInt64 (v : Int) : Int := (v + 2 ^ 63) % 2 ^ 64 - 2 ^ 63

/-- The integer nearest to a rational, the even one of the two when it is halfway. -/
def roundHalfEven (q : ℚ) : Int :=
  let f := ⌊q⌋
  if q - f < 1 / 2 then f else if q - f > 1 / 2 then f + 1 else if f % 2 = 0 then f else f + 1

/-- The `float64` nearest to a rational (ties to even), as the rational it stands for: 53
significant bits, the last one worth at least `2 ^ (-1074)`. Infinities are left out: the
scores stay far below `2 ^ 1024`. -/
def toFloat64 (q : ℚ) : ℚ :=
  if q = 0 then 0
  else
    let e : Int := max (Int.log 2 |q| - 52) (-1074)
    roundHalfEven (q / 2 ^ e) * 2 ^ e

/-- The verb `%.2f` of `fmt.Sprintf` on a `float64`: the exact value rounded to two decimals,
ties to even. -/
def formatFloat2 (q : ℚ) : String :=
  let k := (roundHalfEven (|q| * 100)).toNat
  (if q < 0 then "-" else "") ++ toString (k / 100) ++ "." ++
    (if k % 100 < 10 then "0" else "") ++ toString (k % 100)

/-- The expression `answers[i].Data[0]`; `none` is the run-time panic of an index out of
range. -/
def dataAt (answers : List Answer) (i : Nat) : Option Int :=
  match answers[i]? with
  | none => none
  | some answer => answer.Data[0]?

/-- The closure `get` of `calculateTest1` and of `calculateTest3`: the code of the answer to
question `id`, minus 1. -/
def getCode (answers : List Answer) (id : Nat) : Option Int :=
  (dataAt answers (id - 1)).map (fun d => wrapInt64 (d - 1))

/-- A sum `get(id) + get(id) + ...`, given by the identifiers of its terms in order: the exact
sum, not yet wrapped; `none` when a term panics. -/
def sumCodes (answers : List Answer) : List Nat → Option Int
  | [] => some 0
  | id :: rest =>
    match getCode answers id, sumCodes answers rest with
    | some v, some r => some (v + r)
    | _, _ => none

/-- Function `calculateTest1`; `none` is a run-time panic. The sums are wrapped once: wrapping
after every `+` and `-` gives the same value. -/
def calculateTest1 (_survey : Survey) (answers : List Answer) : Option Results :=
  match sumCodes answers [1, 2, 3, 8, 13, 14, 16, 20], getCode answers 6,
      sumCodes answers [5, 10, 11, 15, 22], sumCodes answers [4, 7, 9, 12, 17, 18, 19, 21] with
  | some plus1, some minus1, some plus2, some plus3 =>
    let s1 := wrapInt64 (plus1 - minus1)
    let s2 := wrapInt64 plus2
    let s3 := wrapInt64 plus3
    let s1Level :=
      if s1 ≤ 15 then "низкий уровень"
      else if s1 > 15 ∧ s1 ≤ 24 then "средний уровень"
      else "высокий уровень"
    let s2Level :=
      if s2 ≤ 5 then "низкий уровень"
      else if s2 > 5 ∧ s2 ≤ 10 then "средний уровень"
      else "высокий уровень"
    let s3Level :=
      if s3 ≥ 37 then "низкий уровень"
      else if s3 ≥ 31 ∧ s3 ≤ 36 then "средний уровень"
      else "высокий уровень"
    let result := "Эмоциональное истощение - " ++ s1Level ++ ", Деперсонализация - " ++ s2Level ++
      ", Редукция профессионализма - " ++ s3Level
    some { Text := result, Metadata := { Raw := [("s1", .int s1), ("s2", .int s2), ("s3", .int s3)] } }
  | _, _, _, _ => none

/-- The table `coef` of `calculateTest2`: each constant is the `float64` nearest to it. -/
def coef : List (List ℚ) :=
  [
    [0, 0.034, 0.041, 0.071, 0.458],
    [0, 0.062, 0.075, 0.117, 0.246],
    [0, 0.059, 0.073, 0.129, 0.242],
    [0, 0.053, 0.066, 0.19, 0.377],
    [0, 0.033, 0.041, 0.109, 0.179],
    [0, 0, 0, 0, 0]
  ].map (fun row => row.map toFloat64)

/-- The loop of `calculateTest2`: `i` is the index of the next answer, `s` the sum so far. The
last answer is skipped; a row of `coef` or an entry of the row that does not exist is a
run-time panic. Every operation on `float64` rounds its exact result. -/
def calculateTest2Loop (len : Nat) : Nat → List Answer → ℚ → Option ℚ
  | _, [], s => some s
  | i, answer :: rest, s =>
    if (len : Int) - 1 = i then calculateTest2Loop len (i + 1) rest s
    else do
      let row ← coef[i]?
      let d ← answer.Data[0]?
      let j := wrapInt64 (d - 1)
      if j < 0 then none
      else
        let c ← row[j.toNat]?
        let tmp := toFloat64 (c * toFloat64 d)
        calculateTest2Loop len (i + 1) rest (toFloat64 (s + tmp))

/-- Function `calculateTest2`; `none` is a run-time panic. -/
def calculateTest2 (_survey : Survey) (answers : List Answer) : Option Results := do
  let s ← calculateTest2Loop answers.length 0 answers 0
  let s := toFloat64 (1 - s)
  pure { Text := "Сумма баллов: " ++ formatFloat2 s, Metadata := { Raw := [("s", .float s)] } }

/-- Function `calculateTest3`; `none` is a run-time panic. The sums are wrapped once. -/
def calculateTest3 (_survey : Survey) (answers : List Answer) : Option Results :=
  match sumCodes answers [3, 4, 6, 7, 9, 12, 13, 14, 17, 18],
      sumCodes answers [1, 2, 5, 8, 10, 11, 15, 16, 19, 20],
      sumCodes answers [22, 23, 24, 25, 28, 29, 31, 32, 34, 35, 37, 38, 40],
      sumCodes answers [21, 26, 27, 30, 33, 36, 39] with
  | some plus1, some minus1, some plus2, some minus2 =>
    let s1 := wrapInt64 (plus1 - minus1 + 50)
    let s2 := wrapInt64 (plus2 - minus2 + 35)
    let s1Level :=
      if s1 ≤ 30 then "низкий уровень"
      else if s1 > 30 ∧ s1 ≤ 45 then "средний уровень"
      else "высокий уровень"
    let s2Level :=
      if s2 ≤ 30 then "низкий уровень"
      else if s2 > 30 ∧ s2 ≤ 45 then "средний уровень"
      else "высокий уровень"
    let result := "РЕАКТИВНАЯ ТРЕВОЖНОСТЬ - " ++ s1Level ++ ", ЛИЧНОСТНАЯ ТРЕВОЖНОСТЬ - " ++ s2Level
    some { Text := result, Metadata := { Raw := [("s1", .int s1), ("s2", .int s2)] } }
  | _, _, _, _ => none

/-- The statements `s += answers[i].Data[0]` for the indices of a list, in order. -/
def sumData (answers : List Answer) : List Nat → Int → Option Int
  | [], s => some s
  | i :: rest, s => do
    let d ← dataAt answers i
    sumData answers rest (wrapInt64 (s + d))

/-- Function `calculateTest4`; `none` is a run-time panic. -/
def calculateTest4 (_survey : Survey) (answers : List Answer) : Option Results := do
  let s ← sumData answers (List.range 18) 0
  let s ← if (← dataAt answers 19) = 1 then sumData answers [18] s else pure s
  let s ← sumData answers [20, 21] s
  let s1Level :=
    if s ≤ 9 then "отсутствие депрессивных симптомов"
    else if s > 9 ∧ s ≤ 15 then "легкая депрессия (субдепрессия)"
    else if s > 15 ∧ s ≤ 19 then "умеренная депрессия"
    else if s > 19 ∧ s ≤ 29 then "выраженная депрессия (средней тяжести)"
    else "тяжелая депрессия"
  pure { Text := s1Level, Metadata := { Raw := [("s", .int s)] } }

/-- The closure `get` of `calculateTest5` and of `calculateTest6`: 1 when the code of the answer
to question `id` is `expected`, 0 when it is another one. -/
def getExpected (answers : List Answer) (id : Nat) (expected : Int) : Option Int :=
  (dataAt answers (id - 1)).map (fun d => if d = expected then 1 else 0)

/-- A sum `get(id, expected) + get(id, expected) + ...`, given by the arguments of its terms
in order. -/
def sumExpected (answers : List Answer) : List (Nat × Int) → Option Int
  | [] => some 0
  | (id, expected) :: rest => do
    let v ← getExpected answers id expected
    let r ← sumExpected answers rest
    pure (v + r)

/-- The text `description` of `calculateTest5`. -/
def description5 : String :=
  "Интроверт это человек, психический склад которого характеризуется сосредоточенностью на своем внутреннем мире, замкнутостью, созерцательностью; тот, кто не склонен к общению и с трудом устанавливает контакты с окружающим миром\n" ++
  "Экстраверт это общительный, экспрессивный человек с активной социальной позицией. Его переживания и интересы направлены на внешний мир. Экстраверты удовлетворяют большинство своих потребностей через взаимодействие с людьми.\n" ++
  "Нейротизм – это личностная черта человека, которая проявляется в беспокойстве, тревожности и эмоциональной неустойчивости. Нейротизм в психологии это индивидуальная переменная, которая выражает особенности нервной системы (лабильность и реактивность). Те люди, у которых высокий уровень нейротизма, под внешним выражением полного благополучия скрывают внутреннюю неудовлетворенность и личные конфликты. Они реагируют на всё происходящие чересчур эмоционально и не всегда адекватно к ситуации."

/-- Function `calculateTest5`; `none` is a run-time panic. -/
def calculateTest5 (_survey : Survey) (answers : List Answer) : Option Results := do
  let s1 ← sumExpected answers
    [(1, 1), (3, 1), (8, 1), (10, 1), (13, 1), (17, 1), (22, 1), (25, 1), (27, 1), (39, 1),
     (44, 1), (46, 1), (49, 1), (53, 1), (56, 1), (5, 2), (15, 2), (20, 2), (29, 2), (32, 2),
     (34, 2), (37, 2), (41, 2), (51, 2)]
  let s2 ← sumExpected answers
    [(2, 1), (4, 1), (7, 1), (9, 1), (11, 1), (14, 1), (16, 1), (19, 1), (21, 1), (23, 1),
     (26, 1), (28, 1), (31, 1), (33, 1), (35, 1), (38, 1), (40, 1), (43, 1), (45, 1), (47, 1),
     (50, 1), (52, 1), (55, 1), (57, 1)]
  let s3 ← sumExpected answers
    [(6, 1), (24, 1), (36, 1), (12, 2), (18, 2), (30, 2), (42, 2), (48, 2), (54, 2)]
  let s1Level :=
    if s1 > 19 then "яркий экстраверт"
    else if s1 > 15 then "экстраверт"
    else if s1 > 9 then "норма"
    else if s1 > 5 then "интроверт"
    else "глубокий интроверт"
  let s2Level :=
    if s2 > 19 then "очень высокий уровень нейротизма"
    else if s2 > 14 then "высокий уровень нейротизма"
    else if s2 > 9 then "среднее значение"
    else "низкий уровень нейротизма"
  let s3Level := if s3 > 4 then "неискренность в ответах" else "норма"
  let result := "\"Экстраверсия - интроверсия\" - " ++ s1Level ++ ", \"Нейротизм\" - " ++ s2Level ++
    ", \"Шкала лжи\" - " ++ s3Level ++ "\n\n" ++ description5
  pure
    { Text := result,
      Metadata :=
        { Raw := [("estraversia-introversia", .int s1), ("neurotism", .int s2), ("lie", .int s3)] } }

/-- The text `description` of `calculateTest6`. -/
def description6 : String :=
  "Реалистический тип – этому типу личности свойственна эмоциональная стабильность, ориентация на настоящее. Представители данного типа занимаются конкретными объектами и их практическим использованием: вещами, инструментами, машинами. Отдают предпочтение занятиям требующим моторных навыков, ловкости, конкретности.\n" ++
  "Интеллектуальный тип – ориентирован на умственный труд. Он аналитичен, рационален, независим, оригинален. Преобладают теоретические и в некоторой степени эстетические ценности. Размышления о проблеме он предпочитает занятиям по реализации связанных с ней решений. Ему нравится решать задачи, требующие абстрактного мышления.\n" ++
  "Социальный тип - ставит перед собой такие цели и задачи, которые позволяют им установить тесный контакт с окружающей социальной средой. Обладает социальными умениями и нуждается в социальных контактах. Стремятся поучать, воспитывать. Гуманны. Способны приспособиться практически к любым условиям. Стараются держаться в стороне от интеллектуальных проблем. Они активны и решают проблемы, опираясь главным образом на эмоции, чувства и умение общаться.\n" ++
  "Конвенциальный тип – отдает предпочтение четко структурированной деятельности. Из окружающей его среды он выбирает цели, задачи и ценности, проистекающие из обычаев и обусловленные состоянием общества. Ему характерны серьезность настойчивость, консерватизм, исполнительность. В соответствии с этим его подход к проблемам носит стереотипичный, практический и конкретный характер.\n" ++
  "Предприимчивый тип – избирает цели, ценности и задачи, позволяющие ему проявить энергию, энтузиазм, импульсивность, доминантность, реализовать любовь к приключенчеству. Ему не по душе занятия, связанные с ручным трудом, а также требующие усидчивости, большой концентрации внимания и интеллектуальных усилий. Предпочитает руководящие роли в которых может удовлетворять свои потребности в доминантности и признании. Активен, предприимчив.\n" ++
  "Артистический тип – отстраняется от отчетливо структурированных проблем и видов деятельности, предполагающих большую физическую силу. В общении с окружающими опираются на свои непосредственные ощущения, эмоции, интуицию и воображение. Ему присущ сложный взгляд на жизнь, гибкость, независимость суждений. Свойственна несоциальность, оригинальность."

/-- Function `calculateTest6`; `none` is a run-time panic. -/
def calculateTest6 (_survey : Survey) (answers : List Answer) : Option Results := do
  let s1 ← sumExpected answers
    [(1, 1), (2, 1), (3, 1), (4, 1), (5, 1), (16, 1), (17, 1), (18, 1), (19, 1), (21, 1),
     (31, 1), (32, 1), (33, 1), (34, 1)]
  let s2 ← sumExpected answers
    [(1, 2), (6, 1), (7, 1), (8, 1), (9, 1), (16, 2), (20, 1), (22, 1), (23, 1), (24, 1),
     (31, 2), (35, 1), (36, 1), (37, 1)]
  let s3 ← sumExpected answers
    [(2, 2), (6, 2), (10, 1), (11, 1), (12, 1), (17, 2), (29, 2), (25, 1), (26, 1), (27, 1),
     (36, 2), (38, 1), (39, 1), (41, 2)]
  let s4 ← sumExpected answers
    [(3, 2), (7, 2), (10, 2), (13, 1), (14, 1), (18, 2), (22, 2), (25, 2), (28, 1), (29, 1),
     (32, 2), (38, 2), (40, 1), (42, 1)]
  let s5 ← sumExpected answers
    [(4, 2), (8, 2), (11, 2), (13, 2), (15, 1), (23, 2), (28, 2), (30, 1), (33, 2), (35, 2),
     (37, 2), (39, 2), (40, 2)]
  let s6 ← sumExpected answers
    [(5, 2), (9, 2), (12, 2), (14, 2), (15, 2), (19, 2), (21, 2), (24, 1), (27, 2), (29, 2),
     (30, 2), (34, 2), (41, 1), (42, 2)]
  let result := "Реалистический тип - " ++ toString s1 ++ ", Интеллектуальный тип - " ++
    toString s2 ++ ", Социальный тип - " ++ toString s3 ++ ", Конвенциальный тип - " ++
    toString s4 ++ ", Предприимчивый тип - " ++ toString s5 ++ ", Артистический тип - " ++
    toString s6 ++ "\n\n" ++ description6
  pure
    { Text := result,
      Metadata :=
        { Raw := [("realistic", .int s1), ("intillectual", .int s2), ("social", .int s3),
                  ("conventional", .int s4), ("enterprising", .int s5), ("artistic", .int s6)] } }

/-- The terms `get(id, expected)` of the six sums of `calculateTest6`, by their arguments: the
sums of the realistic, intellectual, social, conventional, enterprising and artistic scores,
in this order. -/
def test6Terms : List (List (Nat × Int)) :=
  [ [(1, 1), (2, 1), (3, 1), (4, 1), (5, 1), (16, 1), (17, 1), (18, 1), (19, 1), (21, 1),
     (31, 1), (32, 1), (33, 1), (34, 1)],
    [(1, 2), (6, 1), (7, 1), (8, 1), (9, 1), (16, 2), (20, 1), (22, 1), (23, 1), (24, 1),
     (31, 2), (35, 1), (36, 1), (37, 1)],
    [(2, 2), (6, 2), (10, 1), (11, 1), (12, 1), (17, 2), (29, 2), (25, 1), (26, 1), (27, 1),
     (36, 2), (38, 1), (39, 1), (41, 2)],
    [(3, 2), (7, 2), (10, 2), (13, 1), (14, 1), (18, 2), (22, 2), (25, 2), (28, 1), (29, 1),
     (32, 2), (38, 2), (40, 1), (42, 1)],
    [(4, 2), (8, 2), (11, 2), (13, 2), (15, 1), (23, 2), (28, 2), (30, 1), (33, 2), (35, 2),
     (37, 2), (39, 2), (40, 2)],
    [(5, 2), (9, 2), (12, 2), (14, 2), (15, 2), (19, 2), (21, 2), (24, 1), (27, 2), (29, 2),
     (30, 2), (34, 2), (41, 1), (42, 2)] ]

/-- The points that the code `c` on question `q` adds to each of the six scores of
`calculateTest6`: for each sum, the number of its terms `get(q, c)`. -/
def test6Points (q : Nat) (c : Int) : List Int :=
  test6Terms.map (fun terms => ((terms.count (q, c) : Nat) : Int))

/-- The map `calculationsType`: the scoring function registered under each key. -/
def calculationsType : List (String × (Survey → List Answer → Option Results)) :=
  [("test_1", calculateTest1), ("test_2", calculateTest2), ("test_3", calculateTest3),
   ("test_4", calculateTest4), ("test_5", calculateTest5), ("test_6", calculateTest6)]

/-- Method `processor.GetResults`. -/
def processor.GetResults (survey : Survey) (answers : List Answer) : Res Results :=
  match calculationsType.lookup survey.CalculationsType with
  | none => .err (.new ("unknown calculations type: " ++ survey.CalculationsType))
  | some f =>
    match f survey answers with
    | some results => .ok results
    | none => .panic "index out of range"

/-- Method `processor.Validate`. -/
def processor.Validate (IsUpper : Char → Bool) (survey : Survey) : Except GoError Unit :=
  match survey.Validate IsUpper with
  | .error err => .error (.wrap "failed to validate survey, " err)
  | .ok () =>
    match calculationsType.lookup survey.CalculationsType with
    | none => .error (.new ("unknown calculations type: " ++ survey.CalculationsType))
    | some _ => .ok ()

/-! ## Messages (`internal/responses/response.go`) -/

namespace responses

def SurveyAlreadyFinished : String := "Вы уже прошли этот тест"
def ChooseSurvey : String := "Пожалуйста выберите тест"
def AnswerNotFound : String := "Ответ не найден"
def AnswerOutOfRange : String := "Ответ вне диапазона"
def AnswerNotANumber : String := "Ответ не число"

end responses

/-! ## Collaborators (`internal/service/contract.go`) -/

/-- What the service reads from `context.Context`: the sender and the chat. -/
structure Context where
  UserID : Int
  ChatID : Int
  Nickname : String
  deriving DecidableEq, Repr

/-- The struct `UserSurveyState`: an entry of the survey list sent to the chat. -/
structure UserSurveyState where
  UserGUID : UUID
  Survey : Survey
  State : State
  IsCurrent : Bool
  deriving DecidableEq, Repr

/-- The struct `ResultsFilter`; `none` is the nil pointer. -/
structure ResultsFilter where
  From : Option Time
  To : Option Time
  deriving DecidableEq, Repr

/-- A call made on a collaborator, with its arguments, as recorded in the trace. The
transaction handle and the context, passed to every call, are left out. -/
inductive Call
  | BeginTx
  | Commit
  | Rollback
  | GetUserByID (userID : Int)
  | CreateUser (user : User)
  | GetSurveyByID (surveyID : Int)
  | GetSurvey (surveyGUID : UUID)
  | GetUserSurveyState (userGUID surveyGUID : UUID) (states : List State)
  | CreateUserSurveyState (state : SurveyState)
  | UpdateActiveUserSurveyState (state : SurveyState)
  | UpdateUserCurrentSurvey (userGUID surveyGUID : UUID)
  | UpdateUserLastActivity (userGUID : UUID)
  | SetUserCurrentSurveyToNil (userGUID : UUID)
  | SendMessage (msg : String)
  | SendSurveyQuestion (question : Question)
  | CtxSend (msg : String)
  | GetResults (survey : Survey) (answers : List Answer)
  | UUIDProvider
  | LoggerErrorf (format : String) (err : GoError)
  | GetSurveysList
  | CreateSurvey (s : Survey)
  | UpdateSurvey (s : Survey)
  | Validate (survey : Survey)
  | GetUserSurveyStates (userGUID : UUID) (states : List State)
  | SendSurveyList (states : List UserSurveyState)
  | GetUserByGUID (userGUID : UUID)
  | DeleteUserSurveyState (userGUID surveyGUID : UUID)
  | GetFinishedSurveys (f : ResultsFilter) (batchSize offset : Int)
  | CsvWrite (record : List String)
  | CsvFlush
  deriving DecidableEq, Repr

/-- What a recorded call returned: a nil error alone, an error, or a value. -/
inductive Resp
  | nil
  | err (e : GoError)
  | user (u : User)
  | survey (s : Survey)
  | state (s : SurveyState)
  | results (r : Results)
  | uuid (g : UUID)
  | surveys (l : List Survey)
  | states (l : List SurveyState)
  | reports (l : List SurveyStateReport)
  deriving DecidableEq, Repr

/-- An entry of the trace: a call and what it returned. -/
structure Event where
  call : Call
  resp : Resp
  deriving DecidableEq, Repr

/-- The calls of a trace, in order, without what they returned. -/
def calls (trace : List Event) : List Call := trace.map Event.call

/-- The interface `DBRepo` (the methods the service uses, but for `GetFinishedSurveys`, which
is in `ExportIO`) together with the methods of the `DBTransaction` that `BeginTx` opens. Each
method maps the world to what it returns (a value or an error) and a new world. -/
structure DBRepo (W : Type) where
  BeginTx : W → Except GoError Unit × W
  Commit : W → Except GoError Unit × W
  Rollback : W → Except GoError Unit × W
  GetSurvey : UUID → W → Except GoError Survey × W
  GetSurveyByID : Int → W → Except GoError Survey × W
  GetUserByID : Int → W → Except GoError User × W
  CreateUser : User → W → Except GoError Unit × W
  UpdateUserCurrentSurvey : UUID → UUID → W → Except GoError Unit × W
  UpdateUserLastActivity : UUID → W → Except GoError Unit × W
  SetUserCurrentSurveyToNil : UUID → W → Except GoError Unit × W
  GetUserSurveyState : UUID → UUID → List State → W → Except GoError SurveyState × W
  CreateUserSurveyState : SurveyState → W → Except GoError Unit × W
  UpdateActiveUserSurveyState : SurveyState → W → Except GoError Unit × W
  GetSurveysList : W → Except GoError (List Survey) × W
  CreateSurvey : Survey → W → Except GoError Unit × W
  UpdateSurvey : Survey → W → Except GoError Unit × W
  GetUserSurveyStates : UUID → List State → W → Except GoError (List SurveyState) × W
  GetUserByGUID : UUID → W → Except GoError User × W
  DeleteUserSurveyState : UUID → UUID → W → Except GoError Unit × W

/-- The interface `TelegramRepo` (the methods the service uses). -/
structure TelegramRepo (W : Type) where
  SendSurveyQuestion : Question → W → Except GoError Unit × W
  SendMessage : String → W → Except GoError Unit × W
  SendSurveyList : List UserSurveyState → W → Except GoError Unit × W

/-- The interface `entity.ResultsProcessor`. -/
structure ResultsProcessor (W : Type) where
  GetResults : Survey → List Answer → W → Except GoError Results × W
  Validate : Survey → W → Except GoError Unit × W

/-- The struct `service` with what else its handlers reach: the package variable
`UUIDProvider` and the method `Send` of the chat context. The logger only adds to the trace. -/
structure service (W : Type) where
  telegramRepo : TelegramRepo W
  dbRepo : DBRepo W
  rsltProc : ResultsProcessor W
  UUIDProvider : W → UUID × W
  ctxSend : String → W → Except GoError Unit × W

/-! ## Programs -/

/-- What running a piece of Go code gives: its outcome, the world of the collaborators
afterwards, and the calls it made, in order, each with what it returned. -/
structure Run (W α : Type) where
  res : Res α
  world : W
  trace : List Event

/-- A piece of Go code: from the world to a run. `Res.err` is a `return` of a non-nil error
from the enclosing function, `Res.panic` a run-time panic. -/
def Prog (W α : Type) : Type := W → Run W α

def Prog.pure {W α : Type} (a : α) : Prog W α := fun w => ⟨.ok a, w, []⟩

/-- Sequencing: the second part runs when the first one gave a value; a returned error or a
panic of the first part ends the whole. -/
def Prog.bind {W α β : Type} (m : Prog W α) (f : α → Prog W β) : Prog W β := fun w =>
  match m w with
  | ⟨.ok a, w1, t1⟩ =>
    match f a w1 with
    | ⟨r, w2, t2⟩ => ⟨r, w2, t1 ++ t2⟩
  | ⟨.err e, w1, t1⟩ => ⟨.err e, w1, t1⟩
  | ⟨.panic p, w1, t1⟩ => ⟨.panic p, w1, t1⟩

instance (W : Type) : Monad (Prog W) where
  pure := Prog.pure
  bind := Prog.bind

/-- The statement `return err` with a non-nil error. -/
def ret {W α : Type} (e : GoError) : Prog W α := fun w => ⟨.err e, w, []⟩

/-- A run-time panic. -/
def goPanic {W α : Type} (msg : String) : Prog W α := fun w => ⟨.panic msg, w, []⟩

/-- A call of a collaborator that returns `(value, err)`: the call and what it returned are
recorded, the world is updated, and the pair is handed to the caller. -/
def callV {W α : Type} (c : Call) (toResp : α → Resp) (op : W → Except GoError α × W) :
    Prog W (Except GoError α) := fun w =>
  match op w with
  | (.ok a, w1) => ⟨.ok (.ok a), w1, [⟨c, toResp a⟩]⟩
  | (.error e, w1) => ⟨.ok (.error e), w1, [⟨c, .err e⟩]⟩

/-- A call of a collaborator that returns only an `error`. -/
def call {W : Type} (c : Call) (op : W → Except GoError Unit × W) : Prog W (Except GoError Unit) :=
  callV c (fun _ => Resp.nil) op

/-- Running a function that returns `error` and looking at the error it returned. -/
def attempt {W α : Type} (m : Prog W α) : Prog W (Except GoError α) := fun w =>
  match m w with
  | ⟨.ok a, w1, t1⟩ => ⟨.ok (.ok a), w1, t1⟩
  | ⟨.err e, w1, t1⟩ => ⟨.ok (.error e), w1, t1⟩
  | ⟨.panic p, w1, t1⟩ => ⟨.panic p, w1, t1⟩

/-- A call of a pure function that returns `(value, err)` or panics. -/
def tryRes {W α : Type} (r : Res α) : Prog W (Except GoError α) := fun w =>
  match r with
  | .ok a => ⟨.ok (.ok a), w, []⟩
  | .err e => ⟨.ok (.error e), w, []⟩
  | .panic p => ⟨.panic p, w, []⟩

/-- The call `s.logger.Errorf(ctx, format, err)`. -/
def loggerErrorf {W : Type} (format : String) (err : GoError) : Prog W Unit := fun w =>
  ⟨.ok (), w, [⟨.LoggerErrorf format err, .nil⟩]⟩

/-- The call `UUIDProvider()`. -/
def newUUID {W : Type} (s : service W) : Prog W UUID := fun w =>
  ⟨.ok (s.UUIDProvider w).1, (s.UUIDProvider w).2, [⟨.UUIDProvider, .uuid (s.UUIDProvider w).1⟩]⟩

/-- The index expression `xs[i]`: a panic when `i` is out of range. -/
def index {W α : Type} (xs : List α) (i : Int) : Prog W α :=
  if i < 0 then goPanic "index out of range"
  else
    match xs[i.toNat]? with
    | some x => Prog.pure x
    | none => goPanic "index out of range"

/-- The pointer indirection `*p`: a panic when `p` is nil. -/
def deref {W α : Type} (p : Option α) : Prog W α :=
  match p with
  | some a => Prog.pure a
  | none => goPanic "nil pointer dereference"

/-! ## The orchestrator (`internal/service/service.go`) -/

/-- Method `service.Transact`. A function literal that hands a result to its caller by
assigning a variable of the caller returns that result here, and `Transact` passes it on when
it returns nil. -/
def service.Transact {W α : Type} (s : service W) (fn : Prog W α) : Prog W α := do
  match ← call .BeginTx s.dbRepo.BeginTx with
  | .error err => ret (.wrap "failed to begin transaction: " err)
  | .ok () =>
    match ← attempt fn with
    | .error err =>
      match ← call .Rollback s.dbRepo.Rollback with
      | .error err2 =>
        loggerErrorf "failed to rollback transaction: %w" err2
        ret (.wrap "failed to exec transaction: " err)
      | .ok () => ret (.wrap "failed to exec transaction: " err)
    | .ok a =>
      match ← call .Commit s.dbRepo.Commit with
      | .error err => ret (.wrap "failed to commit transaction: " err)
      | .ok () => pure a

/-- The function literal that `HandleSurveyCommand` passes to `Transact`. -/
def service.HandleSurveyCommandTx {W : Type} (s : service W) (ctx : Context) (surveyID : Int) :
    Prog W Unit := do
  let user : User ←
    match ← callV (.GetUserByID ctx.UserID) .user (s.dbRepo.GetUserByID ctx.UserID) with
    | .error err =>
      if err.Is .ErrNotFound then do
        let guid ← newUUID s
        let user : User :=
          { GUID := guid, UserID := ctx.UserID, ChatID := ctx.ChatID, Nickname := ctx.Nickname,
            CurrentSurvey := none, LastActivity := 0 }
        match ← call (.CreateUser user) (s.dbRepo.CreateUser user) with
        | .error err => ret (.wrap "failed to create user: " err)
        | .ok () => pure user
      else ret (.wrap "failed to get user: " err)
    | .ok user => pure user
  let survey : Survey ←
    match ← callV (.GetSurveyByID surveyID) .survey (s.dbRepo.GetSurveyByID surveyID) with
    | .error err => ret (.wrap "failed to get survey: " err)
    | .ok survey => pure survey
  let state : SurveyState ←
    match ← callV (.GetUserSurveyState user.GUID survey.GUID [ActiveState]) .state
        (s.dbRepo.GetUserSurveyState user.GUID survey.GUID [ActiveState]) with
    | .error err =>
      if err.Is .ErrNotFound then do
        let state : SurveyState :=
          { State := ActiveState, UserGUID := user.GUID, SurveyGUID := survey.GUID,
            Answers := [], Results := none }
        match ← call (.CreateUserSurveyState state) (s.dbRepo.CreateUserSurveyState state) with
        | .error err => ret (.wrap "failed to create user survey state: " err)
        | .ok () => pure state
      else ret (.wrap "failed to get user survey state: " err)
    | .ok state =>
      if state.State = FinishedState then do
        match ← call (.SendMessage responses.SurveyAlreadyFinished)
            (s.telegramRepo.SendMessage responses.SurveyAlreadyFinished) with
        | .error err => loggerErrorf "failed to send error message: %w" err
        | .ok () => pure ()
        ret (.new "survey already finished")
      else pure state
  match ← call (.UpdateUserCurrentSurvey user.GUID survey.GUID)
      (s.dbRepo.UpdateUserCurrentSurvey user.GUID survey.GUID) with
  | .error err => ret (.wrap "failed to update user: " err)
  | .ok () => pure ()
  match ← call (.UpdateUserLastActivity user.GUID) (s.dbRepo.UpdateUserLastActivity user.GUID) with
  | .error err => ret (.wrap "failed to update user's last activity: " err)
  | .ok () => pure ()
  let lastQuestionNumber : Int := (state.Answers.length : Int) - 1
  let lastQuestion ← index survey.Questions (lastQuestionNumber + 1)
  match ← call (.SendSurveyQuestion lastQuestion) (s.telegramRepo.SendSurveyQuestion lastQuestion) with
  | .error err => ret (.wrap "failed to send survey question: " err)
  | .ok () => pure ()

/-- Method `service.HandleSurveyCommand`. -/
def service.HandleSurveyCommand {W : Type} (s : service W) (ctx : Context) (surveyID : Int) :
    Prog W Unit := do
  match ← attempt (s.Transact (s.HandleSurveyCommandTx ctx surveyID)) with
  | .error err => ret (.wrap "failed to transact: " err)
  | .ok () => pure ()

/-- The text `errText` that `handleAnswerValidateError` picks for an error. -/
def handleAnswerValidateErrorText (err : GoError) : String :=
  if err.Is .ErrParseAnswerTypeSegment then responses.AnswerNotANumber
  else if err.Is .ErrParseAnswerTypeSelect then responses.AnswerNotANumber
  else if err.Is .ErrParseAnswerTypeMultiSelect then responses.AnswerNotANumber
  else if err.Is .ErrAnswerOutOfRange then responses.AnswerOutOfRange
  else if err.Is .ErrAnswerNotFound then responses.AnswerNotFound
  else "failed to parse answer"

/-- Method `service.handleAnswerValidateError`. -/
def service.handleAnswerValidateError {W : Type} (s : service W) (err : GoError) : Prog W Unit := do
  let errText := handleAnswerValidateErrorText err
  match ← call (.CtxSend errText) (s.ctxSend errText) with
  | .error err => loggerErrorf "failed to send error message: %w" err
  | .ok () => pure ()

/-- The function literal that `HandleAnswer` passes to `Transact`. -/
def service.HandleAnswerTx {W : Type} (s : service W) (ctx : Context) (msg : String) :
    Prog W Unit := do
  let user : User ←
    match ← callV (.GetUserByID ctx.UserID) .user (s.dbRepo.GetUserByID ctx.UserID) with
    | .error err =>
      if err.Is .ErrNotFound then do
        let guid ← newUUID s
        let user : User :=
          { GUID := guid, UserID := ctx.UserID, ChatID := ctx.ChatID, Nickname := ctx.Nickname,
            CurrentSurvey := none, LastActivity := 0 }
        match ← call (.CreateUser user) (s.dbRepo.CreateUser user) with
        | .error err => ret (.wrap "failed to create user: " err)
        | .ok () => pure user
      else ret (.wrap "failed to get user: " err)
    | .ok user => pure user
  match ← call (.UpdateUserLastActivity user.GUID) (s.dbRepo.UpdateUserLastActivity user.GUID) with
  | .error err => ret (.wrap "failed to update user's last activity: " err)
  | .ok () => pure ()
  if user.CurrentSurvey = none then do
    match ← call (.SendMessage responses.ChooseSurvey)
        (s.telegramRepo.SendMessage responses.ChooseSurvey) with
    | .error err => loggerErrorf "failed to send error message: %w" err
    | .ok () => pure ()
    ret (.new "user does not have current survey")
  else pure ()
  let currentSurvey : UUID ← deref user.CurrentSurvey
  let state : SurveyState ←
    match ← callV (.GetUserSurveyState user.GUID currentSurvey [ActiveState]) .state
        (s.dbRepo.GetUserSurveyState user.GUID currentSurvey [ActiveState]) with
    | .error err => ret (.wrap "failed to get user survey state: " err)
    | .ok state => pure state
  let survey : Survey ←
    match ← callV (.GetSurvey currentSurvey) .survey (s.dbRepo.GetSurvey currentSurvey) with
    | .error err => ret (.wrap "failed to get survey: " err)
    | .ok survey => pure survey
  let lastQuestionNumber : Int := state.Answers.length
  if lastQuestionNumber ≥ survey.Questions.length then
    ret (.new "last question is out of range")
  else do
    let lastQuestion ← index survey.Questions lastQuestionNumber
    let answer : Answer ←
      match ← tryRes (lastQuestion.GetAnswer msg) with
      | .error err => do
        s.handleAnswerValidateError err
        ret (.wrap "failed to get answer: " err)
      | .ok answer => pure answer
    let state : SurveyState := { state with Answers := state.Answers ++ [answer] }
    let state : SurveyState ←
      if lastQuestionNumber = (survey.Questions.length : Int) - 1 then do
        let results : Results ←
          match ← callV (.GetResults survey state.Answers) .results
              (s.rsltProc.GetResults survey state.Answers) with
          | .error err => ret (.wrap "failed to get results: " err)
          | .ok results => pure results
        match ← call (.SetUserCurrentSurveyToNil user.GUID)
            (s.dbRepo.SetUserCurrentSurveyToNil user.GUID) with
        | .error err => ret (.wrap "failed to set current user survey to null: " err)
        | .ok () => pure ()
        match ← call (.SendMessage results.Text) (s.telegramRepo.SendMessage results.Text) with
        | .error err => loggerErrorf "failed to send results: %w" err
        | .ok () => pure ()
        pure { state with State := FinishedState, Results := some results }
      else do
        let nextQuestion ← index survey.Questions (lastQuestionNumber + 1)
        match ← call (.SendSurveyQuestion nextQuestion)
            (s.telegramRepo.SendSurveyQuestion nextQuestion) with
        | .error err => ret (.wrap "failed to send survey question: " err)
        | .ok () => pure state
    match ← call (.UpdateActiveUserSurveyState state)
        (s.dbRepo.UpdateActiveUserSurveyState state) with
    | .error err => ret (.wrap "failed to update user survey state: " err)
    | .ok () => pure ()

/-- Method `service.HandleAnswer`. -/
def service.HandleAnswer {W : Type} (s : service W) (ctx : Context) (msg : String) :
    Prog W Unit := do
  match ← attempt (s.Transact (s.HandleAnswerTx ctx msg)) with
  | .error err => ret (.wrap "failed to transact: " err)
  | .ok () => pure ()

/-- The loop of `CreateSurvey` over the existing surveys: the value of `maxSurveyID` after
it, the largest `ID` above 0, or 0. -/
def maxSurveyID (surveys : List Survey) : Int :=
  surveys.foldl (fun maxSurveyID survey =>
    if survey.ID > maxSurveyID then survey.ID else maxSurveyID) 0

/-- The function literal that `CreateSurvey` passes to `Transact`; it returns the variable
`survey` of `CreateSurvey`, which it assigns. -/
def service.CreateSurveyTx {W : Type} (s : service W) (survey : Survey) : Prog W Survey := do
  match ← call (.Validate survey) (s.rsltProc.Validate survey) with
  | .error err => ret (.wrap "failed to validate survey: " err)
  | .ok () => pure ()
  let surveys : List Survey ←
    match ← callV .GetSurveysList .surveys s.dbRepo.GetSurveysList with
    | .error err => ret (.wrap "failed to get surveys list: " err)
    | .ok surveys => pure surveys
  let survey : Survey := { survey with ID := wrapInt64 (maxSurveyID surveys + 1) }
  let guid ← newUUID s
  let survey : Survey := { survey with GUID := guid }
  match ← call (.CreateSurvey survey) (s.dbRepo.CreateSurvey survey) with
  | .error err => ret (.wrap "failed to create survey: " err)
  | .ok () => pure survey

/-- Method `service.CreateSurvey`. -/
def service.CreateSurvey {W : Type} (s : service W) (survey : Survey) : Prog W Survey := do
  match ← attempt (s.Transact (s.CreateSurveyTx survey)) with
  | .error err => ret (.wrap "failed to transact: " err)
  | .ok survey => pure survey

/-- The function literal that `UpdateSurvey` passes to `Transact`. -/
def service.UpdateSurveyTx {W : Type} (s : service W) (new : Survey) : Prog W Unit := do
  let old : Survey ←
    match ← callV (.GetSurvey new.GUID) .survey (s.dbRepo.GetSurvey new.GUID) with
    | .error err => ret (.wrap "failed to find survey: " err)
    | .ok old => pure old
  if old.Questions.length ≠ new.Questions.length then
    ret (.new "cannot update survey with different number of questions")
  else do
    let old : Survey :=
      { old with Name := new.Name, Questions := new.Questions,
                 CalculationsType := new.CalculationsType, Description := new.Description }
    match ← call (.UpdateSurvey old) (s.dbRepo.UpdateSurvey old) with
    | .error err => ret (.wrap "failed to update survey: " err)
    | .ok () => pure ()

/-- Method `service.UpdateSurvey`. -/
def service.UpdateSurvey {W : Type} (s : service W) (new : Survey) : Prog W Unit := do
  match ← attempt (s.Transact (s.UpdateSurveyTx new)) with
  | .error err => ret (.wrap "failed to transact: " err)
  | .ok () => pure ()

/-- The call `sort.Slice(all, ...)` of `sendUserSurveyList`: the surveys in ascending `ID`.
Surveys with the same `ID`, whose order `sort.Slice` does not fix, keep the order they had. -/
def sortByID (all : List Survey) : List Survey :=
  all.insertionSort (fun a b => a.ID ≤ b.ID)

/-- The inner loop of `sendUserSurveyList`: the state of the first of the user's states that
is for the survey, `not_started` when there is none. -/
def displayState (userStates : List SurveyState) (surveyGUID : UUID) : State :=
  match userStates.find? (fun userState => userState.SurveyGUID = surveyGUID) with
  | some userState => userState.State
  | none => NotStartedState

/-- Method `service.sendUserSurveyList`. -/
def service.sendUserSurveyList {W : Type} (s : service W) (user : User) : Prog W Unit := do
  let all : List Survey ←
    match ← callV .GetSurveysList .surveys s.dbRepo.GetSurveysList with
    | .error err => ret (.wrap "failed to get all surveys: " err)
    | .ok all => pure all
  let userStates : List SurveyState ←
    match ← callV (.GetUserSurveyStates user.GUID [ActiveState]) .states
        (s.dbRepo.GetUserSurveyStates user.GUID [ActiveState]) with
    | .error err => ret (.wrap "failed to get user survey states: " err)
    | .ok userStates => pure userStates
  let all := sortByID all
  let states : List UserSurveyState :=
    all.map (fun survey =>
      { UserGUID := user.GUID, Survey := survey, State := displayState userStates survey.GUID,
        IsCurrent := decide (user.CurrentSurvey = some survey.GUID) })
  match ← call (.SendSurveyList states) (s.telegramRepo.SendSurveyList states) with
  | .error err => ret (.wrap "failed to send survey list: " err)
  | .ok () => pure ()

/-- The function literal that `HandleStartCommand` passes to `Transact`. -/
def service.HandleStartCommandTx {W : Type} (s : service W) (ctx : Context) : Prog W Unit := do
  let user : User ←
    match ← callV (.GetUserByID ctx.UserID) .user (s.dbRepo.GetUserByID ctx.UserID) with
    | .error err =>
      if err.Is .ErrNotFound then do
        let guid ← newUUID s
        let user : User :=
          { GUID := guid, UserID := ctx.UserID, ChatID := ctx.ChatID, Nickname := ctx.Nickname,
            CurrentSurvey := none, LastActivity := 0 }
        match ← call (.CreateUser user) (s.dbRepo.CreateUser user) with
        | .error err => ret (.wrap "failed to create user: " err)
        | .ok () => pure user
      else ret (.wrap "failed to create user: " err)
    | .ok user => pure user
  match ← call (.UpdateUserLastActivity user.GUID) (s.dbRepo.UpdateUserLastActivity user.GUID) with
  | .error err => ret (.wrap "failed to update user's last activity: " err)
  | .ok () => pure ()
  match ← attempt (s.sendUserSurveyList user) with
  | .error err => ret (.wrap "failed to send user survey list: " err)
  | .ok () => pure ()

/-- Method `service.HandleStartCommand`. -/
def service.HandleStartCommand {W : Type} (s : service W) (ctx : Context) : Prog W Unit := do
  match ← attempt (s.Transact (s.HandleStartCommandTx ctx)) with
  | .error err => ret (.wrap "failed to transact: " err)
  | .ok () => pure ()

/-- The function literal that `HandleListCommand` passes to `Transact`. -/
def service.HandleListCommandTx {W : Type} (s : service W) (ctx : Context) : Prog W Unit := do
  let user : User ←
    match ← callV (.GetUserByID ctx.UserID) .user (s.dbRepo.GetUserByID ctx.UserID) with
    | .error err =>
      if err.Is .ErrNotFound then do
        let guid ← newUUID s
        let user : User :=
          { GUID := guid, UserID := ctx.UserID, ChatID := ctx.ChatID, Nickname := ctx.Nickname,
            CurrentSurvey := none, LastActivity := 0 }
        match ← call (.CreateUser user) (s.dbRepo.CreateUser user) with
        | .error err => ret (.wrap "failed to create user: " err)
        | .ok () => pure user
      else ret (.wrap "failed to get user: " err)
    | .ok user => pure user
  match ← call (.UpdateUserLastActivity user.GUID) (s.dbRepo.UpdateUserLastActivity user.GUID) with
  | .error err => ret (.wrap "failed to update user's last activity: " err)
  | .ok () => pure ()
  match ← attempt (s.sendUserSurveyList user) with
  | .error err => ret (.wrap "failed to send user survey list: " err)
  | .ok () => pure ()

/-- Method `service.HandleListCommand`. -/
def service.HandleListCommand {W : Type} (s : service W) (ctx : Context) : Prog W Unit := do
  match ← attempt (s.Transact (s.HandleListCommandTx ctx)) with
  | .error err => ret (.wrap "failed to transact: " err)
  | .ok () => pure ()

/-- Method `service.GetUserByGUID`. -/
def service.GetUserByGUID {W : Type} (s : service W) (guid : UUID) : Prog W User := do
  let fn : Prog W User := do
    match ← callV (.GetUserByGUID guid) .user (s.dbRepo.GetUserByGUID guid) with
    | .error err => ret err
    | .ok user => pure user
  match ← attempt (s.Transact fn) with
  | .error err => ret (.wrap "failed to transact: " err)
  | .ok user => pure user

/-- Method `service.SetUserCurrentSurveyToNil`. -/
def service.SetUserCurrentSurveyToNil {W : Type} (s : service W) (userGUID : UUID) :
    Prog W Unit := do
  let fn : Prog W Unit := do
    match ← call (.SetUserCurrentSurveyToNil userGUID)
        (s.dbRepo.SetUserCurrentSurveyToNil userGUID) with
    | .error err => ret err
    | .ok () => pure ()
  match ← attempt (s.Transact fn) with
  | .error err => ret (.wrap "failed to transact: " err)
  | .ok () => pure ()

/-- Method `service.DeleteUserSurvey`. -/
def service.DeleteUserSurvey {W : Type} (s : service W) (userGUID surveyGUID : UUID) :
    Prog W Unit := do
  let fn : Prog W Unit := do
    match ← call (.DeleteUserSurveyState userGUID surveyGUID)
        (s.dbRepo.DeleteUserSurveyState userGUID surveyGUID) with
    | .error err => ret err
    | .ok () => pure ()
  match ← attempt (s.Transact fn) with
  | .error err => ret (.wrap "failed to transact: " err)
  | .ok () => pure ()

/-- The header row that `SaveFinishedSurveys` writes. -/
def csvHeader : List String :=
  ["survey_guid", "survey_name", "user_guid", "user_id", "text", "metadata", "started_at",
    "finished_at", "answers"]

/-- The type `subcommands.ExitStatus` (the two values the command returns). -/
inductive ExitStatus
  | ExitSuccess
  | ExitFailure
  deriving DecidableEq, Repr

/-- Method `DeleteUserInfoCmd.Execute`, from the point where the two arguments are parsed and
the service is built. -/
def DeleteUserInfoCmd.Execute {W : Type} (svc : service W) (userGUID surveyGUID : UUID) :
    Prog W ExitStatus := do
  match ← attempt (svc.GetUserByGUID userGUID) with
  | .error err => do
    loggerErrorf "failed to get user by guid: %s" err
    pure .ExitFailure
  | .ok user =>
    let cleared : Prog W (Except GoError Unit) :=
      if user.CurrentSurvey ≠ none then attempt (svc.SetUserCurrentSurveyToNil userGUID)
      else pure (.ok ())
    match ← cleared with
    | .error err => do
      loggerErrorf "failed to update user: %s" err
      pure .ExitFailure
    | .ok () =>
      match ← attempt (svc.DeleteUserSurvey userGUID surveyGUID) with
      | .error err => do
        loggerErrorf "failed to delete user survey: %s" err
        pure .ExitFailure
      | .ok () => pure .ExitSuccess

/-! ## Collaborators for concrete runs -/

/-- The predicate `unicode.IsUpper` on the Latin-1 range (the letters `A` to `Z`, `À` to `Ö`
and `Ø` to `Þ`), `false` above it: it stands for `unicode.IsUpper` in the concrete runs, whose
texts are ASCII. Above U+00FF it is not `unicode.IsUpper`, which holds of the capital letters
of other scripts too (a question text that starts with a Cyrillic capital is valid for the
code): the general statements take the predicate as an argument, and a run over `memService`
is a run of the code only for texts within Latin-1. -/
def isUpperLatin1 (r : Char) : Bool :=
  (0x41 ≤ r.toNat && r.toNat ≤ 0x5A) || (0xC0 ≤ r.toNat && r.toNat ≤ 0xD6) ||
    (0xD8 ≤ r.toNat && r.toNat ≤ 0xDE)


/-- Collaborators with scripted answers, like the mocks of `service_test.go`: the lookups
answer what the script says (a list is the one element of the script), every other call
succeeds, and nothing is stored. -/
structure Script where
  user : Except GoError User
  survey : Except GoError Survey
  state : Except GoError SurveyState
  results : Except GoError Results

/-- The service over scripted collaborators. -/
def Script.service (sc : Script) : service Unit where
  telegramRepo :=
    { SendSurveyQuestion := fun _ w => (.ok (), w)
      SendMessage := fun _ w => (.ok (), w)
      SendSurveyList := fun _ w => (.ok (), w) }
  dbRepo :=
    { BeginTx := fun w => (.ok (), w)
      Commit := fun w => (.ok (), w)
      Rollback := fun w => (.ok (), w)
      GetSurvey := fun _ w => (sc.survey, w)
      GetSurveyByID := fun _ w => (sc.survey, w)
      GetUserByID := fun _ w => (sc.user, w)
      CreateUser := fun _ w => (.ok (), w)
      UpdateUserCurrentSurvey := fun _ _ w => (.ok (), w)
      UpdateUserLastActivity := fun _ w => (.ok (), w)
      SetUserCurrentSurveyToNil := fun _ w => (.ok (), w)
      GetUserSurveyState := fun _ _ _ w => (sc.state, w)
      CreateUserSurveyState := fun _ w => (.ok (), w)
      UpdateActiveUserSurveyState := fun _ w => (.ok (), w)
      GetSurveysList := fun w => (sc.survey.map (fun survey => [survey]), w)
      CreateSurvey := fun _ w => (.ok (), w)
      UpdateSurvey := fun _ w => (.ok (), w)
      GetUserSurveyStates := fun _ _ w => (sc.state.map (fun state => [state]), w)
      GetUserByGUID := fun _ w => (sc.user, w)
      DeleteUserSurveyState := fun _ _ w => (.ok (), w) }
  rsltProc := { GetResults := fun _ _ w => (sc.results, w), Validate := fun _ w => (.ok (), w) }
  UUIDProvider := fun w => (1, w)
  ctxSend := fun _ w => (.ok (), w)

/-- The tables the two handlers touch. `surveys` holds the rows with `deleted_at IS NULL`, the
only ones the queries of `db.go` see. -/
structure DB where
  users : List User
  surveys : List Survey
  survey_states : List SurveyState
  deriving DecidableEq, Repr

/-- An in-memory database: the tables as the open transaction sees them, the tables as last
committed, the clock and the next identifier `UUIDProvider` hands out. -/
structure Store where
  db : DB
  committed : DB
  now : Time
  nextGUID : UUID
  deriving DecidableEq, Repr

/-- The queries of `internal/repository/db/db.go` over the in-memory database: a `SELECT` with
`GetContext` gives the first matching row or `ErrNotFound`, an `INSERT` appends a row (for
`users` after the unique checks on `guid` and `user_id` that `CreateUser` reports as
`ErrAlreadyExists`), an `UPDATE` rewrites the rows its `WHERE` selects. `BeginTx` starts from
the committed tables, `Commit` keeps the changes and `Rollback` drops them. -/
def memRepo : DBRepo Store where
  BeginTx := fun w => (.ok (), { w with db := w.committed })
  Commit := fun w => (.ok (), { w with committed := w.db })
  Rollback := fun w => (.ok (), { w with db := w.committed })
  GetSurvey := fun surveyGUID w =>
    match w.db.surveys.find? (fun x => x.GUID = surveyGUID) with
    | some x => (.ok x, w)
    | none => (.error (.sentinel .ErrNotFound), w)
  GetSurveyByID := fun surveyID w =>
    match w.db.surveys.find? (fun x => x.ID = surveyID) with
    | some x => (.ok x, w)
    | none => (.error (.sentinel .ErrNotFound), w)
  GetUserByID := fun userID w =>
    match w.db.users.find? (fun x => x.UserID = userID) with
    | some x => (.ok x, w)
    | none => (.error (.sentinel .ErrNotFound), w)
  CreateUser := fun u w =>
    if w.db.users.any (fun x => x.GUID = u.GUID || x.UserID = u.UserID) then
      (.error (.sentinel .ErrAlreadyExists), w)
    else
      (.ok (), { w with db := { w.db with users := w.db.users ++ [{ u with LastActivity := w.now }] } })
  UpdateUserCurrentSurvey := fun userGUID surveyGUID w =>
    (.ok (), { w with db := { w.db with users := w.db.users.map (fun x =>
      if x.GUID = userGUID then { x with CurrentSurvey := some surveyGUID, LastActivity := w.now }
      else x) } })
  UpdateUserLastActivity := fun userGUID w =>
    (.ok (), { w with db := { w.db with users := w.db.users.map (fun x =>
      if x.GUID = userGUID then { x with LastActivity := w.now } else x) } })
  SetUserCurrentSurveyToNil := fun userGUID w =>
    (.ok (), { w with db := { w.db with users := w.db.users.map (fun x =>
      if x.GUID = userGUID then { x with CurrentSurvey := none } else x) } })
  GetUserSurveyState := fun userGUID surveyGUID states w =>
    match w.db.survey_states.find? (fun x =>
      x.UserGUID = userGUID && x.SurveyGUID = surveyGUID && states.contains x.State) with
    | some x => (.ok x, w)
    | none => (.error (.sentinel .ErrNotFound), w)
  CreateUserSurveyState := fun state w =>
    (.ok (), { w with db := { w.db with survey_states := w.db.survey_states ++ [state] } })
  UpdateActiveUserSurveyState := fun state w =>
    (.ok (), { w with db := { w.db with survey_states := w.db.survey_states.map (fun x =>
      if x.UserGUID = state.UserGUID ∧ x.SurveyGUID = state.SurveyGUID ∧ x.State = "active" then
        { x with State := state.State, Answers := state.Answers, Results := state.Results }
      else x) } })
  GetSurveysList := fun w => (.ok w.db.surveys, w)
  CreateSurvey := fun s w =>
    (.ok (), { w with db := { w.db with surveys := w.db.surveys ++ [s] } })
  UpdateSurvey := fun s w =>
    (.ok (), { w with db := { w.db with surveys := w.db.surveys.map (fun x =>
      if x.GUID = s.GUID then
        { x with Name := s.Name, Questions := s.Questions,
                 CalculationsType := s.CalculationsType, Description := s.Description }
      else x) } })
  GetUserSurveyStates := fun userGUID states w =>
    (.ok (w.db.survey_states.filter (fun x => x.UserGUID = userGUID && states.contains x.State)),
      w)
  GetUserByGUID := fun userGUID w =>
    match w.db.users.find? (fun x => x.GUID = userGUID) with
    | some x => (.ok x, w)
    | none => (.error (.wrap "failed to exec query: " (.new "sql: no rows in result set")), w)
  DeleteUserSurveyState := fun userGUID surveyGUID w =>
    (.ok (), { w with db := { w.db with survey_states := w.db.survey_states.filter (fun x =>
      !(x.UserGUID = userGUID && x.SurveyGUID = surveyGUID)) } })

/-- The service over the in-memory database, with a results processor whose `GetResults` is
given as a function and whose `Validate` is `processor.Validate`; messages to the chat are
always delivered. -/
def memService (GetResults : Survey → List Answer → Except GoError Results) : service Store where
  telegramRepo :=
    { SendSurveyQuestion := fun _ w => (.ok (), w)
      SendMessage := fun _ w => (.ok (), w)
      SendSurveyList := fun _ w => (.ok (), w) }
  dbRepo := memRepo
  rsltProc :=
    { GetResults := fun survey answers w => (GetResults survey answers, w)
      Validate := fun survey w => (processor.Validate isUpperLatin1 survey, w) }
  UUIDProvider := fun w => (w.nextGUID, { w with nextGUID := w.nextGUID + 1 })
  ctxSend := fun _ w => (.ok (), w)

/-! ## Sequences of commands -/

/-- An update handled by the service: the `/survey` command or an answer. -/
inductive Command
  | survey (ctx : Context) (surveyID : Int)
  | answer (ctx : Context) (msg : String)
  deriving DecidableEq, Repr

/-- The handler for one update. -/
def service.handle {W : Type} (s : service W) : Command → Prog W Unit
  | .survey ctx surveyID => s.HandleSurveyCommand ctx surveyID
  | .answer ctx msg => s.HandleAnswer ctx msg

/-- The trace of handling a list of updates one after the other; an error or a panic of one
handler (recovered by the listener) does not stop the next. -/
def service.handleAll {W : Type} (s : service W) : List Command → W → List Event
  | [], _ => []
  | c :: cs, w => (s.handle c w).trace ++ s.handleAll cs (s.handle c w).world

/-- The survey state a call writes, for the two calls that write one. -/
def Call.written : Call → Option SurveyState
  | .CreateUserSurveyState state => some state
  | .UpdateActiveUserSurveyState state => some state
  | _ => none

/-- The survey states written by the calls of a trace, in order. -/
def writtenStates (trace : List Event) : List SurveyState :=
  trace.filterMap (fun e => e.call.written)

/-- What a store that started empty guarantees of one answer, given the states written before
it and the surveys on record: a survey state returned by `GetUserSurveyState` is keyed by the
survey asked for and was written before, and a survey returned by `GetSurvey` is the one on
record under that identifier. -/
def Event.fromStore (catalogue : UUID → Option Survey) (before : List SurveyState) (e : Event) :
    Bool :=
  match e.call, e.resp with
  | .GetUserSurveyState _ surveyGUID _, .state state =>
    decide (state.SurveyGUID = surveyGUID) && before.contains state
  | .GetSurvey surveyGUID, .survey survey => decide (catalogue surveyGUID = some survey)
  | _, _ => true

/-- Every answer of the trace is one a store that started with the states `before` gives. -/
def fromStore (catalogue : UUID → Option Survey) : List SurveyState → List Event → Bool
  | _, [] => true
  | before, e :: rest =>
    e.fromStore catalogue before &&
      fromStore catalogue (before ++ (e.call.written).toList) rest

/-- The two conditions on a stored survey state: no more answers than the survey on record
has questions, and results present exactly when the state is finished. -/
def SurveyState.wellFormed (catalogue : UUID → Option Survey) (state : SurveyState) : Prop :=
  (∀ survey, catalogue state.SurveyGUID = some survey →
      state.Answers.length ≤ survey.Questions.length) ∧
    (state.Results ≠ none ↔ state.State = FinishedState)

/-! ## Decimal numerals, as the specification reads them -/

/-- The value of a decimal digit. -/
def digitValue (c : Char) : Option Nat :=
  if '0'.toNat ≤ c.toNat ∧ c.toNat ≤ '9'.toNat then some (c.toNat - '0'.toNat) else none

/-- The number written by decimal digits after a number `n` already read; `none` when a
character is not a decimal digit. -/
def decimalValueFrom (n : Nat) : List Char → Option Nat
  | [] => some n
  | c :: cs =>
    match digitValue c with
    | none => none
    | some d => decimalValueFrom (n * 10 + d) cs

/-- The natural number written by one or more decimal digits. -/
def decimalValue (cs : List Char) : Option Nat :=
  if cs = [] then none else decimalValueFrom 0 cs

/-- A natural number, if any, taken with a sign. -/
def signed (neg : Bool) : Option Nat → Option Int
  | none => none
  | some n => some (if neg then -(n : Int) else (n : Int))

/-- The integer a text writes in base 10: an optional sign `+` or `-`, then one or more decimal
digits; `none` for any other text. No bound on the size. -/
def base10Integer (s : String) : Option Int :=
  match s.data with
  | [] => none
  | c :: cs =>
    if c = '+' then signed false (decimalValue cs)
    else if c = '-' then signed true (decimalValue cs)
    else signed false (decimalValue (c :: cs))

/-- The values of Go's `int64` (and of `int` on a 64-bit platform). -/
abbrev isInt64 (v : Int) : Prop := -(2 : Int) ^ 63 ≤ v ∧ v < (2 : Int) ^ 63

/-! ## Validation, as the specification reads it -/

/-- The static invariants of a question, as the specification lists them: a non-empty text
that starts with an upper-case letter and ends with `?` or `.`, no empty answer text, one of
the three answer types, two possible answers for a segment question, and for a select or
multiselect question a non-empty list of possible answers as long as the list of answer
texts. -/
abbrev Question.staticInvariants (IsUpper : Char → Bool) (q : Question) : Prop :=
  q.Text ≠ "" ∧
  q.Text.data.head?.map IsUpper = some true ∧
  (q.Text.data.getLast? = some '?' ∨ q.Text.data.getLast? = some '.') ∧
  (∀ t ∈ q.AnswersText, t ≠ "") ∧
  ((q.AnswerType = AnswerTypeSegment ∧ q.PossibleAnswers.length = 2) ∨
    ((q.AnswerType = AnswerTypeSelect ∨ q.AnswerType = AnswerTypeMultiSelect) ∧
      q.PossibleAnswers ≠ [] ∧ q.PossibleAnswers.length = q.AnswersText.length))

/-- A scoring type is registered: it is a key of the map `calculationsType`. -/
abbrev isRegistered (key : String) : Prop := key ∈ calculationsType.map Prod.fst

/-! ## Queries of the repository (`internal/repository/db/db.go`) -/

/-- An argument handed to the database with a query. -/
inductive SqlArg
  | int (v : Int)
  | state (s : State)
  | time (t : Time)
  deriving DecidableEq, Repr

/-- The `switch` of `GetFinishedSurveys`: the condition `filter` and the arguments `args` it
builds for a filter, a batch size and an offset. -/
def finishedSurveysFilter (f : ResultsFilter) (batchSize offset : Int) : String × List SqlArg :=
  let args : List SqlArg := [.int batchSize, .int offset]
  match f.From, f.To with
  | none, none => ("state = $3", args ++ [.state FinishedState])
  | none, some t2 => ("state = $3 AND updated_at < $4", args ++ [.state FinishedState, .time t2])
  | some t1, none =>
    ("state = $3 AND updated_at >= $5", args ++ [.state FinishedState, .time t1])
  | some t1, some t2 =>
    ("state = $3 AND updated_at >= $4 AND updated_at < $5",
      args ++ [.state FinishedState, .time t1, .time t2])

/-- The `switch` of `handleResultsCommand` (`internal/listener/handler.go`): the filter it
hands to `HandleResultsCommand` for the arguments of the command, `none` when it answers the
user instead (a date that does not parse, more than two arguments). The function
`time.Parse("2006-01-02", _)` is an argument. -/
def handleResultsCommandFilter (parse : String → Except GoError Time) (args : List String) :
    Option ResultsFilter :=
  match args with
  | [] => some { From := none, To := none }
  | [a1] =>
    match parse a1 with
    | .error _ => none
    | .ok t1 => some { From := some t1, To := none }
  | [a1, a2] =>
    match parse a1 with
    | .error _ => none
    | .ok t1 =>
      match parse a2 with
      | .error _ => none
      | .ok t2 => some { From := some t1, To := some t2 }
  | _ => none

/-- The positional placeholders `$n` of a query text, in order. -/
def placeholdersOf : List Char → List Nat
  | [] => []
  | c :: cs =>
    if c = '$' then
      match decimalValue (cs.takeWhile Char.isDigit) with
      | some n => n :: placeholdersOf cs
      | none => placeholdersOf cs
    else placeholdersOf cs

/-- The positional placeholders of a query text. -/
def placeholders (query : String) : List Nat := placeholdersOf query.data

/-- The struct `userListReportResponse` (`internal/repository/db/model.go`): a row that the
query of `GetUsersList` fetches; `none` is the nil pointer of a column that is NULL, and
`Answers` holds the JSON text of the column. -/
structure userListReportResponse where
  GUID : UUID
  NickName : String
  CreatedAt : Time
  LastActivity : Time
  SurveyState : Option State
  Answers : Option String
  deriving DecidableEq, Repr

/-- The struct `UserReport` of `contract.go`. -/
structure UserReport where
  GUID : UUID
  NickName : String
  CompletedTests : Int
  AnsweredQuestions : Int
  RegisteredAt : Time
  LastActivity : Time
  deriving DecidableEq, Repr

/-- The zero value of `UserReport`, which a Go map gives for a key it does not hold. -/
def UserReport.zero : UserReport :=
  { GUID := 0, NickName := "", CompletedTests := 0, AnsweredQuestions := 0, RegisteredAt := 0,
    LastActivity := 0 }

/-- The map `result` of `GetUsersList`: its keys, in the order in which they were first set,
and the value under every key (the zero value under a key it does not hold). -/
structure ReportMap where
  keys : List UUID
  value : UUID → UserReport

/-- The empty map. -/
def ReportMap.empty : ReportMap := { keys := [], value := fun _ => UserReport.zero }

/-- The assignment `result[g] = v`. -/
def ReportMap.set (m : ReportMap) (g : UUID) (v : UserReport) : ReportMap :=
  { keys := if g ∈ m.keys then m.keys else m.keys ++ [g], value := Function.update m.value g v }

/-- The loop of `GetUsersList` over the fetched rows. The function `json.Unmarshal` into a
slice of answers is an argument. The two counters are bounded by the number of rows and of
answers in memory, so that they do not overflow. -/
def aggregateUsers (unmarshal : String → Except GoError (List Answer)) :
    List userListReportResponse → ReportMap → Except GoError ReportMap
  | [], result => .ok result
  | u :: rest, result =>
    let userResult := result.value u.GUID
    let userResult :=
      if u.SurveyState = some FinishedState then
        { userResult with CompletedTests := userResult.CompletedTests + 1 }
      else userResult
    let userResult :=
      { userResult with NickName := u.NickName, GUID := u.GUID, RegisteredAt := u.CreatedAt,
                        LastActivity := u.LastActivity }
    match u.Answers with
    | none => aggregateUsers unmarshal rest (result.set u.GUID userResult)
    | some raw =>
      match unmarshal raw with
      | .error err => .error (.wrap "failed to unmarshal answers: " err)
      | .ok answers =>
        aggregateUsers unmarshal rest (result.set u.GUID
          { userResult with
            AnsweredQuestions := userResult.AnsweredQuestions + answers.length })

/-- The function `less` that `GetUsersList` hands to `sort.Slice`: the later `LastActivity`
first and, for equal ones, the smaller string form of the GUID first. The string form of a
GUID has a fixed width, so that string forms compare as the GUIDs do. -/
def lessReport (a b : UserReport) : Prop :=
  if a.LastActivity = b.LastActivity then a.GUID < b.GUID else a.LastActivity > b.LastActivity

instance (a b : UserReport) : Decidable (lessReport a b) :=
  inferInstanceAs (Decidable
    (if a.LastActivity = b.LastActivity then a.GUID < b.GUID
     else a.LastActivity > b.LastActivity))

/-- The aggregation and the sort of `GetUsersList`, from the fetched rows to the reports. The
values of the map are sorted by `less`; the order in which Go ranges over the map, which is not
fixed, does not matter to the outcome, the keys being distinct. -/
def usersListReports (unmarshal : String → Except GoError (List Answer))
    (users : List userListReportResponse) : Except GoError (List UserReport) :=
  match aggregateUsers unmarshal users ReportMap.empty with
  | .error err => .error err
  | .ok result =>
    .ok ((result.keys.map result.value).insertionSort (fun a b => ¬ lessReport b a))

/-- The number of answers of a fetched row: those its `answers` column decodes to, none for a
column that is NULL. -/
def answersOfRow (unmarshal : String → Except GoError (List Answer))
    (u : userListReportResponse) : Int :=
  match u.Answers with
  | none => 0
  | some raw =>
    match unmarshal raw with
    | .ok answers => answers.length
    | .error _ => 0

/-! ## The export, observed -/

/-- The postcondition `Q` holds of the outcome, final world and trace of `m` run from `w`. -/
def wp {W α : Type} (m : Prog W α) (Q : Res α → W → List Event → Prop) (w : W) : Prop :=
  Q (m w).res (m w).world (m w).trace

/-- What the first part of a sequence has to establish. -/
def bindPost {W α β : Type} (f : α → Prog W β) (Q : Res β → W → List Event → Prop) :
    Res α → W → List Event → Prop
  | .ok a, w, t => wp (f a) (fun r w2 t2 => Q r w2 (t ++ t2)) w
  | .err e, w, t => Q (.err e) w t
  | .panic p, w, t => Q (.panic p) w t

/-- What a program under `attempt` has to establish. -/
def attemptPost {W α : Type} (Q : Res (Except GoError α) → W → List Event → Prop) :
    Res α → W → List Event → Prop
  | .ok a, w, t => Q (.ok (.ok a)) w t
  | .err e, w, t => Q (.ok (.error e)) w t
  | .panic p, w, t => Q (.panic p) w t

/-- What the function passed to `Transact` has to establish, for the handler that wraps the
error of `Transact` to establish `Q`: after a nil error the commit, after an error the
rollback, follow; `BeginTx` precedes. -/
def txPost {W : Type} (s : service W) (Q : Res Unit → W → List Event → Prop) :
    Res Unit → W → List Event → Prop
  | .ok (), w2, t =>
    (∀ w3, s.dbRepo.Commit w2 = (.ok (), w3) →
      Q (.ok ()) w3 (⟨.BeginTx, .nil⟩ :: (t ++ [⟨.Commit, .nil⟩]))) ∧
    (∀ e w3, s.dbRepo.Commit w2 = (.error e, w3) →
      Q (.err (.wrap "failed to transact: " (.wrap "failed to commit transaction: " e))) w3
        (⟨.BeginTx, .nil⟩ :: (t ++ [⟨.Commit, .err e⟩])))
  | .err e, w2, t =>
    (∀ w3, s.dbRepo.Rollback w2 = (.ok (), w3) →
      Q (.err (.wrap "failed to transact: " (.wrap "failed to exec transaction: " e))) w3
        (⟨.BeginTx, .nil⟩ :: (t ++ [⟨.Rollback, .nil⟩]))) ∧
    (∀ e2 w3, s.dbRepo.Rollback w2 = (.error e2, w3) →
      Q (.err (.wrap "failed to transact: " (.wrap "failed to exec transaction: " e))) w3
        (⟨.BeginTx, .nil⟩ :: (t ++ [⟨.Rollback, .err e2⟩,
          ⟨.LoggerErrorf "failed to rollback transaction: %w" e2, .nil⟩])))
  | .panic p, w2, t => Q (.panic p) w2 (⟨.BeginTx, .nil⟩ :: t)

/-- A call that sends something to the chat. -/
def Call.isSend : Call → Bool
  | .SendMessage _ => true
  | .SendSurveyQuestion _ => true
  | .CtxSend _ => true
  | _ => false

/-- A call that belongs to `Transact` itself: the transaction calls and the logger. -/
def Call.isTxControl : Call → Bool
  | .BeginTx => true
  | .Commit => true
  | .Rollback => true
  | .LoggerErrorf _ _ => true
  | _ => false

/-- How `Transact` and the handler around it end, given how the function passed to `Transact`
ended: the outcome of the handler and the calls that follow those of the function. -/
def wrapRes : Res Unit → Res Unit → List Event → Prop
  | .ok (), r2, post =>
    (r2 = .ok () ∧ post = [⟨.Commit, .nil⟩]) ∨
    (∃ e, r2 = .err (.wrap "failed to transact: " (.wrap "failed to commit transaction: " e)) ∧
      post = [⟨.Commit, .err e⟩])
  | .err e0, r2, post =>
    r2 = .err (.wrap "failed to transact: " (.wrap "failed to exec transaction: " e0)) ∧
    (post = [⟨.Rollback, .nil⟩] ∨
      ∃ e2, post = [⟨.Rollback, .err e2⟩,
        ⟨.LoggerErrorf "failed to rollback transaction: %w" e2, .nil⟩])
  | .panic p, r2, post => r2 = .panic p ∧ post = []

/-- What the function passed to `Transact` has to establish for `Transact` to establish `Q`:
after a nil error the commit, after an error the rollback, follow; `BeginTx` precedes. -/
def transactPost {W α : Type} (s : service W) (Q : Res α → W → List Event → Prop) :
    Res α → W → List Event → Prop
  | .ok a, w2, t =>
    (∀ w3, s.dbRepo.Commit w2 = (.ok (), w3) →
      Q (.ok a) w3 (⟨.BeginTx, .nil⟩ :: (t ++ [⟨.Commit, .nil⟩]))) ∧
    (∀ e w3, s.dbRepo.Commit w2 = (.error e, w3) →
      Q (.err (.wrap "failed to commit transaction: " e)) w3
        (⟨.BeginTx, .nil⟩ :: (t ++ [⟨.Commit, .err e⟩])))
  | .err e, w2, t =>
    (∀ w3, s.dbRepo.Rollback w2 = (.ok (), w3) →
      Q (.err (.wrap "failed to exec transaction: " e)) w3
        (⟨.BeginTx, .nil⟩ :: (t ++ [⟨.Rollback, .nil⟩]))) ∧
    (∀ e2 w3, s.dbRepo.Rollback w2 = (.error e2, w3) →
      Q (.err (.wrap "failed to exec transaction: " e)) w3
        (⟨.BeginTx, .nil⟩ :: (t ++ [⟨.Rollback, .err e2⟩,
          ⟨.LoggerErrorf "failed to rollback transaction: %w" e2, .nil⟩])))
  | .panic p, w2, t => Q (.panic p) w2 (⟨.BeginTx, .nil⟩ :: t)

/-- The chat context of the tests: user 10 in chat 33. -/
def testContext : Context := { UserID := 10, ChatID := 33, Nickname := "unknown" }

/-- A select question of the tests. -/
def testSelectQuestion : Question :=
  { Text := "Question 1?", AnswerType := AnswerTypeSelect, PossibleAnswers := [1, 2, 3, 4],
    AnswersText := ["variant 1", "variant 2", "variant 3", "variant 4"] }

/-- A segment question of the tests, bounds `[1, 5]`. -/
def testSegmentQuestion : Question :=
  { Text := "Question 2?", AnswerType := AnswerTypeSegment, PossibleAnswers := [1, 5],
    AnswersText := [] }

/-- A survey with two questions, identifier 5, ordinal 1. -/
def testSurvey : Survey :=
  { GUID := 5, CalculationsType := "test_1", ID := 1, Name := "Survey 1",
    Description := "Two questions", Questions := [testSelectQuestion, testSegmentQuestion] }

/-- A survey with the single segment question of scenario A, bounds `[1, 3]`. -/
def testShortSurvey : Survey :=
  { GUID := 5, CalculationsType := "test_1", ID := 1, Name := "Survey 1",
    Description := "One question",
    Questions := [{ Text := "Question 1?", AnswerType := AnswerTypeSegment,
                    PossibleAnswers := [1, 3], AnswersText := [] }] }

/-- The user of the tests, with survey 5 as the current survey. -/
def testUser : User :=
  { GUID := 7, UserID := 10, ChatID := 33, Nickname := "unknown", CurrentSurvey := some 5,
    LastActivity := 0 }

/-- An active state of the user for survey 5 with the given answers. -/
def testState (answers : List Answer) : SurveyState :=
  { State := ActiveState, UserGUID := 7, SurveyGUID := 5, Answers := answers, Results := none }

/-- A result of the processor. -/
def testResults : Results := { Text := "your result", Metadata := { Raw := [] } }

/-- The script of scenario A: survey with one question, nothing answered yet. -/
def scenarioA : Script :=
  { user := .ok testUser, survey := .ok testShortSurvey, state := .ok (testState []),
    results := .ok testResults }

/-- The script of a survey with two questions of which the given answers are stored. -/
def scenarioTwo (answers : List Answer) : Script :=
  { user := .ok testUser, survey := .ok testSurvey, state := .ok (testState answers),
    results := .ok testResults }

/-- The script of a user who finished survey 5 and whose lookup, as in the test
`TestHandleSurveyCommand_SurveyAlreadFinished`, gives the finished state. -/
def scenarioFinished : Script :=
  { user := .ok testUser, survey := .ok testShortSurvey,
    state := .ok { State := FinishedState, UserGUID := 7, SurveyGUID := 5, Answers := [],
                   Results := none },
    results := .ok testResults }

/-- The script of a user who has no state yet for survey 5. -/
def scenarioNotStarted : Script :=
  { user := .ok testUser, survey := .ok testSurvey, state := .error (.sentinel .ErrNotFound),
    results := .ok testResults }

/-- The script of a user whose active state already holds an answer to the only question. -/
def scenarioAllAnswered : Script :=
  { user := .ok testUser, survey := .ok testShortSurvey,
    state := .ok (testState [{ Typ := AnswerTypeSegment, Data := [2] }]),
    results := .ok testResults }

/-- A store holding the user, the one-question survey and the given survey states. -/
def testStore (states : List SurveyState) : Store :=
  { db := { users := [{ testUser with CurrentSurvey := none }], surveys := [testShortSurvey],
            survey_states := states },
    committed := { users := [{ testUser with CurrentSurvey := none }],
                   surveys := [testShortSurvey], survey_states := states },
    now := 100, nextGUID := 1000 }

/-- The row of the user for survey 5 once finished. -/
def testFinishedRow : SurveyState :=
  { State := FinishedState, UserGUID := 7, SurveyGUID := 5,
    Answers := [{ Typ := AnswerTypeSegment, Data := [2] }], Results := some testResults }

/-- The service over the in-memory database with a processor that returns `testResults`. -/
def testMemService : service Store := memService (fun _ _ => .ok testResults)

/-- The surveys on record in `testStore`. -/
def testCatalogue : UUID → Option Survey := fun g => if g = 5 then some testShortSurvey else none

/-- A multiselect question of the tests. -/
def testMultiQuestion : Question :=
  { Text := "Question 3?", AnswerType := AnswerTypeMultiSelect, PossibleAnswers := [1, 2, 3, 4],
    AnswersText := ["variant 1", "variant 2", "variant 3", "variant 4"] }

/-- A select question with one possible answer, code 5, and one answer text. -/
def testCodeFiveQuestion : Question :=
  { Text := "Question 4?", AnswerType := AnswerTypeSelect, PossibleAnswers := [5],
    AnswersText := ["variant 5"] }

/-- The one-question survey with a scoring type that is not registered. -/
def testUnregisteredSurvey : Survey := { testShortSurvey with CalculationsType := "test_7" }

/-- The one-question survey without a name. -/
def testUnnamedSurvey : Survey := { testShortSurvey with Name := "" }

/-- A segment question whose stored bounds are `[5, 1]`. -/
def testBackwardsQuestion : Question :=
  { Text := "Question 5?", AnswerType := AnswerTypeSegment, PossibleAnswers := [5, 1],
    AnswersText := [] }

/-- The codes of the first case of `Test_calculateTest1`. -/
def testCodes22 : List Int :=
  [3, 2, 2, 5, 3, 4, 5, 2, 5, 3, 2, 6, 2, 3, 3, 4, 6, 5, 4, 3, 5, 3]

/-- The answers of the first case of `Test_calculateTest1`: select answers with the codes
`testCodes22`. -/
def testAnswers22 : List Answer :=
  testCodes22.map (fun c => { Typ := AnswerTypeSelect, Data := [c] })

/-- Forty-two select answers with the code 1. -/
def testAnswers42 : List Answer := List.replicate 42 { Typ := AnswerTypeSelect, Data := [1] }

/-- An incoming survey for survey 5 that fails validation in every way: no name, no
description, a scoring type that is not registered, and one question, without text and of no
known answer type. -/
def testInvalidSurvey : Survey :=
  { GUID := 5, CalculationsType := "test_7", ID := 0, Name := "", Description := "",
    Questions := [{ Text := "", AnswerType := "text", PossibleAnswers := [], AnswersText := [] }] }

/-- An incoming survey for survey 5: the one-question survey under a new name. -/
def testRenamedSurvey : Survey := { testShortSurvey with ID := 0, Name := "Survey 1, renamed" }

/-- A store in which the user has survey 5 as the current survey, an active state for it and
a finished state for another survey, 6. -/
def testStoreCurrent : Store :=
  { db := { users := [testUser], surveys := [testShortSurvey],
            survey_states := [testState [], { testFinishedRow with SurveyGUID := 6 }] },
    committed := { users := [testUser], surveys := [testShortSurvey],
                   survey_states := [testState [], { testFinishedRow with SurveyGUID := 6 }] },
    now := 100, nextGUID := 1000 }

/-- Encoders for the concrete runs: they stand for the library functions, with made-up
texts. -/
def testEncoders : Encoders :=
  { uuidString := fun g => "guid-" ++ toString g
    marshalMetadata := fun _ => .ok "{}"
    formatRFC3339 := fun t => "time-" ++ toString t }

/-- A report of the export: survey 5, finished by user 10 with the answer 2. -/
def testReport : SurveyStateReport :=
  { SurveyGUID := 5, SurveyName := "Survey 1", Description := "One question", StartedAt := 100,
    FinishedAt := 200, UserGUID := "user-7", UserID := 10,
    Answers := [{ Typ := AnswerTypeSegment, Data := [2] }], Results := some testResults }

/-- A decoder of the `answers` column for the runs below: it knows two texts, an empty array
and an array of two answers, and fails on every other text. -/
def testUnmarshal (raw : String) : Except GoError (List Answer) :=
  if raw = "[]" then .ok []
  else if raw = "[\x7b\"type\":\"select\",\"data\":[1]\x7d,\x7b\"type\":\"segment\",\"data\":[3]\x7d]" then
    .ok [{ Typ := AnswerTypeSelect, Data := [1] }, { Typ := AnswerTypeSegment, Data := [3] }]
  else .error (.new "unexpected end of JSON input")

/-- The text of two answers that `testUnmarshal` knows. -/
def testTwoAnswers : String :=
  "[\x7b\"type\":\"select\",\"data\":[1]\x7d,\x7b\"type\":\"segment\",\"data\":[3]\x7d]"

/-- Fetched rows of three users: user 7 with a finished and an active state, user 3 without a
state, user 5 with two finished states; users 3 and 5 were last active at the same time. -/
def testUserRows : List userListReportResponse :=
  [ { GUID := 7, NickName := "ann", CreatedAt := 10, LastActivity := 50,
      SurveyState := some FinishedState, Answers := some testTwoAnswers },
    { GUID := 5, NickName := "bob", CreatedAt := 11, LastActivity := 90,
      SurveyState := some FinishedState, Answers := some testTwoAnswers },
    { GUID := 3, NickName := "cid", CreatedAt := 12, LastActivity := 90,
      SurveyState := none, Answers := none },
    { GUID := 7, NickName := "ann", CreatedAt := 10, LastActivity := 50,
      SurveyState := some ActiveState, Answers := some "[]" },
    { GUID := 5, NickName := "bob", CreatedAt := 11, LastActivity := 90,
      SurveyState := some FinishedState, Answers := some testTwoAnswers } ]

section wpLemmas
variable {W α β : Type}

theorem wp_pure (a : α) (Q : Res α → W → List Event → Prop) (w : W) :
    wp (pure a : Prog W α) Q w ↔ Q (.ok a) w [] := Iff.rfl

theorem wp_Prog_pure (a : α) (Q : Res α → W → List Event → Prop) (w : W) :
    wp (Prog.pure a : Prog W α) Q w ↔ Q (.ok a) w [] := Iff.rfl

theorem wp_ret (e : GoError) (Q : Res α → W → List Event → Prop) (w : W) :
    wp (ret e : Prog W α) Q w ↔ Q (.err e) w [] := Iff.rfl

theorem wp_goPanic (p : String) (Q : Res α → W → List Event → Prop) (w : W) :
    wp (goPanic p : Prog W α) Q w ↔ Q (.panic p) w [] := Iff.rfl

theorem wp_bind (m : Prog W α) (f : α → Prog W β) (Q : Res β → W → List Event → Prop) (w : W) :
    wp (m >>= f) Q w ↔ wp m (bindPost f Q) w := by
  show wp (Prog.bind m f) Q w ↔ _
  unfold wp Prog.bind
  rcases h : m w with ⟨r, w1, t1⟩
  cases r <;> simp [bindPost, wp]

theorem wp_attempt (m : Prog W α) (Q : Res (Except GoError α) → W → List Event → Prop) (w : W) :
    wp (attempt m) Q w ↔ wp m (attemptPost Q) w := by
  unfold wp attempt
  rcases h : m w with ⟨r, w1, t1⟩
  cases r <;> simp [attemptPost]

theorem wp_callV (c : Call) (toResp : α → Resp) (op : W → Except GoError α × W)
    (Q : Res (Except GoError α) → W → List Event → Prop) (w : W) :
    wp (callV c toResp op) Q w ↔
      (∀ a w1, op w = (.ok a, w1) → Q (.ok (.ok a)) w1 [⟨c, toResp a⟩]) ∧
      (∀ e w1, op w = (.error e, w1) → Q (.ok (.error e)) w1 [⟨c, .err e⟩]) := by
  unfold wp callV
  rcases h : op w with ⟨r, w1⟩
  cases r <;> simp

theorem wp_call (c : Call) (op : W → Except GoError Unit × W)
    (Q : Res (Except GoError Unit) → W → List Event → Prop) (w : W) :
    wp (call c op) Q w ↔
      (∀ w1, op w = (.ok (), w1) → Q (.ok (.ok ())) w1 [⟨c, .nil⟩]) ∧
      (∀ e w1, op w = (.error e, w1) → Q (.ok (.error e)) w1 [⟨c, .err e⟩]) := by
  unfold call
  rw [wp_callV]
  constructor
  · rintro ⟨h1, h2⟩
    exact ⟨fun w1 hw => h1 () w1 hw, h2⟩
  · rintro ⟨h1, h2⟩
    exact ⟨fun _ w1 hw => h1 w1 hw, h2⟩

theorem wp_tryRes (r : Res α) (Q : Res (Except GoError α) → W → List Event → Prop) (w : W) :
    wp (tryRes r) Q w ↔
      (∀ a, r = .ok a → Q (.ok (.ok a)) w []) ∧ (∀ e, r = .err e → Q (.ok (.error e)) w []) ∧
      (∀ p, r = .panic p → Q (.panic p) w []) := by
  unfold wp tryRes
  cases r <;> simp

theorem wp_loggerErrorf (format : String) (err : GoError) (Q : Res Unit → W → List Event → Prop)
    (w : W) :
    wp (loggerErrorf format err) Q w ↔ Q (.ok ()) w [⟨.LoggerErrorf format err, .nil⟩] := Iff.rfl

theorem wp_newUUID (sv : service W) (Q : Res UUID → W → List Event → Prop) (w : W) :
    wp (newUUID sv) Q w ↔
      Q (.ok (sv.UUIDProvider w).1) (sv.UUIDProvider w).2
        [⟨.UUIDProvider, .uuid (sv.UUIDProvider w).1⟩] := Iff.rfl

theorem wp_ite (c : Prop) [Decidable c] (a b : Prog W α) (Q : Res α → W → List Event → Prop)
    (w : W) : wp (if c then a else b) Q w ↔ (c → wp a Q w) ∧ (¬c → wp b Q w) := by
  split <;> simp [*]

theorem wp_index (xs : List α) (i : Int) (Q : Res α → W → List Event → Prop) (w : W) :
    wp (index xs i) Q w ↔
      (∀ x, 0 ≤ i → xs[i.toNat]? = some x → Q (.ok x) w []) ∧
      ((i < 0 ∨ xs[i.toNat]? = none) → Q (.panic "index out of range") w []) := by
  unfold index
  by_cases hi : i < 0
  · simp [hi, wp_goPanic, not_le.mpr hi]
  · cases hx : xs[i.toNat]? <;> simp [hi, hx, wp_goPanic, wp_Prog_pure, not_lt.mp hi]

theorem wp_deref (p : Option α) (Q : Res α → W → List Event → Prop) (w : W) :
    wp (deref p) Q w ↔
      (∀ a, p = some a → Q (.ok a) w []) ∧
      (p = none → Q (.panic "nil pointer dereference") w []) := by
  unfold deref
  cases p <;> simp [wp_goPanic, wp_Prog_pure]

end wpLemmas

theorem wp_congr {W α : Type} (m : Prog W α) (P Q : Res α → W → List Event → Prop) (w : W)
    (h : ∀ r w1 t, P r w1 t ↔ Q r w1 t) : wp m P w ↔ wp m Q w := h _ _ _

theorem wp_mono {W α : Type} (m : Prog W α) (P Q : Res α → W → List Event → Prop) (w : W)
    (hP : wp m P w) (h : ∀ r w1 t, P r w1 t → Q r w1 t) : wp m Q w := h _ _ _ hP

theorem wp_transacted {W : Type} (s : service W) (fn : Prog W Unit)
    (Q : Res Unit → W → List Event → Prop) (w : W) :
    wp (attempt (s.Transact fn)) (bindPost (fun r : Except GoError Unit =>
        match r with
        | .error err => ret (.wrap "failed to transact: " err)
        | .ok () => pure ()) Q) w ↔
      (∀ e w1, s.dbRepo.BeginTx w = (.error e, w1) →
        Q (.err (.wrap "failed to transact: " (.wrap "failed to begin transaction: " e))) w1
          [⟨.BeginTx, .err e⟩]) ∧
      (∀ w1, s.dbRepo.BeginTx w = (.ok (), w1) → wp fn (txPost s Q) w1) := by
  unfold service.Transact
  simp only [wp_bind, wp_call, bindPost, attemptPost, wp_attempt, wp_ret, wp_pure,
    wp_loggerErrorf]
  rw [and_comm]
  refine and_congr ?_ ?_
  · simp
  · refine forall_congr' fun w1 => imp_congr_right fun _ => wp_congr _ _ _ _ ?_
    intro r w2 t
    cases r with
    | ok a =>
      cases a
      simp only [attemptPost, bindPost, txPost, wp_bind, wp_call, wp_ret, wp_pure]
      simp
    | err e =>
      simp only [attemptPost, bindPost, txPost, wp_bind, wp_call, wp_ret, wp_pure,
        wp_loggerErrorf]
      simp
    | panic p =>
      simp [attemptPost, bindPost, txPost]

theorem wp_HandleSurveyCommand {W : Type} (s : service W) (ctx : Context) (surveyID : Int)
    (Q : Res Unit → W → List Event → Prop) (w : W) :
    wp (s.HandleSurveyCommand ctx surveyID) Q w ↔
      (∀ e w1, s.dbRepo.BeginTx w = (.error e, w1) →
        Q (.err (.wrap "failed to transact: " (.wrap "failed to begin transaction: " e))) w1
          [⟨.BeginTx, .err e⟩]) ∧
      (∀ w1, s.dbRepo.BeginTx w = (.ok (), w1) →
        wp (s.HandleSurveyCommandTx ctx surveyID) (txPost s Q) w1) := by
  unfold service.HandleSurveyCommand
  rw [wp_bind]
  exact wp_transacted s _ Q w

theorem wp_HandleAnswer {W : Type} (s : service W) (ctx : Context) (msg : String)
    (Q : Res Unit → W → List Event → Prop) (w : W) :
    wp (s.HandleAnswer ctx msg) Q w ↔
      (∀ e w1, s.dbRepo.BeginTx w = (.error e, w1) →
        Q (.err (.wrap "failed to transact: " (.wrap "failed to begin transaction: " e))) w1
          [⟨.BeginTx, .err e⟩]) ∧
      (∀ w1, s.dbRepo.BeginTx w = (.ok (), w1) →
        wp (s.HandleAnswerTx ctx msg) (txPost s Q) w1) := by
  unfold service.HandleAnswer
  rw [wp_bind]
  exact wp_transacted s _ Q w


theorem wrapRes_isTxControl {r r2 : Res Unit} {post : List Event} (h : wrapRes r r2 post) :
    ∀ y ∈ post, y.call.isTxControl = true := by
  cases r with
  | ok a =>
    cases a
    rcases h with ⟨-, rfl⟩ | ⟨e, -, rfl⟩ <;> simp [Call.isTxControl]
  | err e0 =>
    rcases h with ⟨-, rfl | ⟨e2, rfl⟩⟩ <;> simp [Call.isTxControl]
  | panic p =>
    rcases h with ⟨-, rfl⟩
    simp

theorem txPost_of_wrapRes {W : Type} (s : service W) (Q : Res Unit → W → List Event → Prop)
    (r : Res Unit) (w2 : W) (t : List Event)
    (h : ∀ r2 w3 post, wrapRes r r2 post → Q r2 w3 (⟨.BeginTx, .nil⟩ :: (t ++ post))) :
    txPost s Q r w2 t := by
  cases r with
  | ok a =>
    cases a
    exact ⟨fun w3 _ => h _ w3 _ (Or.inl ⟨rfl, rfl⟩), fun e w3 _ => h _ w3 _ (Or.inr ⟨e, rfl, rfl⟩)⟩
  | err e0 =>
    exact ⟨fun w3 _ => h _ w3 _ ⟨rfl, Or.inl rfl⟩, fun e2 w3 _ => h _ w3 _ ⟨rfl, Or.inr ⟨e2, rfl⟩⟩⟩
  | panic p =>
    have := h (.panic p) w2 [] ⟨rfl, rfl⟩
    rw [List.append_nil] at this
    exact this

theorem mem_wrapped {t post : List Event} (hpost : ∀ y ∈ post, y.call.isTxControl = true)
    (c : Call) (r : Resp) (hc : c.isTxControl = false) :
    (⟨c, r⟩ : Event) ∈ (⟨.BeginTx, .nil⟩ : Event) :: (t ++ post) ↔ (⟨c, r⟩ : Event) ∈ t := by
  simp only [List.mem_cons, List.mem_append]
  constructor
  · rintro (h | h | h)
    · cases h; simp [Call.isTxControl] at hc
    · exact h
    · have := hpost _ h
      simp [hc] at this
  · intro h; exact Or.inr (Or.inl h)

theorem mem_calls_wrapped {t post : List Event} (hpost : ∀ y ∈ post, y.call.isTxControl = true)
    (c : Call) (hc : c.isTxControl = false) :
    c ∈ calls ((⟨.BeginTx, .nil⟩ : Event) :: (t ++ post)) ↔ c ∈ calls t := by
  simp only [calls, List.map_cons, List.map_append, List.mem_cons, List.mem_append, List.mem_map]
  constructor
  · rintro (h | h | ⟨x, hx, rfl⟩)
    · subst h; simp [Call.isTxControl] at hc
    · exact h
    · have := hpost _ hx
      simp [hc] at this
  · intro h; exact Or.inr (Or.inl h)

/-! ## Lemmas: decimal numerals -/

theorem decimalValueFrom_le (cs : List Char) : ∀ (n m : Nat),
    decimalValueFrom n cs = some m → n ≤ m := by
  induction cs with
  | nil => intro n m h; simp [decimalValueFrom] at h; omega
  | cons c cs ih =>
    intro n m h
    unfold decimalValueFrom at h
    cases hd : digitValue c with
    | none => simp [hd] at h
    | some d =>
      simp only [hd] at h
      have := ih _ _ h
      omega

theorem parseUintLoop_spec (cs : List Char) : ∀ (n : Nat), n ≤ maxUint64 →
    (decimalValueFrom n cs = none → ∃ k, parseUintLoop n cs = .error k) ∧
    (∀ m, decimalValueFrom n cs = some m →
      (m ≤ maxUint64 → parseUintLoop n cs = .ok m) ∧
      (maxUint64 < m → parseUintLoop n cs = .error .ErrRange)) := by
  induction cs with
  | nil =>
    intro n hn
    refine ⟨fun h => ?_, fun m hm => ?_⟩
    · simp [decimalValueFrom] at h
    · simp only [decimalValueFrom, Option.some.injEq] at hm
      subst hm
      exact ⟨fun _ => rfl, fun h => by omega⟩
  | cons c cs ih =>
    intro n hn
    have h0 : '0'.toNat = 48 := rfl
    have h9 : '9'.toNat = 57 := rfl
    unfold decimalValueFrom parseUintLoop
    rw [h0, h9]
    by_cases hc : 48 ≤ c.toNat ∧ c.toNat ≤ 57
    · have hd : digitValue c = some (c.toNat - 48) := by
        unfold digitValue
        rw [h0, h9, if_pos hc]
      rw [hd, if_pos hc]
      by_cases h1 : n ≥ maxUint64 / 10 + 1
      · rw [if_pos h1]
        refine ⟨fun _ => ⟨_, rfl⟩, fun m hm => ⟨fun hle => ?_, fun _ => rfl⟩⟩
        have := decimalValueFrom_le _ _ _ hm
        simp only [maxUint64] at h1 hle
        omega
      · rw [if_neg h1]
        by_cases h2 : n * 10 + (c.toNat - 48) > maxUint64
        · rw [if_pos h2]
          refine ⟨fun _ => ⟨_, rfl⟩, fun m hm => ⟨fun hle => ?_, fun _ => rfl⟩⟩
          have := decimalValueFrom_le _ _ _ hm
          omega
        · rw [if_neg h2]
          exact ih _ (by omega)
    · have hd : digitValue c = none := by
        unfold digitValue
        rw [h0, h9, if_neg hc]
      rw [hd, if_neg hc]
      exact ⟨fun _ => ⟨_, rfl⟩, fun m hm => by cases hm⟩

theorem ParseUint_spec (cs : List Char) :
    (decimalValue cs = none → ∃ k, ParseUint cs = .error k) ∧
    (∀ m, decimalValue cs = some m →
      (m ≤ maxUint64 → ParseUint cs = .ok m) ∧
      (maxUint64 < m → ParseUint cs = .error .ErrRange)) := by
  unfold decimalValue ParseUint
  by_cases h : cs = []
  · rw [if_pos h, if_pos h]
    exact ⟨fun _ => ⟨_, rfl⟩, fun m hm => by cases hm⟩
  · rw [if_neg h, if_neg h]
    exact parseUintLoop_spec cs 0 (by simp [maxUint64])


theorem parseIntUnsigned_spec (s0 : String) (neg : Bool) (rest : List Char) :
    (decimalValue rest = none →
      ∃ k, (k = .ErrSyntax ∨ k = .ErrRange) ∧
        parseIntUnsigned s0 neg rest = .error (.numError "ParseInt" s0 k)) ∧
    (∀ m, decimalValue rest = some m →
      (isInt64 (if neg then -(m : Int) else (m : Int)) →
        parseIntUnsigned s0 neg rest = .ok (if neg then -(m : Int) else (m : Int))) ∧
      (¬ isInt64 (if neg then -(m : Int) else (m : Int)) →
        parseIntUnsigned s0 neg rest = .error (.numError "ParseInt" s0 .ErrRange))) := by
  have hU := ParseUint_spec rest
  have h63 : (2 : Int) ^ 63 = 9223372036854775808 := by norm_num
  have h63n : (2 : Nat) ^ 63 = 9223372036854775808 := by norm_num
  have hmax : maxUint64 = 18446744073709551615 := by norm_num [maxUint64]
  unfold parseIntUnsigned isInt64
  rw [h63, h63n]
  constructor
  · intro hv
    obtain ⟨k, hk⟩ := hU.1 hv
    rw [hk]
    cases k <;> first | exact ⟨_, Or.inl rfl, rfl⟩ | exact ⟨_, Or.inr rfl, rfl⟩
  · intro m hm
    obtain ⟨h1, h2⟩ := hU.2 m hm
    rw [hmax] at h1 h2
    by_cases hle : m ≤ 18446744073709551615
    · rw [h1 hle]
      cases neg
      · simp only [Bool.not_false, Bool.true_and, Bool.false_and, decide_eq_true_eq, if_false,
          Bool.false_eq_true]
        constructor
        · intro h
          rw [if_neg (by omega)]
        · intro h
          rw [if_pos (by omega)]
      · simp only [Bool.not_true, Bool.true_and, Bool.false_and, decide_eq_true_eq, if_false,
          Bool.false_eq_true, if_true]
        constructor
        · intro h
          rw [if_neg (by omega)]
        · intro h
          rw [if_pos (by omega)]
    · rw [h2 (by omega)]
      constructor
      · intro h
        cases neg
        · simp only [Bool.false_eq_true, if_false] at h; omega
        · simp only [if_true] at h; omega
      · intro _; rfl

/-- What `ParseInt` returns, from the integer the text writes: the integer when it fits in an
`int64`, and a `*NumError` otherwise. -/
theorem ParseInt_spec (s : String) :
    (base10Integer s = none →
      ∃ k, (k = .ErrSyntax ∨ k = .ErrRange) ∧ ParseInt s = .error (.numError "ParseInt" s k)) ∧
    (∀ v, base10Integer s = some v →
      (isInt64 v → ParseInt s = .ok v) ∧
      (¬ isInt64 v → ParseInt s = .error (.numError "ParseInt" s .ErrRange))) := by
  unfold base10Integer ParseInt
  cases hs : s.data with
  | nil => exact ⟨fun _ => ⟨_, Or.inl rfl, rfl⟩, fun v hv => by cases hv⟩
  | cons c cs =>
    simp only []
    by_cases hp : c = '+'
    · rw [if_pos hp, if_pos hp]
      have := parseIntUnsigned_spec s false cs
      cases hv : decimalValue cs with
      | none => exact ⟨fun _ => this.1 hv, fun v h => by cases h⟩
      | some m =>
        refine ⟨fun h => (by cases h), fun v h => ?_⟩
        simp only [signed, Option.some.injEq] at h
        subst h
        exact this.2 m hv
    · rw [if_neg hp, if_neg hp]
      by_cases hm : c = '-'
      · rw [if_pos hm, if_pos hm]
        have := parseIntUnsigned_spec s true cs
        cases hv : decimalValue cs with
        | none => exact ⟨fun _ => this.1 hv, fun v h => by cases h⟩
        | some m =>
          refine ⟨fun h => (by cases h), fun v h => ?_⟩
          simp only [signed, Option.some.injEq] at h
          subst h
          exact this.2 m hv
      · rw [if_neg hm, if_neg hm]
        have := parseIntUnsigned_spec s false (c :: cs)
        cases hv : decimalValue (c :: cs) with
        | none => exact ⟨fun _ => this.1 hv, fun v h => by cases h⟩
        | some m =>
          refine ⟨fun h => (by cases h), fun v h => ?_⟩
          simp only [signed, Option.some.injEq] at h
          subst h
          exact this.2 m hv

theorem multiSelectLoop_spec (q : Question) (args : List String) (codes : List Int)
    (h : List.Forall₂ (fun arg v => ParseInt (TrimSpace arg) = .ok v) args codes) :
    ∀ answers : List Int,
      q.multiSelectLoop args answers =
        if ∀ c ∈ codes, c ∈ q.PossibleAnswers then .ok (answers ++ codes)
        else .err (.sentinel .ErrAnswerNotFound) := by
  induction h with
  | nil => intro answers; simp [Question.multiSelectLoop]
  | @cons arg v args codes hp _ ih =>
    intro answers
    unfold Question.multiSelectLoop
    rw [hp]
    by_cases hv : v ∈ q.PossibleAnswers
    · simp [hv, ih]
    · simp [hv]

/-- C9, as amended: a segment question with bounds `[lo, hi]` accepts a raw text exactly when
the text writes a base-10 integer `v` with `lo <= v <= hi`, and the answer is then
`{segment, [v]}`; an integer outside the bounds that fits in an `int64` is rejected with
`ErrAnswerOutOfRange`; a text that writes no integer, or an integer that does not fit in an
`int64`, is rejected with an error wrapping `ErrParseAnswerTypeSegment`. -/
theorem segment_GetAnswer_spec (q : Question) (lo hi : Int) (answerRaw : String)
    (hType : q.AnswerType = AnswerTypeSegment) (hBounds : q.PossibleAnswers = [lo, hi])
    (hlo : isInt64 lo) (hhi : isInt64 hi) :
    (∀ a, q.GetAnswer answerRaw = .ok a ↔
      ∃ v, base10Integer answerRaw = some v ∧ lo ≤ v ∧ v ≤ hi ∧
        a = { Typ := AnswerTypeSegment, Data := [v] }) ∧
    (∀ v, base10Integer answerRaw = some v → isInt64 v → (v < lo ∨ hi < v) →
      q.GetAnswer answerRaw = .err (.sentinel .ErrAnswerOutOfRange)) ∧
    ((base10Integer answerRaw = none ∨ ∃ v, base10Integer answerRaw = some v ∧ ¬ isInt64 v) →
      ∃ e, q.GetAnswer answerRaw = .err e ∧ e.Is .ErrParseAnswerTypeSegment = true ∧
        e.Is .ErrAnswerOutOfRange = false) := by
  have hP := ParseInt_spec answerRaw
  have hG : q.GetAnswer answerRaw = q.getAnswerSegment answerRaw := by
    unfold Question.GetAnswer
    rw [if_pos hType]
  rw [hG]
  unfold Question.getAnswerSegment
  rw [hBounds]
  cases hv : base10Integer answerRaw with
  | none =>
    obtain ⟨k, hk2, hk⟩ := hP.1 hv
    rw [hk]
    refine ⟨fun a => ⟨fun h => (by cases h), fun ⟨v, h, _⟩ => (by cases h)⟩,
      fun v h => (by cases h), fun _ => ⟨_, rfl, ?_, ?_⟩⟩
    · simp [GoError.Is]
    · rcases hk2 with rfl | rfl <;> simp [GoError.Is]
  | some v =>
    by_cases h64 : isInt64 v
    · rw [(hP.2 v hv).1 h64]
      simp only [List.getElem?_cons_zero, List.getElem?_cons_succ]
      refine ⟨fun a => ?_, fun v2 h2 _ hout => ?_, fun h => ?_⟩
      · by_cases h1 : v < lo
        · rw [if_pos h1]
          constructor
          · intro h; cases h
          · rintro ⟨v2, h2, h3, _⟩
            cases h2; omega
        · rw [if_neg h1]
          by_cases h2 : v > hi
          · rw [if_pos h2]
            constructor
            · intro h; cases h
            · rintro ⟨v2, h3, _, h4, _⟩
              cases h3; omega
          · rw [if_neg h2]
            constructor
            · intro h
              cases h
              exact ⟨v, rfl, by omega, by omega, rfl⟩
            · rintro ⟨v2, h3, _, _, h5⟩
              cases h3
              rw [h5]
      · cases h2
        rcases hout with h1 | h1
        · rw [if_pos h1]
        · by_cases h3 : v < lo
          · rw [if_pos h3]
          · rw [if_neg h3, if_pos h1]
      · rcases h with h | ⟨v2, h2, h3⟩
        · cases h
        · cases h2; exact absurd h64 h3
    · rw [(hP.2 v hv).2 h64]
      refine ⟨fun a => ⟨fun h => (by cases h), ?_⟩, fun v2 h2 h3 => ?_, fun _ => ⟨_, rfl, ?_, ?_⟩⟩
      · rintro ⟨v2, h2, h3, h4, _⟩
        cases h2
        exact absurd ⟨by have := hlo.1; omega, by have := hhi.2; omega⟩ h64
      · cases h2; exact absurd h3 h64
      · simp [GoError.Is]
      · simp [GoError.Is]

/-- C9, witness: the question of the tests, bounds `[1, 3]`, and the text `"2"`. -/
theorem segment_GetAnswer_spec_witness :
    (isInt64 1 ∧ isInt64 3) ∧
    (∀ a, (Question.mk "How are you?" AnswerTypeSegment [1, 3] []).GetAnswer "2" = .ok a ↔
      ∃ v, base10Integer "2" = some v ∧ (1 : Int) ≤ v ∧ v ≤ 3 ∧
        a = { Typ := AnswerTypeSegment, Data := [v] }) ∧
    (∀ v, base10Integer "2" = some v → isInt64 v → (v < 1 ∨ 3 < v) →
      (Question.mk "How are you?" AnswerTypeSegment [1, 3] []).GetAnswer "2" =
        .err (.sentinel .ErrAnswerOutOfRange)) ∧
    ((base10Integer "2" = none ∨ ∃ v, base10Integer "2" = some v ∧ ¬ isInt64 v) →
      ∃ e, (Question.mk "How are you?" AnswerTypeSegment [1, 3] []).GetAnswer "2" = .err e ∧
        e.Is .ErrParseAnswerTypeSegment = true ∧ e.Is .ErrAnswerOutOfRange = false) :=
  ⟨⟨by decide, by decide⟩,
    segment_GetAnswer_spec (Question.mk "How are you?" AnswerTypeSegment [1, 3] []) 1 3 "2" rfl rfl
      (by decide) (by decide)⟩

/-- C9, counterexample: `"9223372036854775808"` writes an integer outside the bounds `[1, 3]`,
and the segment question rejects it with the error that wraps `ErrParseAnswerTypeSegment`, not
with `ErrAnswerOutOfRange`. -/
theorem segment_GetAnswer_huge_integer :
    base10Integer "9223372036854775808" = some 9223372036854775808 ∧
    ¬ ((1 : Int) ≤ 9223372036854775808 ∧ (9223372036854775808 : Int) ≤ 3) ∧
    (Question.mk "How are you?" AnswerTypeSegment [1, 3] []).GetAnswer "9223372036854775808" =
      .err (.wrap2 "failed to parse argument, "
        (.numError "ParseInt" "9223372036854775808" .ErrRange) ": "
        (.sentinel .ErrParseAnswerTypeSegment)) ∧
    (Question.mk "How are you?" AnswerTypeSegment [1, 3] []).GetAnswer "9223372036854775808" ≠
      .err (.sentinel .ErrAnswerOutOfRange) := by
  decide

/-- C10: for a select question and a raw text that parses as an integer, and for a multiselect
question and a raw text whose comma-separated, trimmed tokens all parse as integers,
`GetAnswer` succeeds exactly when every parsed code is one of the possible answers; the answer
then carries exactly the parsed codes in input order; and when some code is not a possible
answer the result is the error `ErrAnswerNotFound`, with no answer at all. -/
theorem select_multiselect_GetAnswer_spec (q : Question) (answerRaw : String) :
    (q.AnswerType = AnswerTypeSelect → ∀ v, ParseInt answerRaw = .ok v →
      ((∃ a, q.GetAnswer answerRaw = .ok a) ↔ v ∈ q.PossibleAnswers) ∧
      (v ∈ q.PossibleAnswers →
        q.GetAnswer answerRaw = .ok { Typ := AnswerTypeSelect, Data := [v] }) ∧
      (v ∉ q.PossibleAnswers →
        q.GetAnswer answerRaw = .err (.sentinel .ErrAnswerNotFound))) ∧
    (q.AnswerType = AnswerTypeMultiSelect → ∀ codes,
      List.Forall₂ (fun arg v => ParseInt (TrimSpace arg) = .ok v) (SplitComma answerRaw) codes →
      ((∃ a, q.GetAnswer answerRaw = .ok a) ↔ ∀ c ∈ codes, c ∈ q.PossibleAnswers) ∧
      ((∀ c ∈ codes, c ∈ q.PossibleAnswers) →
        q.GetAnswer answerRaw = .ok { Typ := AnswerTypeMultiSelect, Data := codes }) ∧
      ((∃ c ∈ codes, c ∉ q.PossibleAnswers) →
        q.GetAnswer answerRaw = .err (.sentinel .ErrAnswerNotFound))) := by
  constructor
  · intro hType v hv
    have hG : q.GetAnswer answerRaw = q.getAnswerSelect answerRaw := by
      unfold Question.GetAnswer
      rw [hType, if_neg (by decide), if_pos rfl]
    rw [hG]
    unfold Question.getAnswerSelect
    rw [hv]
    by_cases hm : v ∈ q.PossibleAnswers
    · simp [hm]
    · simp [hm]
  · intro hType codes hcodes
    have hG : q.GetAnswer answerRaw = q.getAnswerMultiSelect answerRaw := by
      unfold Question.GetAnswer
      rw [hType, if_neg (by decide), if_neg (by decide), if_pos rfl]
    rw [hG]
    unfold Question.getAnswerMultiSelect
    rw [multiSelectLoop_spec q _ codes hcodes []]
    by_cases hm : ∀ c ∈ codes, c ∈ q.PossibleAnswers
    · rw [if_pos hm]
      refine ⟨⟨fun _ => hm, fun _ => ⟨_, rfl⟩⟩, fun _ => by simp, ?_⟩
      rintro ⟨c, hc, hn⟩
      exact absurd (hm c hc) hn
    · rw [if_neg hm]
      refine ⟨⟨?_, fun h => absurd h hm⟩, fun h => absurd h hm, fun _ => rfl⟩
      rintro ⟨a, ha⟩
      cases ha

/-- C10, witness: the multiselect question of the tests and the text `"1, 3"`, and the same
possible answers for a select question and the text `"2"`. -/
theorem select_multiselect_GetAnswer_spec_witness :
    (ParseInt "2" = .ok 2 ∧
      (Question.mk "How are you?" AnswerTypeSelect [1, 2, 3, 4] ["a", "b", "c", "d"]).GetAnswer "2" =
        .ok { Typ := AnswerTypeSelect, Data := [2] }) ∧
    (List.Forall₂ (fun arg v => ParseInt (TrimSpace arg) = .ok v) (SplitComma "1, 3") [1, 3] ∧
      (Question.mk "How are you?" AnswerTypeMultiSelect [1, 2, 3, 4] ["a", "b", "c", "d"]).GetAnswer
          "1, 3" = .ok { Typ := AnswerTypeMultiSelect, Data := [1, 3] }) :=
  ⟨⟨by decide,
      ((select_multiselect_GetAnswer_spec
        (Question.mk "How are you?" AnswerTypeSelect [1, 2, 3, 4] ["a", "b", "c", "d"]) "2").1 rfl 2
        (by decide)).2.1 (by decide)⟩,
    ⟨by
        have h : SplitComma "1, 3" = ["1", " 3"] := by decide
        rw [h]
        exact List.Forall₂.cons (by decide) (List.Forall₂.cons (by decide) List.Forall₂.nil),
      ((select_multiselect_GetAnswer_spec
        (Question.mk "How are you?" AnswerTypeMultiSelect [1, 2, 3, 4] ["a", "b", "c", "d"])
        "1, 3").2 rfl [1, 3]
        (by
          have h : SplitComma "1, 3" = ["1", " 3"] := by decide
          rw [h]
          exact List.Forall₂.cons (by decide) (List.Forall₂.cons (by decide) List.Forall₂.nil))).2.1
        (by decide)⟩⟩


/-! ## The orchestrator -/

/-- The function passed to `Transact` by `HandleSurveyCommand`, when the lookup of the survey
state gives a finished one. -/
theorem HandleSurveyCommandTx_finished {W : Type} (s : service W) (ctx : Context) (surveyID : Int)
    (w : W) : wp (s.HandleSurveyCommandTx ctx surveyID) (fun r _ tr =>
      ∀ (userGUID surveyGUID : UUID) (states : List State) (state : SurveyState),
      (⟨.GetUserSurveyState userGUID surveyGUID states, .state state⟩ : Event) ∈ tr →
      state.State = FinishedState →
      r = .err (.new "survey already finished")
      ∧ Call.SendMessage responses.SurveyAlreadyFinished ∈ calls tr
      ∧ (∀ c ∈ calls tr,
          (∀ st, c ≠ .CreateUserSurveyState st) ∧ (∀ u g, c ≠ .UpdateUserCurrentSurvey u g) ∧
          (∀ u, c ≠ .UpdateUserLastActivity u) ∧ (∀ q, c ≠ .SendSurveyQuestion q) ∧
          c ≠ .Commit ∧ c ≠ .Rollback ∧ c ≠ .BeginTx)) w := by
  generalize hQ : (fun (r : Res Unit) (_ : W) (tr : List Event) =>
      ∀ (userGUID surveyGUID : UUID) (states : List State) (state : SurveyState),
      (⟨.GetUserSurveyState userGUID surveyGUID states, .state state⟩ : Event) ∈ tr →
      state.State = FinishedState →
      r = .err (.new "survey already finished")
      ∧ Call.SendMessage responses.SurveyAlreadyFinished ∈ calls tr
      ∧ (∀ c ∈ calls tr,
          (∀ st, c ≠ .CreateUserSurveyState st) ∧ (∀ u g, c ≠ .UpdateUserCurrentSurvey u g) ∧
          (∀ u, c ≠ .UpdateUserLastActivity u) ∧ (∀ q, c ≠ .SendSurveyQuestion q) ∧
          c ≠ .Commit ∧ c ≠ .Rollback ∧ c ≠ .BeginTx)) = Q
  unfold service.HandleSurveyCommandTx
  simp only [wp_bind, wp_callV, wp_call, bindPost, wp_ite, wp_ret, wp_pure, wp_newUUID, wp_index,
    wp_loggerErrorf]
  repeat' (first | intro _ | apply And.intro)
  all_goals (subst hQ; simp_all [calls])

/-- C5: whenever the lookup of the survey state in `HandleSurveyCommand` gives a state that is
finished, the handler sends the message `SurveyAlreadyFinished`, returns an error whose text
contains "survey already finished", rolls the transaction back and does not commit it, and
calls none of `CreateUserSurveyState`, `UpdateUserCurrentSurvey`, `UpdateUserLastActivity` and
`SendSurveyQuestion`. -/
theorem HandleSurveyCommand_already_finished {W : Type} (s : service W) (ctx : Context)
    (surveyID : Int) (w : W) (run : Run W Unit) (hrun : s.HandleSurveyCommand ctx surveyID w = run)
    (userGUID surveyGUID : UUID) (states : List State) (state : SurveyState)
    (hLookup : (⟨.GetUserSurveyState userGUID surveyGUID states, .state state⟩ : Event) ∈ run.trace)
    (hFinished : state.State = FinishedState) :
    Call.SendMessage responses.SurveyAlreadyFinished ∈ calls run.trace ∧
    (∃ e, run.res = .err e ∧ "survey already finished".data <:+: e.Error.data) ∧
    Call.Rollback ∈ calls run.trace ∧ Call.Commit ∉ calls run.trace ∧
    (∀ c ∈ calls run.trace,
      (∀ st, c ≠ .CreateUserSurveyState st) ∧ (∀ u g, c ≠ .UpdateUserCurrentSurvey u g) ∧
      (∀ u, c ≠ .UpdateUserLastActivity u) ∧ (∀ q, c ≠ .SendSurveyQuestion q)) := by
  have hText : "survey already finished".data <:+:
      (GoError.wrap "failed to transact: "
        (.wrap "failed to exec transaction: " (.new "survey already finished"))).Error.data :=
    ⟨"failed to transact: failed to exec transaction: ".data, [], by decide⟩
  have key : wp (s.HandleSurveyCommand ctx surveyID) (fun r _ tr =>
      ∀ (userGUID surveyGUID : UUID) (states : List State) (state : SurveyState),
      (⟨.GetUserSurveyState userGUID surveyGUID states, .state state⟩ : Event) ∈ tr →
      state.State = FinishedState →
      (r = .err (.wrap "failed to transact: "
          (.wrap "failed to exec transaction: " (.new "survey already finished")))) ∧
      Call.SendMessage responses.SurveyAlreadyFinished ∈ calls tr ∧
      Call.Rollback ∈ calls tr ∧ Call.Commit ∉ calls tr ∧
      (∀ c ∈ calls tr,
        (∀ st, c ≠ .CreateUserSurveyState st) ∧ (∀ u g, c ≠ .UpdateUserCurrentSurvey u g) ∧
        (∀ u, c ≠ .UpdateUserLastActivity u) ∧ (∀ q, c ≠ .SendSurveyQuestion q))) w := by
    rw [wp_HandleSurveyCommand]
    refine ⟨by simp, fun w1 _ => wp_mono _ _ _ _ (HandleSurveyCommandTx_finished s ctx surveyID w1) ?_⟩
    intro r w2 t hP
    cases r with
    | ok a =>
      cases a
      refine ⟨fun w3 _ u g fl st hL hF => ?_, fun e w3 _ u g fl st hL hF => ?_⟩ <;>
      · have h := hP u g fl st (by simpa using hL) hF
        simp at h
    | err e =>
      refine ⟨fun w3 _ u g fl st hL hF => ?_, fun e2 w3 _ u g fl st hL hF => ?_⟩ <;>
      · have h := hP u g fl st (by simpa using hL) hF
        simp only [calls] at h ⊢
        simp only [Res.err.injEq] at h
        obtain ⟨h1, h2, h3⟩ := h
        subst h1
        simp only [List.map_cons, List.map_append, List.mem_cons, List.mem_append, List.map_nil]
        refine ⟨trivial, Or.inr (Or.inl h2), by simp, ?_, ?_⟩
        · intro hc
          simp at hc
          obtain ⟨a, ha, ha2⟩ := hc
          have := (h3 _ (List.mem_map_of_mem _ ha)).2.2.2.2.1
          exact this ha2
        · intro c hc
          simp at hc
          rcases hc with rfl | ⟨a, ha, rfl⟩ | hc
          · simp
          · have := h3 _ (List.mem_map_of_mem _ ha)
            exact ⟨this.1, this.2.1, this.2.2.1, this.2.2.2.1⟩
          · rcases hc with rfl | rfl <;> simp
    | panic p =>
      intro u g fl st hL hF
      have h := hP u g fl st (by simpa using hL) hF
      simp at h
  subst hrun
  unfold wp at key
  obtain ⟨h1, h2, h3, h4, h5⟩ := key userGUID surveyGUID states state hLookup hFinished
  exact ⟨h2, ⟨_, h1, hText⟩, h3, h4, h5⟩

set_option maxHeartbeats 4000000 in
/-- The function passed to `Transact` by `HandleAnswer`, when the answer is rejected. -/
theorem HandleAnswerTx_invalid {W : Type} (s : service W) (ctx : Context) (msg : String)
    (w : W) : wp (s.HandleAnswerTx ctx msg) (fun r _ tr =>
      ∀ (u g g2 : UUID) (fl : List State) (state : SurveyState) (survey : Survey) (q : Question)
        (e : GoError),
      (⟨.GetUserSurveyState u g fl, .state state⟩ : Event) ∈ tr →
      (⟨.GetSurvey g2, .survey survey⟩ : Event) ∈ tr →
      survey.Questions[state.Answers.length]? = some q →
      q.GetAnswer msg = .err e →
      r = .err (.wrap "failed to get answer: " e) ∧
      (calls tr).filter Call.isSend = [.CtxSend (handleAnswerValidateErrorText e)] ∧
      (∀ p, Call.UpdateActiveUserSurveyState p ∉ calls tr) ∧
      (∀ x, Call.SetUserCurrentSurveyToNil x ∉ calls tr) ∧
      (∀ sv ans, Call.GetResults sv ans ∉ calls tr) ∧
      Call.Commit ∉ calls tr) w := by
  generalize hQ : (fun (r : Res Unit) (_ : W) (tr : List Event) =>
      ∀ (u g g2 : UUID) (fl : List State) (state : SurveyState) (survey : Survey) (q : Question)
        (e : GoError),
      (⟨.GetUserSurveyState u g fl, .state state⟩ : Event) ∈ tr →
      (⟨.GetSurvey g2, .survey survey⟩ : Event) ∈ tr →
      survey.Questions[state.Answers.length]? = some q →
      q.GetAnswer msg = .err e →
      r = .err (.wrap "failed to get answer: " e) ∧
      (calls tr).filter Call.isSend = [.CtxSend (handleAnswerValidateErrorText e)] ∧
      (∀ p, Call.UpdateActiveUserSurveyState p ∉ calls tr) ∧
      (∀ x, Call.SetUserCurrentSurveyToNil x ∉ calls tr) ∧
      (∀ sv ans, Call.GetResults sv ans ∉ calls tr) ∧
      Call.Commit ∉ calls tr) = Q
  unfold service.HandleAnswerTx service.handleAnswerValidateError
  simp only [wp_bind, wp_callV, wp_call, bindPost, wp_ite, wp_ret, wp_pure, wp_newUUID, wp_index,
    wp_loggerErrorf, wp_deref, wp_tryRes, Int.toNat_ofNat, List.nil_append, List.append_nil,
    List.cons_append, ge_iff_le, Nat.cast_le, not_le]
  repeat' (first | intro _ | apply And.intro)
  all_goals first
    | (subst hQ; dsimp only; intro u g g2 fl state survey q e hS hV hq he; simp at hS hV; done)
    | skip
  all_goals first
    | (subst hQ; dsimp only; intro u g g2 fl state survey q e hS hV hq he; simp at hS hV
       obtain ⟨⟨rfl, rfl, rfl⟩, rfl⟩ := hS
       obtain ⟨rfl, rfl⟩ := hV
       simp_all [calls, Call.isSend]; done)
    | skip
  all_goals (subst hQ; dsimp only; intro u g g2 fl state survey q e hS hV hq he; simp at hS hV
             obtain ⟨⟨rfl, rfl, rfl⟩, rfl⟩ := hS
             obtain ⟨rfl, rfl⟩ := hV
             have hlt := (List.getElem?_eq_some.mp hq).1
             simp_all
             try omega)

/-- C3: whenever the next unanswered question rejects the raw text, `HandleAnswer` sends
exactly one message, the corrective text chosen by the kind of error (`AnswerNotANumber` for
an answer that does not parse, `AnswerOutOfRange` for a segment answer out of range,
`AnswerNotFound` for a code that is not a possible answer), returns an error, rolls the
transaction back and does not commit it, and calls none of `UpdateActiveUserSurveyState`,
`SetUserCurrentSurveyToNil` and the results processor. -/
theorem HandleAnswer_invalid_answer {W : Type} (s : service W) (ctx : Context) (msg : String)
    (w : W) (run : Run W Unit) (hrun : s.HandleAnswer ctx msg w = run)
    (u g g2 : UUID) (fl : List State) (state : SurveyState) (survey : Survey) (q : Question)
    (e : GoError)
    (hState : (⟨.GetUserSurveyState u g fl, .state state⟩ : Event) ∈ run.trace)
    (hSurvey : (⟨.GetSurvey g2, .survey survey⟩ : Event) ∈ run.trace)
    (hNext : survey.Questions[state.Answers.length]? = some q)
    (hRejected : q.GetAnswer msg = .err e) :
    (calls run.trace).filter Call.isSend = [.CtxSend (handleAnswerValidateErrorText e)] ∧
    ((e.Is .ErrParseAnswerTypeSegment = true ∨ e.Is .ErrParseAnswerTypeSelect = true ∨
        e.Is .ErrParseAnswerTypeMultiSelect = true) →
      handleAnswerValidateErrorText e = responses.AnswerNotANumber) ∧
    (e = .sentinel .ErrAnswerOutOfRange →
      handleAnswerValidateErrorText e = responses.AnswerOutOfRange) ∧
    (e = .sentinel .ErrAnswerNotFound →
      handleAnswerValidateErrorText e = responses.AnswerNotFound) ∧
    run.res = .err (.wrap "failed to transact: "
      (.wrap "failed to exec transaction: " (.wrap "failed to get answer: " e))) ∧
    Call.Rollback ∈ calls run.trace ∧ Call.Commit ∉ calls run.trace ∧
    (∀ p, Call.UpdateActiveUserSurveyState p ∉ calls run.trace) ∧
    (∀ x, Call.SetUserCurrentSurveyToNil x ∉ calls run.trace) ∧
    (∀ sv ans, Call.GetResults sv ans ∉ calls run.trace) := by
  have key : wp (s.HandleAnswer ctx msg) (fun r _ tr =>
      ∀ (u g g2 : UUID) (fl : List State) (state : SurveyState) (survey : Survey) (q : Question)
        (e : GoError),
      (⟨.GetUserSurveyState u g fl, .state state⟩ : Event) ∈ tr →
      (⟨.GetSurvey g2, .survey survey⟩ : Event) ∈ tr →
      survey.Questions[state.Answers.length]? = some q →
      q.GetAnswer msg = .err e →
      r = .err (.wrap "failed to transact: "
        (.wrap "failed to exec transaction: " (.wrap "failed to get answer: " e))) ∧
      (calls tr).filter Call.isSend = [.CtxSend (handleAnswerValidateErrorText e)] ∧
      Call.Rollback ∈ calls tr ∧ Call.Commit ∉ calls tr ∧
      (∀ p, Call.UpdateActiveUserSurveyState p ∉ calls tr) ∧
      (∀ x, Call.SetUserCurrentSurveyToNil x ∉ calls tr) ∧
      (∀ sv ans, Call.GetResults sv ans ∉ calls tr)) w := by
    rw [wp_HandleAnswer]
    refine ⟨by simp, fun w1 _ => wp_mono _ _ _ _ (HandleAnswerTx_invalid s ctx msg w1) ?_⟩
    intro r w2 t hP
    cases r with
    | ok a =>
      cases a
      refine ⟨fun w3 _ u g g2 fl st sv q e hS hV hq he => ?_,
        fun e2 w3 _ u g g2 fl st sv q e hS hV hq he => ?_⟩ <;>
      · have h := hP u g g2 fl st sv q e (by simpa using hS) (by simpa using hV) hq he
        simp at h
    | err e0 =>
      refine ⟨fun w3 _ u g g2 fl st sv q e hS hV hq he => ?_,
        fun e2 w3 _ u g g2 fl st sv q e hS hV hq he => ?_⟩ <;>
      · obtain ⟨h1, h2, h3, h4, h5, h6⟩ :=
          hP u g g2 fl st sv q e (by simpa using hS) (by simpa using hV) hq he
        simp only [Res.err.injEq] at h1
        subst h1
        refine ⟨rfl, ?_, ?_, ?_, ?_, ?_, ?_⟩
        · simpa [calls, List.filter_cons, Call.isSend] using h2
        · simp [calls]
        · simpa [calls] using h6
        · intro p; simpa [calls] using h3 p
        · intro x; simpa [calls] using h4 x
        · intro sv2 ans; simpa [calls] using h5 sv2 ans
    | panic p =>
      intro u g g2 fl st sv q e hS hV hq he
      have h := hP u g g2 fl st sv q e (by simpa using hS) (by simpa using hV) hq he
      simp at h
  subst hrun
  unfold wp at key
  obtain ⟨h1, h2, h3, h4, h5, h6, h7⟩ := key u g g2 fl state survey q e hState hSurvey hNext hRejected
  refine ⟨h2, ?_, ?_, ?_, h1, h3, h4, h5, h6, h7⟩
  · intro h
    unfold handleAnswerValidateErrorText
    rcases h with h | h | h <;> simp [h]
  · rintro rfl
    simp [handleAnswerValidateErrorText, GoError.Is]
  · rintro rfl
    simp [handleAnswerValidateErrorText, GoError.Is]

set_option maxHeartbeats 4000000 in
/-- The function passed to `Transact` by `HandleAnswer`, when the last question is answered. -/
theorem HandleAnswerTx_last {W : Type} (s : service W) (ctx : Context) (msg : String)
    (w : W) : wp (s.HandleAnswerTx ctx msg) (fun _ _ tr =>
      ∀ (u g g2 : UUID) (fl : List State) (state : SurveyState) (survey : Survey) (q : Question)
        (a : Answer),
      (⟨.GetUserSurveyState u g fl, .state state⟩ : Event) ∈ tr →
      (⟨.GetSurvey g2, .survey survey⟩ : Event) ∈ tr →
      state.Answers.length + 1 = survey.Questions.length →
      survey.Questions[state.Answers.length]? = some q →
      q.GetAnswer msg = .ok a →
      Call.GetResults survey (state.Answers ++ [a]) ∈ calls tr ∧
      (∀ q2, Call.SendSurveyQuestion q2 ∉ calls tr) ∧
      (∀ results,
        (⟨.GetResults survey (state.Answers ++ [a]), .results results⟩ : Event) ∈ tr →
        Call.SetUserCurrentSurveyToNil u ∈ calls tr ∧
        ((⟨.SetUserCurrentSurveyToNil u, .nil⟩ : Event) ∈ tr →
          Call.SendMessage results.Text ∈ calls tr ∧
          Call.UpdateActiveUserSurveyState
            { state with Answers := state.Answers ++ [a], State := FinishedState,
                         Results := some results } ∈ calls tr)) ∧
      (∀ p, Call.UpdateActiveUserSurveyState p ∈ calls tr →
        ∃ results, (⟨.GetResults survey (state.Answers ++ [a]), .results results⟩ : Event) ∈ tr ∧
          p = { state with Answers := state.Answers ++ [a], State := FinishedState,
                           Results := some results })) w := by
  generalize hQ : (fun (_ : Res Unit) (_ : W) (tr : List Event) =>
      ∀ (u g g2 : UUID) (fl : List State) (state : SurveyState) (survey : Survey) (q : Question)
        (a : Answer),
      (⟨.GetUserSurveyState u g fl, .state state⟩ : Event) ∈ tr →
      (⟨.GetSurvey g2, .survey survey⟩ : Event) ∈ tr →
      state.Answers.length + 1 = survey.Questions.length →
      survey.Questions[state.Answers.length]? = some q →
      q.GetAnswer msg = .ok a →
      Call.GetResults survey (state.Answers ++ [a]) ∈ calls tr ∧
      (∀ q2, Call.SendSurveyQuestion q2 ∉ calls tr) ∧
      (∀ results,
        (⟨.GetResults survey (state.Answers ++ [a]), .results results⟩ : Event) ∈ tr →
        Call.SetUserCurrentSurveyToNil u ∈ calls tr ∧
        ((⟨.SetUserCurrentSurveyToNil u, .nil⟩ : Event) ∈ tr →
          Call.SendMessage results.Text ∈ calls tr ∧
          Call.UpdateActiveUserSurveyState
            { state with Answers := state.Answers ++ [a], State := FinishedState,
                         Results := some results } ∈ calls tr)) ∧
      (∀ p, Call.UpdateActiveUserSurveyState p ∈ calls tr →
        ∃ results, (⟨.GetResults survey (state.Answers ++ [a]), .results results⟩ : Event) ∈ tr ∧
          p = { state with Answers := state.Answers ++ [a], State := FinishedState,
                           Results := some results })) = Q
  unfold service.HandleAnswerTx service.handleAnswerValidateError
  simp only [wp_bind, wp_callV, wp_call, bindPost, wp_ite, wp_ret, wp_pure, wp_newUUID, wp_index,
    wp_loggerErrorf, wp_deref, wp_tryRes, Int.toNat_ofNat, List.nil_append, List.append_nil,
    List.cons_append, ge_iff_le, Nat.cast_le, not_le]
  repeat' (first | intro _ | apply And.intro)
  all_goals first
    | (subst hQ; dsimp only; intro u g g2 fl state survey q a hS hV hl hq ha; simp at hS hV; done)
    | skip
  all_goals first
    | (subst hQ; dsimp only; intro u g g2 fl state survey q a hS hV hl hq ha; simp at hS hV
       obtain ⟨⟨rfl, rfl, rfl⟩, rfl⟩ := hS
       obtain ⟨rfl, rfl⟩ := hV
       simp_all [calls]; done)
    | skip
  all_goals (subst hQ; dsimp only; intro u g g2 fl state survey q a hS hV hl hq ha; simp at hS hV
             obtain ⟨⟨rfl, rfl, rfl⟩, rfl⟩ := hS
             obtain ⟨rfl, rfl⟩ := hV
             have hlt := (List.getElem?_eq_some.mp hq).1
             exfalso
             first | omega | (simp_all; done) | (simp_all; omega))

/-- C1: when the state loaded by `HandleAnswer` holds all answers but the last and the last
question accepts the raw text, the handler calls the results processor with the survey and
the old answers followed by the parsed one (as many answers as the survey has questions) and
sends no question; when the processor returns results it calls `SetUserCurrentSurveyToNil`
for the user, and when that succeeds it sends the results text and hands
`UpdateActiveUserSurveyState` the state with those answers, the state `finished` and the
results; no other state is handed to `UpdateActiveUserSurveyState`. -/
theorem HandleAnswer_last_question {W : Type} (s : service W) (ctx : Context) (msg : String)
    (w : W) (run : Run W Unit) (hrun : s.HandleAnswer ctx msg w = run)
    (u g g2 : UUID) (fl : List State) (state : SurveyState) (survey : Survey) (q : Question)
    (a : Answer)
    (hState : (⟨.GetUserSurveyState u g fl, .state state⟩ : Event) ∈ run.trace)
    (hSurvey : (⟨.GetSurvey g2, .survey survey⟩ : Event) ∈ run.trace)
    (hLast : state.Answers.length + 1 = survey.Questions.length)
    (hNext : survey.Questions[state.Answers.length]? = some q)
    (hParsed : q.GetAnswer msg = .ok a) :
    Call.GetResults survey (state.Answers ++ [a]) ∈ calls run.trace ∧
    (state.Answers ++ [a]).length = survey.Questions.length ∧
    (∀ q2, Call.SendSurveyQuestion q2 ∉ calls run.trace) ∧
    (∀ results,
      (⟨.GetResults survey (state.Answers ++ [a]), .results results⟩ : Event) ∈ run.trace →
      Call.SetUserCurrentSurveyToNil u ∈ calls run.trace ∧
      ((⟨.SetUserCurrentSurveyToNil u, .nil⟩ : Event) ∈ run.trace →
        Call.SendMessage results.Text ∈ calls run.trace ∧
        Call.UpdateActiveUserSurveyState
          { state with Answers := state.Answers ++ [a], State := FinishedState,
                       Results := some results } ∈ calls run.trace)) ∧
    (∀ p, Call.UpdateActiveUserSurveyState p ∈ calls run.trace →
      ∃ results,
        (⟨.GetResults survey (state.Answers ++ [a]), .results results⟩ : Event) ∈ run.trace ∧
        p = { state with Answers := state.Answers ++ [a], State := FinishedState,
                         Results := some results } ∧
        p.State = FinishedState ∧ p.Results = some results ∧
        p.Answers.length = survey.Questions.length) := by
  have key : wp (s.HandleAnswer ctx msg) (fun _ _ tr =>
      ∀ (u g g2 : UUID) (fl : List State) (state : SurveyState) (survey : Survey) (q : Question)
        (a : Answer),
      (⟨.GetUserSurveyState u g fl, .state state⟩ : Event) ∈ tr →
      (⟨.GetSurvey g2, .survey survey⟩ : Event) ∈ tr →
      state.Answers.length + 1 = survey.Questions.length →
      survey.Questions[state.Answers.length]? = some q →
      q.GetAnswer msg = .ok a →
      Call.GetResults survey (state.Answers ++ [a]) ∈ calls tr ∧
      (∀ q2, Call.SendSurveyQuestion q2 ∉ calls tr) ∧
      (∀ results,
        (⟨.GetResults survey (state.Answers ++ [a]), .results results⟩ : Event) ∈ tr →
        Call.SetUserCurrentSurveyToNil u ∈ calls tr ∧
        ((⟨.SetUserCurrentSurveyToNil u, .nil⟩ : Event) ∈ tr →
          Call.SendMessage results.Text ∈ calls tr ∧
          Call.UpdateActiveUserSurveyState
            { state with Answers := state.Answers ++ [a], State := FinishedState,
                         Results := some results } ∈ calls tr)) ∧
      (∀ p, Call.UpdateActiveUserSurveyState p ∈ calls tr →
        ∃ results, (⟨.GetResults survey (state.Answers ++ [a]), .results results⟩ : Event) ∈ tr ∧
          p = { state with Answers := state.Answers ++ [a], State := FinishedState,
                           Results := some results })) w := by
    rw [wp_HandleAnswer]
    refine ⟨by simp, fun w1 _ => wp_mono _ _ _ _ (HandleAnswerTx_last s ctx msg w1) ?_⟩
    intro r w2 t hP
    refine txPost_of_wrapRes s _ r w2 t fun r2 w3 post hw => ?_
    have hpost := wrapRes_isTxControl hw
    simp only [mem_wrapped hpost, mem_calls_wrapped hpost, Call.isTxControl]
    exact hP
  subst hrun
  unfold wp at key
  obtain ⟨h1, h2, h3, h4⟩ := key u g g2 fl state survey q a hState hSurvey hLast hNext hParsed
  refine ⟨h1, by simp [hLast], h2, h3, fun p hp => ?_⟩
  obtain ⟨results, hr, hp2⟩ := h4 p hp
  exact ⟨results, hr, hp2, by rw [hp2], by rw [hp2], by rw [hp2]; simp [hLast]⟩

set_option maxHeartbeats 4000000 in
/-- The function passed to `Transact` by `HandleAnswer`, when a question other than the last
is answered. -/
theorem HandleAnswerTx_next {W : Type} (s : service W) (ctx : Context) (msg : String)
    (w : W) : wp (s.HandleAnswerTx ctx msg) (fun _ _ tr =>
      ∀ (u g g2 : UUID) (fl : List State) (state : SurveyState) (survey : Survey) (q : Question)
        (a : Answer),
      (⟨.GetUserSurveyState u g fl, .state state⟩ : Event) ∈ tr →
      (⟨.GetSurvey g2, .survey survey⟩ : Event) ∈ tr →
      state.Answers.length + 1 < survey.Questions.length →
      survey.Questions[state.Answers.length]? = some q →
      q.GetAnswer msg = .ok a →
      (∃ q2, survey.Questions[state.Answers.length + 1]? = some q2 ∧
        Call.SendSurveyQuestion q2 ∈ calls tr ∧
        (∀ q3, Call.SendSurveyQuestion q3 ∈ calls tr → q3 = q2) ∧
        ((⟨.SendSurveyQuestion q2, .nil⟩ : Event) ∈ tr →
          Call.UpdateActiveUserSurveyState
            { state with Answers := state.Answers ++ [a] } ∈ calls tr)) ∧
      (∀ sv ans, Call.GetResults sv ans ∉ calls tr) ∧
      (∀ x, Call.SetUserCurrentSurveyToNil x ∉ calls tr) ∧
      (∀ p, Call.UpdateActiveUserSurveyState p ∈ calls tr →
        p = { state with Answers := state.Answers ++ [a] })) w := by
  generalize hQ : (fun (_ : Res Unit) (_ : W) (tr : List Event) =>
      ∀ (u g g2 : UUID) (fl : List State) (state : SurveyState) (survey : Survey) (q : Question)
        (a : Answer),
      (⟨.GetUserSurveyState u g fl, .state state⟩ : Event) ∈ tr →
      (⟨.GetSurvey g2, .survey survey⟩ : Event) ∈ tr →
      state.Answers.length + 1 < survey.Questions.length →
      survey.Questions[state.Answers.length]? = some q →
      q.GetAnswer msg = .ok a →
      (∃ q2, survey.Questions[state.Answers.length + 1]? = some q2 ∧
        Call.SendSurveyQuestion q2 ∈ calls tr ∧
        (∀ q3, Call.SendSurveyQuestion q3 ∈ calls tr → q3 = q2) ∧
        ((⟨.SendSurveyQuestion q2, .nil⟩ : Event) ∈ tr →
          Call.UpdateActiveUserSurveyState
            { state with Answers := state.Answers ++ [a] } ∈ calls tr)) ∧
      (∀ sv ans, Call.GetResults sv ans ∉ calls tr) ∧
      (∀ x, Call.SetUserCurrentSurveyToNil x ∉ calls tr) ∧
      (∀ p, Call.UpdateActiveUserSurveyState p ∈ calls tr →
        p = { state with Answers := state.Answers ++ [a] })) = Q
  unfold service.HandleAnswerTx service.handleAnswerValidateError
  simp only [wp_bind, wp_callV, wp_call, bindPost, wp_ite, wp_ret, wp_pure, wp_newUUID, wp_index,
    wp_loggerErrorf, wp_deref, wp_tryRes, Int.toNat_ofNat, List.nil_append, List.append_nil,
    List.cons_append, ge_iff_le, Nat.cast_le, not_le]
  repeat' (first | intro _ | apply And.intro)
  all_goals first
    | (subst hQ; dsimp only; intro u g g2 fl state survey q a hS hV hl hq ha; simp at hS hV; done)
    | skip
  all_goals first
    | (subst hQ; dsimp only; intro u g g2 fl state survey q a hS hV hl hq ha; simp at hS hV
       obtain ⟨⟨rfl, rfl, rfl⟩, rfl⟩ := hS
       obtain ⟨rfl, rfl⟩ := hV
       simp_all [calls]; done)
    | skip
  all_goals (subst hQ; dsimp only; intro u g g2 fl state survey q a hS hV hl hq ha; simp at hS hV
             obtain ⟨⟨rfl, rfl, rfl⟩, rfl⟩ := hS
             obtain ⟨rfl, rfl⟩ := hV
             have hlt := (List.getElem?_eq_some.mp hq).1
             first | (exfalso; omega) | (exfalso; simp_all; done) | (exfalso; simp_all; omega))

/-- C2: when the state loaded by `HandleAnswer` holds `k` answers with `k + 1` less than the
number of questions and question `k` accepts the raw text, the question sent is question
`k + 1` and no other, the results processor and `SetUserCurrentSurveyToNil` are not called,
and the state handed to `UpdateActiveUserSurveyState` (handed once the question is sent) is
the loaded state with the parsed answer appended, `State` and `Results` unchanged. -/
theorem HandleAnswer_next_question {W : Type} (s : service W) (ctx : Context) (msg : String)
    (w : W) (run : Run W Unit) (hrun : s.HandleAnswer ctx msg w = run)
    (u g g2 : UUID) (fl : List State) (state : SurveyState) (survey : Survey) (q : Question)
    (a : Answer)
    (hState : (⟨.GetUserSurveyState u g fl, .state state⟩ : Event) ∈ run.trace)
    (hSurvey : (⟨.GetSurvey g2, .survey survey⟩ : Event) ∈ run.trace)
    (hNotLast : state.Answers.length + 1 < survey.Questions.length)
    (hNext : survey.Questions[state.Answers.length]? = some q)
    (hParsed : q.GetAnswer msg = .ok a) :
    (∃ q2, survey.Questions[state.Answers.length + 1]? = some q2 ∧
        Call.SendSurveyQuestion q2 ∈ calls run.trace ∧
        (∀ q3, Call.SendSurveyQuestion q3 ∈ calls run.trace → q3 = q2) ∧
        ((⟨.SendSurveyQuestion q2, .nil⟩ : Event) ∈ run.trace →
          Call.UpdateActiveUserSurveyState
            { state with Answers := state.Answers ++ [a] } ∈ calls run.trace)) ∧
      (∀ sv ans, Call.GetResults sv ans ∉ calls run.trace) ∧
      (∀ x, Call.SetUserCurrentSurveyToNil x ∉ calls run.trace) ∧
      (∀ p, Call.UpdateActiveUserSurveyState p ∈ calls run.trace →
        p = { state with Answers := state.Answers ++ [a] }) := by
  have key : wp (s.HandleAnswer ctx msg) (fun _ _ tr =>
      ∀ (u g g2 : UUID) (fl : List State) (state : SurveyState) (survey : Survey) (q : Question)
        (a : Answer),
      (⟨.GetUserSurveyState u g fl, .state state⟩ : Event) ∈ tr →
      (⟨.GetSurvey g2, .survey survey⟩ : Event) ∈ tr →
      state.Answers.length + 1 < survey.Questions.length →
      survey.Questions[state.Answers.length]? = some q →
      q.GetAnswer msg = .ok a →
      (∃ q2, survey.Questions[state.Answers.length + 1]? = some q2 ∧
        Call.SendSurveyQuestion q2 ∈ calls tr ∧
        (∀ q3, Call.SendSurveyQuestion q3 ∈ calls tr → q3 = q2) ∧
        ((⟨.SendSurveyQuestion q2, .nil⟩ : Event) ∈ tr →
          Call.UpdateActiveUserSurveyState
            { state with Answers := state.Answers ++ [a] } ∈ calls tr)) ∧
      (∀ sv ans, Call.GetResults sv ans ∉ calls tr) ∧
      (∀ x, Call.SetUserCurrentSurveyToNil x ∉ calls tr) ∧
      (∀ p, Call.UpdateActiveUserSurveyState p ∈ calls tr →
        p = { state with Answers := state.Answers ++ [a] })) w := by
    rw [wp_HandleAnswer]
    refine ⟨by simp, fun w1 _ => wp_mono _ _ _ _ (HandleAnswerTx_next s ctx msg w1) ?_⟩
    intro r w2 t hP
    refine txPost_of_wrapRes s _ r w2 t fun r2 w3 post hw => ?_
    have hpost := wrapRes_isTxControl hw
    simp only [mem_wrapped hpost, mem_calls_wrapped hpost, Call.isTxControl]
    exact hP
  subst hrun
  unfold wp at key
  exact key u g g2 fl state survey q a hState hSurvey hNotLast hNext hParsed

set_option maxHeartbeats 4000000 in
/-- The function passed to `Transact` by `HandleSurveyCommand`, when a state that is not
finished is found and when none is found. -/
theorem HandleSurveyCommandTx_resume {W : Type} (s : service W) (ctx : Context) (surveyID : Int)
    (w : W) : wp (s.HandleSurveyCommandTx ctx surveyID) (fun _ _ tr =>
      (∀ (u g : UUID) (fl : List State) (state : SurveyState) (surveyID2 : Int) (survey : Survey)
          (q : Question),
        (⟨.GetUserSurveyState u g fl, .state state⟩ : Event) ∈ tr →
        (⟨.GetSurveyByID surveyID2, .survey survey⟩ : Event) ∈ tr →
        state.State ≠ FinishedState →
        survey.Questions[state.Answers.length]? = some q →
        (∀ p, Call.CreateUserSurveyState p ∉ calls tr) ∧
        g = survey.GUID ∧
        (∀ usr, (⟨.GetUserByID ctx.UserID, .user usr⟩ : Event) ∈ tr → u = usr.GUID) ∧
        (∀ usr, Call.CreateUser usr ∈ calls tr → u = usr.GUID) ∧
        Call.UpdateUserCurrentSurvey u survey.GUID ∈ calls tr ∧
        (∀ q3, Call.SendSurveyQuestion q3 ∈ calls tr → q3 = q) ∧
        ((⟨.UpdateUserCurrentSurvey u survey.GUID, .nil⟩ : Event) ∈ tr →
          (⟨.UpdateUserLastActivity u, .nil⟩ : Event) ∈ tr →
          Call.SendSurveyQuestion q ∈ calls tr)) ∧
      (∀ (u g : UUID) (fl : List State) (e : GoError) (surveyID2 : Int) (survey : Survey),
        (⟨.GetUserSurveyState u g fl, .err e⟩ : Event) ∈ tr →
        e.Is .ErrNotFound = true →
        (⟨.GetSurveyByID surveyID2, .survey survey⟩ : Event) ∈ tr →
        g = survey.GUID ∧
        (∀ usr, (⟨.GetUserByID ctx.UserID, .user usr⟩ : Event) ∈ tr → u = usr.GUID) ∧
        (∀ usr, Call.CreateUser usr ∈ calls tr → u = usr.GUID) ∧
        Call.CreateUserSurveyState
          { State := ActiveState, UserGUID := u, SurveyGUID := survey.GUID, Answers := [],
            Results := none } ∈ calls tr ∧
        (∀ p, Call.CreateUserSurveyState p ∈ calls tr →
          p = { State := ActiveState, UserGUID := u, SurveyGUID := survey.GUID, Answers := [],
                Results := none }) ∧
        (∀ q3, Call.SendSurveyQuestion q3 ∈ calls tr → survey.Questions[0]? = some q3) ∧
        ((⟨.CreateUserSurveyState
            { State := ActiveState, UserGUID := u, SurveyGUID := survey.GUID, Answers := [],
              Results := none }, .nil⟩ : Event) ∈ tr →
          (⟨.UpdateUserCurrentSurvey u survey.GUID, .nil⟩ : Event) ∈ tr →
          (⟨.UpdateUserLastActivity u, .nil⟩ : Event) ∈ tr →
          ∀ q0, survey.Questions[0]? = some q0 → Call.SendSurveyQuestion q0 ∈ calls tr))) w := by
  generalize hQ : (fun (_ : Res Unit) (_ : W) (tr : List Event) =>
      (∀ (u g : UUID) (fl : List State) (state : SurveyState) (surveyID2 : Int) (survey : Survey)
          (q : Question),
        (⟨.GetUserSurveyState u g fl, .state state⟩ : Event) ∈ tr →
        (⟨.GetSurveyByID surveyID2, .survey survey⟩ : Event) ∈ tr →
        state.State ≠ FinishedState →
        survey.Questions[state.Answers.length]? = some q →
        (∀ p, Call.CreateUserSurveyState p ∉ calls tr) ∧
        g = survey.GUID ∧
        (∀ usr, (⟨.GetUserByID ctx.UserID, .user usr⟩ : Event) ∈ tr → u = usr.GUID) ∧
        (∀ usr, Call.CreateUser usr ∈ calls tr → u = usr.GUID) ∧
        Call.UpdateUserCurrentSurvey u survey.GUID ∈ calls tr ∧
        (∀ q3, Call.SendSurveyQuestion q3 ∈ calls tr → q3 = q) ∧
        ((⟨.UpdateUserCurrentSurvey u survey.GUID, .nil⟩ : Event) ∈ tr →
          (⟨.UpdateUserLastActivity u, .nil⟩ : Event) ∈ tr →
          Call.SendSurveyQuestion q ∈ calls tr)) ∧
      (∀ (u g : UUID) (fl : List State) (e : GoError) (surveyID2 : Int) (survey : Survey),
        (⟨.GetUserSurveyState u g fl, .err e⟩ : Event) ∈ tr →
        e.Is .ErrNotFound = true →
        (⟨.GetSurveyByID surveyID2, .survey survey⟩ : Event) ∈ tr →
        g = survey.GUID ∧
        (∀ usr, (⟨.GetUserByID ctx.UserID, .user usr⟩ : Event) ∈ tr → u = usr.GUID) ∧
        (∀ usr, Call.CreateUser usr ∈ calls tr → u = usr.GUID) ∧
        Call.CreateUserSurveyState
          { State := ActiveState, UserGUID := u, SurveyGUID := survey.GUID, Answers := [],
            Results := none } ∈ calls tr ∧
        (∀ p, Call.CreateUserSurveyState p ∈ calls tr →
          p = { State := ActiveState, UserGUID := u, SurveyGUID := survey.GUID, Answers := [],
                Results := none }) ∧
        (∀ q3, Call.SendSurveyQuestion q3 ∈ calls tr → survey.Questions[0]? = some q3) ∧
        ((⟨.CreateUserSurveyState
            { State := ActiveState, UserGUID := u, SurveyGUID := survey.GUID, Answers := [],
              Results := none }, .nil⟩ : Event) ∈ tr →
          (⟨.UpdateUserCurrentSurvey u survey.GUID, .nil⟩ : Event) ∈ tr →
          (⟨.UpdateUserLastActivity u, .nil⟩ : Event) ∈ tr →
          ∀ q0, survey.Questions[0]? = some q0 → Call.SendSurveyQuestion q0 ∈ calls tr))) = Q
  unfold service.HandleSurveyCommandTx
  simp only [wp_bind, wp_callV, wp_call, bindPost, wp_ite, wp_ret, wp_pure, wp_newUUID, wp_index,
    wp_loggerErrorf, Int.toNat_ofNat, List.nil_append, List.append_nil,
    List.cons_append, sub_add_cancel, List.length_nil, Nat.cast_zero, Int.toNat_zero]
  repeat' (first | (intro (h : _ = (_, _)); clear h) | intro _ | apply And.intro)
  all_goals first
    | (subst hQ; dsimp only; simp_all [calls]; done)
    | (subst hQ; dsimp only; simp_all [calls]
       rintro _ _ _ _ _ _ q rfl rfl rfl rfl rfl rfl hq
       have := (List.getElem?_eq_some.mp hq).1
       omega)

/-- C6: `HandleSurveyCommand` resumes where the user stopped. When the lookup gives a state
that is not finished (an active one) with `k` answers and the survey has a question `k`,
no state is created, `UpdateUserCurrentSurvey` is called for the user and that survey, and
the only question sent is question `k` (sent once the two user updates succeed). When the
lookup gives `ErrNotFound`, the state created is the active one with zero answers for that
user and survey, and the only question sent is question `0` (sent once the state is created
and the two user updates succeed). -/
theorem HandleSurveyCommand_resumes {W : Type} (s : service W) (ctx : Context) (surveyID : Int)
    (w : W) (run : Run W Unit) (hrun : s.HandleSurveyCommand ctx surveyID w = run) :
    (∀ (u g : UUID) (fl : List State) (state : SurveyState) (surveyID2 : Int) (survey : Survey)
          (q : Question),
        (⟨.GetUserSurveyState u g fl, .state state⟩ : Event) ∈ run.trace →
        (⟨.GetSurveyByID surveyID2, .survey survey⟩ : Event) ∈ run.trace →
        state.State ≠ FinishedState →
        survey.Questions[state.Answers.length]? = some q →
        (∀ p, Call.CreateUserSurveyState p ∉ calls run.trace) ∧
        g = survey.GUID ∧
        (∀ usr, (⟨.GetUserByID ctx.UserID, .user usr⟩ : Event) ∈ run.trace → u = usr.GUID) ∧
        (∀ usr, Call.CreateUser usr ∈ calls run.trace → u = usr.GUID) ∧
        Call.UpdateUserCurrentSurvey u survey.GUID ∈ calls run.trace ∧
        (∀ q3, Call.SendSurveyQuestion q3 ∈ calls run.trace → q3 = q) ∧
        ((⟨.UpdateUserCurrentSurvey u survey.GUID, .nil⟩ : Event) ∈ run.trace →
          (⟨.UpdateUserLastActivity u, .nil⟩ : Event) ∈ run.trace →
          Call.SendSurveyQuestion q ∈ calls run.trace)) ∧
      (∀ (u g : UUID) (fl : List State) (e : GoError) (surveyID2 : Int) (survey : Survey),
        (⟨.GetUserSurveyState u g fl, .err e⟩ : Event) ∈ run.trace →
        e.Is .ErrNotFound = true →
        (⟨.GetSurveyByID surveyID2, .survey survey⟩ : Event) ∈ run.trace →
        g = survey.GUID ∧
        (∀ usr, (⟨.GetUserByID ctx.UserID, .user usr⟩ : Event) ∈ run.trace → u = usr.GUID) ∧
        (∀ usr, Call.CreateUser usr ∈ calls run.trace → u = usr.GUID) ∧
        Call.CreateUserSurveyState
          { State := ActiveState, UserGUID := u, SurveyGUID := survey.GUID, Answers := [],
            Results := none } ∈ calls run.trace ∧
        (∀ p, Call.CreateUserSurveyState p ∈ calls run.trace →
          p = { State := ActiveState, UserGUID := u, SurveyGUID := survey.GUID, Answers := [],
                Results := none }) ∧
        (∀ q3, Call.SendSurveyQuestion q3 ∈ calls run.trace → survey.Questions[0]? = some q3) ∧
        ((⟨.CreateUserSurveyState
            { State := ActiveState, UserGUID := u, SurveyGUID := survey.GUID, Answers := [],
              Results := none }, .nil⟩ : Event) ∈ run.trace →
          (⟨.UpdateUserCurrentSurvey u survey.GUID, .nil⟩ : Event) ∈ run.trace →
          (⟨.UpdateUserLastActivity u, .nil⟩ : Event) ∈ run.trace →
          ∀ q0, survey.Questions[0]? = some q0 → Call.SendSurveyQuestion q0 ∈ calls run.trace)) := by
  have key : wp (s.HandleSurveyCommand ctx surveyID) (fun _ _ tr =>
      (∀ (u g : UUID) (fl : List State) (state : SurveyState) (surveyID2 : Int) (survey : Survey)
          (q : Question),
        (⟨.GetUserSurveyState u g fl, .state state⟩ : Event) ∈ tr →
        (⟨.GetSurveyByID surveyID2, .survey survey⟩ : Event) ∈ tr →
        state.State ≠ FinishedState →
        survey.Questions[state.Answers.length]? = some q →
        (∀ p, Call.CreateUserSurveyState p ∉ calls tr) ∧
        g = survey.GUID ∧
        (∀ usr, (⟨.GetUserByID ctx.UserID, .user usr⟩ : Event) ∈ tr → u = usr.GUID) ∧
        (∀ usr, Call.CreateUser usr ∈ calls tr → u = usr.GUID) ∧
        Call.UpdateUserCurrentSurvey u survey.GUID ∈ calls tr ∧
        (∀ q3, Call.SendSurveyQuestion q3 ∈ calls tr → q3 = q) ∧
        ((⟨.UpdateUserCurrentSurvey u survey.GUID, .nil⟩ : Event) ∈ tr →
          (⟨.UpdateUserLastActivity u, .nil⟩ : Event) ∈ tr →
          Call.SendSurveyQuestion q ∈ calls tr)) ∧
      (∀ (u g : UUID) (fl : List State) (e : GoError) (surveyID2 : Int) (survey : Survey),
        (⟨.GetUserSurveyState u g fl, .err e⟩ : Event) ∈ tr →
        e.Is .ErrNotFound = true →
        (⟨.GetSurveyByID surveyID2, .survey survey⟩ : Event) ∈ tr →
        g = survey.GUID ∧
        (∀ usr, (⟨.GetUserByID ctx.UserID, .user usr⟩ : Event) ∈ tr → u = usr.GUID) ∧
        (∀ usr, Call.CreateUser usr ∈ calls tr → u = usr.GUID) ∧
        Call.CreateUserSurveyState
          { State := ActiveState, UserGUID := u, SurveyGUID := survey.GUID, Answers := [],
            Results := none } ∈ calls tr ∧
        (∀ p, Call.CreateUserSurveyState p ∈ calls tr →
          p = { State := ActiveState, UserGUID := u, SurveyGUID := survey.GUID, Answers := [],
                Results := none }) ∧
        (∀ q3, Call.SendSurveyQuestion q3 ∈ calls tr → survey.Questions[0]? = some q3) ∧
        ((⟨.CreateUserSurveyState
            { State := ActiveState, UserGUID := u, SurveyGUID := survey.GUID, Answers := [],
              Results := none }, .nil⟩ : Event) ∈ tr →
          (⟨.UpdateUserCurrentSurvey u survey.GUID, .nil⟩ : Event) ∈ tr →
          (⟨.UpdateUserLastActivity u, .nil⟩ : Event) ∈ tr →
          ∀ q0, survey.Questions[0]? = some q0 → Call.SendSurveyQuestion q0 ∈ calls tr))) w := by
    rw [wp_HandleSurveyCommand]
    refine ⟨by simp, fun w1 _ => wp_mono _ _ _ _ (HandleSurveyCommandTx_resume s ctx surveyID w1) ?_⟩
    intro r w2 t hP
    refine txPost_of_wrapRes s _ r w2 t fun r2 w3 post hw => ?_
    have hpost := wrapRes_isTxControl hw
    simp only [mem_wrapped hpost, mem_calls_wrapped hpost, Call.isTxControl]
    exact hP
  subst hrun
  unfold wp at key
  exact key

set_option maxHeartbeats 4000000 in
/-- The function passed to `Transact` by `HandleAnswer`: the state it hands to
`UpdateActiveUserSurveyState` is well formed when the one it loaded is. -/
theorem HandleAnswerTx_wellFormed {W : Type} (s : service W) (ctx : Context) (msg : String)
    (w : W) : wp (s.HandleAnswerTx ctx msg) (fun _ _ tr =>
      (∀ (u g g2 : UUID) (fl : List State) (state : SurveyState) (survey : Survey)
          (p : SurveyState),
        (⟨.GetUserSurveyState u g fl, .state state⟩ : Event) ∈ tr →
        (⟨.GetSurvey g2, .survey survey⟩ : Event) ∈ tr →
        state.State = ActiveState → state.Results = none →
        state.Answers.length ≤ survey.Questions.length →
        Call.UpdateActiveUserSurveyState p ∈ calls tr →
        p.Answers.length ≤ survey.Questions.length ∧
          (p.Results ≠ none ↔ p.State = FinishedState)) ∧
      (∀ (catalogue : UUID → Option Survey) (before : List SurveyState),
        (∀ p ∈ before, p.wellFormed catalogue) →
        fromStore catalogue before tr = true →
        ∀ p ∈ writtenStates tr, p.wellFormed catalogue)) w := by
  generalize hQ : (fun (_ : Res Unit) (_ : W) (tr : List Event) =>
      (∀ (u g g2 : UUID) (fl : List State) (state : SurveyState) (survey : Survey)
          (p : SurveyState),
        (⟨.GetUserSurveyState u g fl, .state state⟩ : Event) ∈ tr →
        (⟨.GetSurvey g2, .survey survey⟩ : Event) ∈ tr →
        state.State = ActiveState → state.Results = none →
        state.Answers.length ≤ survey.Questions.length →
        Call.UpdateActiveUserSurveyState p ∈ calls tr →
        p.Answers.length ≤ survey.Questions.length ∧
          (p.Results ≠ none ↔ p.State = FinishedState)) ∧
      (∀ (catalogue : UUID → Option Survey) (before : List SurveyState),
        (∀ p ∈ before, p.wellFormed catalogue) →
        fromStore catalogue before tr = true →
        ∀ p ∈ writtenStates tr, p.wellFormed catalogue)) = Q
  unfold service.HandleAnswerTx service.handleAnswerValidateError
  simp only [wp_bind, wp_callV, wp_call, bindPost, wp_ite, wp_ret, wp_pure, wp_newUUID, wp_index,
    wp_loggerErrorf, wp_deref, wp_tryRes, Int.toNat_ofNat, List.nil_append, List.append_nil,
    List.cons_append, ge_iff_le, Nat.cast_le, not_le]
  repeat' (first | (intro (h : _ = (_, _)); clear h) | intro _ | apply And.intro)
  all_goals first
    | (subst hQ; dsimp only
       simp [calls, writtenStates, Call.written]; done)
    | skip
  all_goals
    (subst hQ; dsimp only
     refine ⟨?_, ?_⟩
     · intro u g g2 fl state survey p hS hV hA hR hL hP
       simp at hS hV
       obtain ⟨⟨rfl, rfl, rfl⟩, rfl⟩ := hS
       obtain ⟨rfl, rfl⟩ := hV
       simp [calls] at hP
       subst hP
       simp_all [ActiveState, FinishedState]
       try omega
     · intro catalogue before hB hF p hp
       simp [fromStore, Event.fromStore, Call.written] at hF
       simp [writtenStates, Call.written] at hp
       subst hp
       obtain ⟨⟨hk, hb⟩, hc⟩ := hF
       have hwf := hB _ hb
       unfold SurveyState.wellFormed at hwf ⊢
       simp_all
       try omega)

set_option maxHeartbeats 4000000 in
/-- The function passed to `Transact` by `HandleSurveyCommand`: the only state it writes is a
fresh one. -/
theorem HandleSurveyCommandTx_created {W : Type} (s : service W) (ctx : Context) (surveyID : Int)
    (w : W) : wp (s.HandleSurveyCommandTx ctx surveyID) (fun _ _ tr =>
      (∀ p, Call.CreateUserSurveyState p ∈ calls tr →
        p.State = ActiveState ∧ p.Answers = [] ∧ p.Results = none) ∧
      (∀ p, Call.UpdateActiveUserSurveyState p ∉ calls tr)) w := by
  generalize hQ : (fun (_ : Res Unit) (_ : W) (tr : List Event) =>
      (∀ p, Call.CreateUserSurveyState p ∈ calls tr →
        p.State = ActiveState ∧ p.Answers = [] ∧ p.Results = none) ∧
      (∀ p, Call.UpdateActiveUserSurveyState p ∉ calls tr)) = Q
  unfold service.HandleSurveyCommandTx
  simp only [wp_bind, wp_callV, wp_call, bindPost, wp_ite, wp_ret, wp_pure, wp_newUUID, wp_index,
    wp_loggerErrorf, Int.toNat_ofNat, List.nil_append, List.append_nil,
    List.cons_append, sub_add_cancel, List.length_nil, Nat.cast_zero, Int.toNat_zero]
  repeat' (first | (intro (h : _ = (_, _)); clear h) | intro _ | apply And.intro)
  all_goals (subst hQ; dsimp only; simp [calls])

theorem mem_writtenStates (tr : List Event) (p : SurveyState) :
    p ∈ writtenStates tr ↔
      Call.CreateUserSurveyState p ∈ calls tr ∨ Call.UpdateActiveUserSurveyState p ∈ calls tr := by
  unfold writtenStates calls
  simp only [List.mem_filterMap, List.mem_map]
  constructor
  · rintro ⟨e, he, hw⟩
    cases hc : e.call <;> simp [hc, Call.written] at hw
    · subst hw; exact Or.inl ⟨e, he, hc⟩
    · subst hw; exact Or.inr ⟨e, he, hc⟩
  · rintro (⟨e, he, hc⟩ | ⟨e, he, hc⟩)
    · exact ⟨e, he, by simp [hc, Call.written]⟩
    · exact ⟨e, he, by simp [hc, Call.written]⟩

theorem writtenStates_append (t1 t2 : List Event) :
    writtenStates (t1 ++ t2) = writtenStates t1 ++ writtenStates t2 := by
  simp [writtenStates]

theorem fromStore_append (catalogue : UUID → Option Survey) (t1 t2 : List Event) :
    ∀ before : List SurveyState,
      fromStore catalogue before (t1 ++ t2) =
        (fromStore catalogue before t1 &&
          fromStore catalogue (before ++ writtenStates t1) t2) := by
  induction t1 with
  | nil => intro before; simp [fromStore, writtenStates]
  | cons e t1 ih =>
    intro before
    have hws : before ++ (e.call.written).toList ++ writtenStates t1 =
        before ++ writtenStates (e :: t1) := by
      cases hw : e.call.written <;> simp [writtenStates, List.filterMap_cons, hw]
    show (e.fromStore catalogue before &&
        fromStore catalogue (before ++ (e.call.written).toList) (t1 ++ t2)) =
      ((e.fromStore catalogue before &&
        fromStore catalogue (before ++ (e.call.written).toList) t1) &&
        fromStore catalogue (before ++ writtenStates (e :: t1)) t2)
    rw [ih, hws, Bool.and_assoc]

theorem wrapped_written_nil {post : List Event}
    (hpost : ∀ y ∈ post, y.call.isTxControl = true) : writtenStates post = [] := by
  unfold writtenStates
  rw [List.filterMap_eq_nil_iff]
  intro e he
  have := hpost e he
  cases hc : e.call <;> simp [hc, Call.isTxControl, Call.written] at this ⊢

/-- One update handled: when the answers in its trace are those of a store holding the
well-formed states `before`, the states it writes are well formed. -/
theorem handle_wellFormed {W : Type} (s : service W) (c : Command) (w : W)
    (catalogue : UUID → Option Survey) (before : List SurveyState)
    (hB : ∀ p ∈ before, p.wellFormed catalogue)
    (hF : fromStore catalogue before (s.handle c w).trace = true) :
    ∀ p ∈ writtenStates (s.handle c w).trace, p.wellFormed catalogue := by
  cases c with
  | survey ctx surveyID =>
    have key : wp (s.HandleSurveyCommand ctx surveyID) (fun _ _ tr =>
        ∀ p ∈ writtenStates tr, p.wellFormed catalogue) w := by
      rw [wp_HandleSurveyCommand]
      refine ⟨by simp [writtenStates, Call.written], fun w1 _ =>
        wp_mono _ _ _ _ (HandleSurveyCommandTx_created s ctx surveyID w1) ?_⟩
      intro r w2 t hP
      refine txPost_of_wrapRes s _ r w2 t fun r2 w3 post hw => ?_
      have hpost := wrapRes_isTxControl hw
      intro p hp
      rw [mem_writtenStates, mem_calls_wrapped hpost (Call.CreateUserSurveyState p) rfl,
        mem_calls_wrapped hpost (Call.UpdateActiveUserSurveyState p) rfl] at hp
      rcases hp with hp | hp
      · obtain ⟨h1, h2, h3⟩ := hP.1 p hp
        refine ⟨fun survey _ => by simp [h2], ?_⟩
        rw [h1, h3]
        simp [ActiveState, FinishedState]
      · exact absurd hp (hP.2 p)
    exact key
  | answer ctx msg =>
    have key : wp (s.HandleAnswer ctx msg) (fun _ _ tr =>
        fromStore catalogue before tr = true →
        ∀ p ∈ writtenStates tr, p.wellFormed catalogue) w := by
      rw [wp_HandleAnswer]
      refine ⟨by simp [writtenStates, Call.written], fun w1 _ =>
        wp_mono _ _ _ _ (HandleAnswerTx_wellFormed s ctx msg w1) ?_⟩
      intro r w2 t hP
      refine txPost_of_wrapRes s _ r w2 t fun r2 w3 post hw => ?_
      have hpost := wrapRes_isTxControl hw
      intro hF p hp
      have e1 : (⟨.BeginTx, .nil⟩ : Event) :: (t ++ post) = [⟨.BeginTx, .nil⟩] ++ (t ++ post) := rfl
      rw [e1, writtenStates_append, writtenStates_append, wrapped_written_nil hpost] at hp
      rw [e1, fromStore_append, fromStore_append] at hF
      simp only [Bool.and_eq_true] at hF
      have hF2 : fromStore catalogue before t = true := by
        have := hF.2.1
        simpa [writtenStates, Call.written] using this
      have hp2 : p ∈ writtenStates t := by
        simpa [writtenStates, Call.written] using hp
      exact hP.2 catalogue before hB hF2 p hp2
    exact key hF

theorem handleAll_wellFormed {W : Type} (s : service W) (catalogue : UUID → Option Survey)
    (cmds : List Command) : ∀ (w : W) (before : List SurveyState),
    (∀ p ∈ before, p.wellFormed catalogue) →
    fromStore catalogue before (s.handleAll cmds w) = true →
    ∀ p ∈ writtenStates (s.handleAll cmds w), p.wellFormed catalogue := by
  induction cmds with
  | nil => intro w before _ _ p hp; simp [service.handleAll, writtenStates] at hp
  | cons c cs ih =>
    intro w before hB hF p hp
    unfold service.handleAll at hF hp
    rw [fromStore_append, Bool.and_eq_true] at hF
    rw [writtenStates_append, List.mem_append] at hp
    have h1 := handle_wellFormed s c w catalogue before hB hF.1
    rcases hp with hp | hp
    · exact h1 p hp
    · refine ih _ (before ++ writtenStates (s.handle c w).trace) ?_ hF.2 p hp
      intro x hx
      rcases List.mem_append.mp hx with hx | hx
      · exact hB x hx
      · exact h1 x hx

/-- C8: the state invariant of the orchestrator. If the state `HandleAnswer` loaded is active
with nil `Results` and no more answers than the loaded survey has questions, every state it
hands to `UpdateActiveUserSurveyState` has no more answers than the survey has questions and
has `Results` exactly when it is finished; every state `HandleSurveyCommand` creates is active
with zero answers and nil `Results`; hence, over a store that started empty (every state a
lookup returns was written before and is keyed as asked, the surveys are those on record),
every state written by a sequence of the two handlers satisfies both conditions. -/
theorem orchestrator_state_invariant {W : Type} (s : service W) :
    (∀ (ctx : Context) (msg : String) (w : W) (u g g2 : UUID) (fl : List State)
        (state : SurveyState) (survey : Survey) (p : SurveyState),
      (⟨.GetUserSurveyState u g fl, .state state⟩ : Event) ∈ (s.HandleAnswer ctx msg w).trace →
      (⟨.GetSurvey g2, .survey survey⟩ : Event) ∈ (s.HandleAnswer ctx msg w).trace →
      state.State = ActiveState → state.Results = none →
      state.Answers.length ≤ survey.Questions.length →
      Call.UpdateActiveUserSurveyState p ∈ calls (s.HandleAnswer ctx msg w).trace →
      p.Answers.length ≤ survey.Questions.length ∧
        (p.Results ≠ none ↔ p.State = FinishedState)) ∧
    (∀ (ctx : Context) (surveyID : Int) (w : W) (p : SurveyState),
      Call.CreateUserSurveyState p ∈ calls (s.HandleSurveyCommand ctx surveyID w).trace →
      p.State = ActiveState ∧ p.Answers = [] ∧ p.Results = none) ∧
    (∀ (cmds : List Command) (w : W) (catalogue : UUID → Option Survey),
      fromStore catalogue [] (s.handleAll cmds w) = true →
      ∀ p ∈ writtenStates (s.handleAll cmds w), p.wellFormed catalogue) := by
  refine ⟨?_, ?_, ?_⟩
  · intro ctx msg w
    have key : wp (s.HandleAnswer ctx msg) (fun _ _ tr =>
        ∀ (u g g2 : UUID) (fl : List State) (state : SurveyState) (survey : Survey)
          (p : SurveyState),
        (⟨.GetUserSurveyState u g fl, .state state⟩ : Event) ∈ tr →
        (⟨.GetSurvey g2, .survey survey⟩ : Event) ∈ tr →
        state.State = ActiveState → state.Results = none →
        state.Answers.length ≤ survey.Questions.length →
        Call.UpdateActiveUserSurveyState p ∈ calls tr →
        p.Answers.length ≤ survey.Questions.length ∧
          (p.Results ≠ none ↔ p.State = FinishedState)) w := by
      rw [wp_HandleAnswer]
      refine ⟨by simp [calls], fun w1 _ =>
        wp_mono _ _ _ _ (HandleAnswerTx_wellFormed s ctx msg w1) ?_⟩
      intro r w2 t hP
      refine txPost_of_wrapRes s _ r w2 t fun r2 w3 post hw => ?_
      have hpost := wrapRes_isTxControl hw
      simp only [mem_wrapped hpost, mem_calls_wrapped hpost, Call.isTxControl]
      exact hP.1
    exact key
  · intro ctx surveyID w
    have key : wp (s.HandleSurveyCommand ctx surveyID) (fun _ _ tr =>
        ∀ p, Call.CreateUserSurveyState p ∈ calls tr →
          p.State = ActiveState ∧ p.Answers = [] ∧ p.Results = none) w := by
      rw [wp_HandleSurveyCommand]
      refine ⟨by simp [calls], fun w1 _ =>
        wp_mono _ _ _ _ (HandleSurveyCommandTx_created s ctx surveyID w1) ?_⟩
      intro r w2 t hP
      refine txPost_of_wrapRes s _ r w2 t fun r2 w3 post hw => ?_
      have hpost := wrapRes_isTxControl hw
      simp only [mem_calls_wrapped hpost, Call.isTxControl]
      exact hP.1
    exact key
  · intro cmds w catalogue hF
    exact handleAll_wellFormed s catalogue cmds w [] (by simp) hF

/-! ## Concrete runs -/

set_option maxRecDepth 100000

/-- C1, witness: scenario A, one segment question with bounds `[1, 3]` and the text `"2"`. -/
theorem HandleAnswer_last_question_witness :
    ((⟨.GetUserSurveyState 7 5 [ActiveState], .state (testState [])⟩ : Event) ∈
        (scenarioA.service.HandleAnswer testContext "2" ()).trace ∧
      (⟨.GetSurvey 5, .survey testShortSurvey⟩ : Event) ∈
        (scenarioA.service.HandleAnswer testContext "2" ()).trace ∧
      (⟨.GetResults testShortSurvey [{ Typ := AnswerTypeSegment, Data := [2] }],
          .results testResults⟩ : Event) ∈
        (scenarioA.service.HandleAnswer testContext "2" ()).trace ∧
      (⟨.SetUserCurrentSurveyToNil 7, .nil⟩ : Event) ∈
        (scenarioA.service.HandleAnswer testContext "2" ()).trace) ∧
    Call.SendMessage testResults.Text ∈
      calls (scenarioA.service.HandleAnswer testContext "2" ()).trace ∧
    Call.UpdateActiveUserSurveyState
      { State := FinishedState, UserGUID := 7, SurveyGUID := 5,
        Answers := [{ Typ := AnswerTypeSegment, Data := [2] }], Results := some testResults } ∈
      calls (scenarioA.service.HandleAnswer testContext "2" ()).trace :=
  ⟨⟨by decide, by decide, by decide, by decide⟩,
    ((HandleAnswer_last_question scenarioA.service testContext "2" () _ rfl 7 5 5 [ActiveState]
      (testState []) testShortSurvey
      { Text := "Question 1?", AnswerType := AnswerTypeSegment, PossibleAnswers := [1, 3],
        AnswersText := [] }
      { Typ := AnswerTypeSegment, Data := [2] }
      (by decide) (by decide) (by decide) (by decide) (by decide)).2.2.2.1 testResults
      (by decide)).2 (by decide)⟩

/-- C2, witness: two questions, nothing answered yet, and the text `"1"` for the select
question: the segment question is sent and the state gets the one answer. -/
theorem HandleAnswer_next_question_witness :
    ((⟨.GetUserSurveyState 7 5 [ActiveState], .state (testState [])⟩ : Event) ∈
        ((scenarioTwo []).service.HandleAnswer testContext "1" ()).trace ∧
      (⟨.GetSurvey 5, .survey testSurvey⟩ : Event) ∈
        ((scenarioTwo []).service.HandleAnswer testContext "1" ()).trace) ∧
    (∃ q2, testSurvey.Questions[(testState []).Answers.length + 1]? = some q2 ∧
      Call.SendSurveyQuestion q2 ∈
        calls ((scenarioTwo []).service.HandleAnswer testContext "1" ()).trace ∧
      (∀ q3, Call.SendSurveyQuestion q3 ∈
          calls ((scenarioTwo []).service.HandleAnswer testContext "1" ()).trace → q3 = q2) ∧
      ((⟨.SendSurveyQuestion q2, .nil⟩ : Event) ∈
          ((scenarioTwo []).service.HandleAnswer testContext "1" ()).trace →
        Call.UpdateActiveUserSurveyState
          { testState [] with
            Answers := (testState []).Answers ++ [{ Typ := AnswerTypeSelect, Data := [1] }] } ∈
          calls ((scenarioTwo []).service.HandleAnswer testContext "1" ()).trace)) :=
  ⟨⟨by decide, by decide⟩,
    (HandleAnswer_next_question (scenarioTwo []).service testContext "1" () _ rfl 7 5 5
      [ActiveState] (testState []) testSurvey testSelectQuestion
      { Typ := AnswerTypeSelect, Data := [1] }
      (by decide) (by decide) (by decide) (by decide) (by decide)).1⟩

/-- C3, witness: scenario A and the text `"abc"`: the only message is `AnswerNotANumber`. -/
theorem HandleAnswer_invalid_answer_witness :
    ((⟨.GetUserSurveyState 7 5 [ActiveState], .state (testState [])⟩ : Event) ∈
        (scenarioA.service.HandleAnswer testContext "abc" ()).trace ∧
      (⟨.GetSurvey 5, .survey testShortSurvey⟩ : Event) ∈
        (scenarioA.service.HandleAnswer testContext "abc" ()).trace) ∧
    (calls (scenarioA.service.HandleAnswer testContext "abc" ()).trace).filter Call.isSend =
      [.CtxSend (handleAnswerValidateErrorText
        (.wrap2 "failed to parse argument, " (.numError "ParseInt" "abc" .ErrSyntax) ": "
          (.sentinel .ErrParseAnswerTypeSegment)))] ∧
    handleAnswerValidateErrorText
        (.wrap2 "failed to parse argument, " (.numError "ParseInt" "abc" .ErrSyntax) ": "
          (.sentinel .ErrParseAnswerTypeSegment)) = responses.AnswerNotANumber ∧
    Call.Rollback ∈ calls (scenarioA.service.HandleAnswer testContext "abc" ()).trace :=
  ⟨⟨by decide, by decide⟩,
    (HandleAnswer_invalid_answer scenarioA.service testContext "abc" () _ rfl 7 5 5 [ActiveState]
      (testState []) testShortSurvey
      { Text := "Question 1?", AnswerType := AnswerTypeSegment, PossibleAnswers := [1, 3],
        AnswersText := [] }
      (.wrap2 "failed to parse argument, " (.numError "ParseInt" "abc" .ErrSyntax) ": "
          (.sentinel .ErrParseAnswerTypeSegment))
      (by decide) (by decide) (by decide) (by decide)).1,
    (HandleAnswer_invalid_answer scenarioA.service testContext "abc" () _ rfl 7 5 5 [ActiveState]
      (testState []) testShortSurvey
      { Text := "Question 1?", AnswerType := AnswerTypeSegment, PossibleAnswers := [1, 3],
        AnswersText := [] }
      (.wrap2 "failed to parse argument, " (.numError "ParseInt" "abc" .ErrSyntax) ": "
          (.sentinel .ErrParseAnswerTypeSegment))
      (by decide) (by decide) (by decide) (by decide)).2.1 (Or.inl (by decide)),
    (HandleAnswer_invalid_answer scenarioA.service testContext "abc" () _ rfl 7 5 5 [ActiveState]
      (testState []) testShortSurvey
      { Text := "Question 1?", AnswerType := AnswerTypeSegment, PossibleAnswers := [1, 3],
        AnswersText := [] }
      (.wrap2 "failed to parse argument, " (.numError "ParseInt" "abc" .ErrSyntax) ": "
          (.sentinel .ErrParseAnswerTypeSegment))
      (by decide) (by decide) (by decide) (by decide)).2.2.2.2.2.1⟩

/-- C4, the code at the failing input: the store holds a finished row for user 7 and survey 5
and the user sends `/survey 1`. The lookup, restricted to active rows, finds nothing; the
handler sends no `SurveyAlreadyFinished`, calls `CreateUserSurveyState`, sends question 1 and
commits, and the store then holds two rows for the pair. -/
theorem HandleSurveyCommand_finished_row_in_store :
    calls (testMemService.HandleSurveyCommand testContext 1 (testStore [testFinishedRow])).trace =
      [.BeginTx, .GetUserByID 10, .GetSurveyByID 1, .GetUserSurveyState 7 5 [ActiveState],
        .CreateUserSurveyState (testState []), .UpdateUserCurrentSurvey 7 5,
        .UpdateUserLastActivity 7,
        .SendSurveyQuestion
          { Text := "Question 1?", AnswerType := AnswerTypeSegment, PossibleAnswers := [1, 3],
            AnswersText := [] },
        .Commit] ∧
    (testMemService.HandleSurveyCommand testContext 1 (testStore [testFinishedRow])).res = .ok () ∧
    (testMemService.HandleSurveyCommand testContext 1
      (testStore [testFinishedRow])).world.committed.survey_states =
      [testFinishedRow, testState []] := by
  decide

/-- C5, witness: the lookup of the test `TestHandleSurveyCommand_SurveyAlreadFinished`. -/
theorem HandleSurveyCommand_already_finished_witness :
    ((⟨.GetUserSurveyState 7 5 [ActiveState],
        .state { State := FinishedState, UserGUID := 7, SurveyGUID := 5, Answers := [],
                 Results := none }⟩ : Event) ∈
      (scenarioFinished.service.HandleSurveyCommand testContext 1 ()).trace) ∧
    Call.SendMessage responses.SurveyAlreadyFinished ∈
      calls (scenarioFinished.service.HandleSurveyCommand testContext 1 ()).trace ∧
    Call.Rollback ∈ calls (scenarioFinished.service.HandleSurveyCommand testContext 1 ()).trace :=
  ⟨by decide,
    (HandleSurveyCommand_already_finished scenarioFinished.service testContext 1 () _ rfl 7 5
      [ActiveState]
      { State := FinishedState, UserGUID := 7, SurveyGUID := 5, Answers := [], Results := none }
      (by decide) rfl).1,
    (HandleSurveyCommand_already_finished scenarioFinished.service testContext 1 () _ rfl 7 5
      [ActiveState]
      { State := FinishedState, UserGUID := 7, SurveyGUID := 5, Answers := [], Results := none }
      (by decide) rfl).2.2.1⟩

/-- C6, witness: after one answer on the two-question survey the command sends question 2;
with no state it creates the active state with zero answers and sends question 1. -/
theorem HandleSurveyCommand_resumes_witness :
    Call.SendSurveyQuestion testSegmentQuestion ∈
      calls ((scenarioTwo [{ Typ := AnswerTypeSelect, Data := [1] }]).service.HandleSurveyCommand
        testContext 1 ()).trace ∧
    Call.CreateUserSurveyState (testState []) ∈
      calls (scenarioNotStarted.service.HandleSurveyCommand testContext 1 ()).trace ∧
    Call.SendSurveyQuestion testSelectQuestion ∈
      calls (scenarioNotStarted.service.HandleSurveyCommand testContext 1 ()).trace :=
  ⟨((HandleSurveyCommand_resumes
        (scenarioTwo [{ Typ := AnswerTypeSelect, Data := [1] }]).service testContext 1 () _ rfl).1
      7 5 [ActiveState] (testState [{ Typ := AnswerTypeSelect, Data := [1] }]) 1 testSurvey
      testSegmentQuestion (by decide) (by decide) (by decide) (by decide)).2.2.2.2.2.2
      (by decide) (by decide),
    ((HandleSurveyCommand_resumes scenarioNotStarted.service testContext 1 () _ rfl).2
      7 5 [ActiveState] (.sentinel .ErrNotFound) 1 testSurvey
      (by decide) (by decide) (by decide)).2.2.2.1,
    ((HandleSurveyCommand_resumes scenarioNotStarted.service testContext 1 () _ rfl).2
      7 5 [ActiveState] (.sentinel .ErrNotFound) 1 testSurvey
      (by decide) (by decide) (by decide)).2.2.2.2.2.2 (by decide) (by decide) (by decide)
      testSelectQuestion (by decide)⟩

/-- C7, the code at the failing input: the active state of the user already holds an answer
to the only question of the survey and the user sends `/survey 1`. The handler updates the
user, then indexes the question list at 1 and panics; it returns no error and calls neither
`Rollback` nor `Commit`. -/
theorem HandleSurveyCommand_all_answered_panics :
    (scenarioAllAnswered.service.HandleSurveyCommand testContext 1 ()).res =
      .panic "index out of range" ∧
    calls (scenarioAllAnswered.service.HandleSurveyCommand testContext 1 ()).trace =
      [.BeginTx, .GetUserByID 10, .GetSurveyByID 1, .GetUserSurveyState 7 5 [ActiveState],
        .UpdateUserCurrentSurvey 7 5, .UpdateUserLastActivity 7] := by
  decide

/-- C8, witness: over the in-memory store with no survey state, the user picks survey 1 and
answers `"2"`: the answers of the trace are those of a store, and the two states written,
the fresh one and the finished one, are well formed. -/
theorem orchestrator_state_invariant_witness :
    fromStore testCatalogue []
      (testMemService.handleAll [.survey testContext 1, .answer testContext "2"]
        (testStore [])) = true ∧
    writtenStates
      (testMemService.handleAll [.survey testContext 1, .answer testContext "2"]
        (testStore [])) = [testState [], testFinishedRow] ∧
    ∀ p ∈ writtenStates
      (testMemService.handleAll [.survey testContext 1, .answer testContext "2"]
        (testStore [])), p.wellFormed testCatalogue :=
  ⟨by decide, by decide,
    (orchestrator_state_invariant testMemService).2.2
      [.survey testContext 1, .answer testContext "2"] (testStore []) testCatalogue (by decide)⟩

/-! ## Validation -/

theorem validateAnswersText_iff (l : List String) :
    Question.validateAnswersText l = .ok () ↔ ∀ t ∈ l, t ≠ "" := by
  induction l with
  | nil => simp [Question.validateAnswersText]
  | cons t rest ih =>
    unfold Question.validateAnswersText
    by_cases h : t = ""
    · simp [h]
    · simp [h, ih]

theorem validatePossibleAnswers_iff (q : Question) (l : List Int) :
    q.validatePossibleAnswers l = .ok () ↔
      ∀ p ∈ l, 0 ≤ p ∧ p ≤ (q.AnswersText.length : Int) := by
  induction l with
  | nil => simp [Question.validatePossibleAnswers]
  | cons p rest ih =>
    unfold Question.validatePossibleAnswers
    by_cases h : p < 0 ∨ (q.AnswersText.length : Int) < p
    · rw [if_pos h]
      simp only [List.mem_cons, forall_eq_or_imp]
      constructor
      · intro h2; cases h2
      · rintro ⟨⟨h1, h2⟩, _⟩
        omega
    · rw [if_neg h, ih]
      simp only [List.mem_cons, forall_eq_or_imp]
      constructor
      · intro h2
        exact ⟨by omega, h2⟩
      · intro h2
        exact h2.2

theorem Question_Validate_iff (IsUpper : Char → Bool) (q : Question) :
    q.Validate IsUpper = .ok () ↔
      q.staticInvariants IsUpper ∧
      ((q.AnswerType = AnswerTypeSelect ∨ q.AnswerType = AnswerTypeMultiSelect) →
        ∀ p ∈ q.PossibleAnswers, 0 ≤ p ∧ p ≤ (q.AnswersText.length : Int)) := by
  unfold Question.Validate Question.staticInvariants
  have hText : q.Text ≠ "" ↔ q.Text.data ≠ [] := by
    rw [ne_eq, ne_eq, String.ext_iff]
  rw [hText]
  cases hd : q.Text.data with
  | nil => simp
  | cons first rest =>
    have hL : (first :: rest).getLast? = some ((first :: rest).getLast (List.cons_ne_nil _ _)) :=
      List.getLast?_eq_getLast _ _
    rw [hL]
    simp only [List.head?_cons, Option.map_some', Option.some.injEq, ne_eq, reduceCtorEq,
      not_false_eq_true, true_and]
    generalize (first :: rest).getLast (List.cons_ne_nil _ _) = c
    by_cases hU : IsUpper first = true
    swap
    · simp [hU]
    simp only [hU, Bool.not_true, Bool.false_eq_true, ↓reduceIte, true_and]
    by_cases hc : ¬c = '?' ∧ ¬c = '.'
    · rw [if_pos hc]
      simp [hc.1, hc.2]
    rw [if_neg hc]
    have hc2 : c = '?' ∨ c = '.' := by
      by_contra h
      exact hc ⟨fun h1 => h (Or.inl h1), fun h1 => h (Or.inr h1)⟩
    simp only [hc2, true_and]
    cases hA : Question.validateAnswersText q.AnswersText with
    | error e =>
      have h1 : ¬ ∀ t ∈ q.AnswersText, t ≠ "" := by
        rw [← validateAnswersText_iff, hA]
        simp
      simp only [reduceCtorEq, false_iff, not_and]
      intro h2
      exact absurd h2.1 h1
    | ok u =>
      have h1 : ∀ t ∈ q.AnswersText, ¬ t = "" := (validateAnswersText_iff _).mp hA
      show (if q.AnswerType = AnswerTypeSegment then _ else _) = Except.ok () ↔ _
      by_cases hS : q.AnswerType = AnswerTypeSegment
      · have h2 : ¬ (q.AnswerType = AnswerTypeSelect ∨ q.AnswerType = AnswerTypeMultiSelect) := by
          rw [hS]; decide
        rw [if_pos hS]
        by_cases hlen : q.PossibleAnswers.length = 2
        · rw [if_neg (not_not.mpr hlen)]
          exact ⟨fun _ => ⟨⟨h1, Or.inl ⟨hS, hlen⟩⟩, fun h => absurd h h2⟩, fun _ => rfl⟩
        · rw [if_pos hlen]
          refine ⟨fun h => (by cases h), fun h => ?_⟩
          rcases h.1.2 with ⟨_, h3⟩ | ⟨h3, _⟩
          · exact absurd h3 hlen
          · exact absurd h3 h2
      · rw [if_neg hS]
        by_cases hM : q.AnswerType = AnswerTypeSelect ∨ q.AnswerType = AnswerTypeMultiSelect
        · rw [if_pos hM]
          by_cases h0 : q.PossibleAnswers.length = 0
          · rw [if_pos h0]
            refine ⟨fun h => (by cases h), fun h => ?_⟩
            rcases h.1.2 with ⟨h3, _⟩ | ⟨_, h3, _⟩
            · exact absurd h3 hS
            · exact absurd (List.length_eq_zero.mp h0) h3
          · rw [if_neg h0]
            have hne : ¬ q.PossibleAnswers = [] := fun h => h0 (by rw [h]; rfl)
            by_cases hlen : q.PossibleAnswers.length = q.AnswersText.length
            · rw [if_neg (not_not.mpr hlen), validatePossibleAnswers_iff]
              exact ⟨fun h => ⟨⟨h1, Or.inr ⟨hM, hne, hlen⟩⟩, fun _ => h⟩, fun h => h.2 hM⟩
            · rw [if_pos hlen]
              refine ⟨fun h => (by cases h), fun h => ?_⟩
              rcases h.1.2 with ⟨h3, _⟩ | ⟨_, _, h3⟩
              · exact absurd h3 hS
              · exact absurd h3 hlen
        · rw [if_neg hM]
          refine ⟨fun h => (by cases h), fun h => ?_⟩
          rcases h.1.2 with ⟨h3, _⟩ | ⟨h3, _⟩
          · exact absurd h3 hS
          · exact absurd h3 hM

theorem validateQuestions_iff (IsUpper : Char → Bool) (qs : List Question) :
    ∀ i : Nat, Survey.validateQuestions IsUpper i qs = .ok () ↔
      ∀ q ∈ qs, q.Validate IsUpper = .ok () := by
  induction qs with
  | nil => intro i; simp [Survey.validateQuestions]
  | cons q rest ih =>
    intro i
    unfold Survey.validateQuestions
    cases h : q.Validate IsUpper with
    | error e => simp [h]
    | ok u => simp [h, ih]

theorem Survey_Validate_iff (IsUpper : Char → Bool) (s : Survey) :
    s.Validate IsUpper = .ok () ↔
      s.Name ≠ "" ∧ s.Description ≠ "" ∧ s.CalculationsType ≠ "" ∧ s.Questions ≠ [] ∧
        ∀ q ∈ s.Questions, q.Validate IsUpper = .ok () := by
  unfold Survey.Validate
  by_cases h1 : s.Name = ""
  · simp [h1]
  by_cases h2 : s.Description = ""
  · simp [h1, h2]
  by_cases h3 : s.CalculationsType = ""
  · simp [h1, h2, h3]
  by_cases h4 : s.Questions.length = 0
  · have : s.Questions = [] := List.length_eq_zero.mp h4
    simp [h1, h2, h3, this]
  · have : s.Questions ≠ [] := fun h => h4 (by rw [h]; rfl)
    simp only [h1, h2, h3, h4, ↓reduceIte, validateQuestions_iff, ne_eq, not_false_eq_true, this,
      true_and]

theorem lookup_eq_none_iff (key : String) :
    calculationsType.lookup key = none ↔ ¬ isRegistered key := by
  unfold isRegistered calculationsType
  simp only [List.lookup, List.map_cons, List.map_nil, List.mem_cons, List.mem_singleton,
    List.not_mem_nil, or_false, not_or]
  by_cases h1 : key = "test_1"
  · simp [h1]
  by_cases h2 : key = "test_2"
  · simp [h2]
  by_cases h3 : key = "test_3"
  · simp [h3]
  by_cases h4 : key = "test_4"
  · simp [h4]
  by_cases h5 : key = "test_5"
  · simp [h5]
  by_cases h6 : key = "test_6"
  · simp [h6]
  have e1 : (key == "test_1") = false := by simpa using h1
  have e2 : (key == "test_2") = false := by simpa using h2
  have e3 : (key == "test_3") = false := by simpa using h3
  have e4 : (key == "test_4") = false := by simpa using h4
  have e5 : (key == "test_5") = false := by simpa using h5
  have e6 : (key == "test_6") = false := by simpa using h6
  simp [e1, e2, e3, e4, e5, e6, h1, h2, h3, h4, h5, h6]

/-! ## Answers and validation: the claims -/

theorem splitComma_ne_nil (cs : List Char) : splitComma cs ≠ [] := by
  induction cs with
  | nil => simp [splitComma]
  | cons c cs ih =>
    unfold splitComma
    split
    · simp
    · split <;> simp

theorem multiSelectLoop_length (q : Question) (args : List String) :
    ∀ answers result : List Int, q.multiSelectLoop args answers = .ok result →
      result.length = answers.length + args.length := by
  induction args with
  | nil =>
    intro answers result h
    simp only [Question.multiSelectLoop, Res.ok.injEq] at h
    simp [h]
  | cons arg args ih =>
    intro answers result h
    unfold Question.multiSelectLoop at h
    split at h
    · cases h
    · split at h
      · cases h
      · have := ih _ _ h
        rw [List.length_append, List.length_singleton] at this
        rw [List.length_cons]
        omega

/-- C11, counterexample: the multiselect question with possible answers `[1, 2, 3, 4]` accepts
the raw text `"1,1"`, in which the code 1 appears twice, and the answer carries the code
twice. -/
theorem multiselect_GetAnswer_accepts_duplicate :
    testMultiQuestion.GetAnswer "1,1" = .ok { Typ := AnswerTypeMultiSelect, Data := [1, 1] } := by
  decide

/-- C11, as amended: for every multiselect question and every raw text whose comma-separated,
trimmed tokens all parse as integers, `GetAnswer` accepts the text exactly when every parsed
code is a possible answer, whether or not a code is repeated; the answer then carries one
entry for each token, in input order, so that a code appears in the answer as many times as
in the text; in particular a text of possible answers in which a code is repeated is
accepted, and the answer repeats the code. -/
theorem multiselect_GetAnswer_keeps_duplicates (q : Question) (answerRaw : String)
    (codes : List Int) (hType : q.AnswerType = AnswerTypeMultiSelect)
    (hcodes : List.Forall₂ (fun arg v => ParseInt (TrimSpace arg) = .ok v)
      (SplitComma answerRaw) codes) :
    ((∃ a, q.GetAnswer answerRaw = .ok a) ↔ ∀ c ∈ codes, c ∈ q.PossibleAnswers) ∧
    (∀ a, q.GetAnswer answerRaw = .ok a →
      a.Data = codes ∧ a.Data.length = (SplitComma answerRaw).length ∧
      ∀ c, a.Data.count c = codes.count c) ∧
    (¬ codes.Nodup → (∀ c ∈ codes, c ∈ q.PossibleAnswers) →
      ∃ a, q.GetAnswer answerRaw = .ok a ∧ ¬ a.Data.Nodup) := by
  have hG : q.GetAnswer answerRaw = q.getAnswerMultiSelect answerRaw := by
    unfold Question.GetAnswer
    rw [hType, if_neg (by decide), if_neg (by decide), if_pos rfl]
  have hloop : q.GetAnswer answerRaw =
      if ∀ c ∈ codes, c ∈ q.PossibleAnswers then
        .ok { Typ := AnswerTypeMultiSelect, Data := codes }
      else .err (.sentinel .ErrAnswerNotFound) := by
    rw [hG]
    unfold Question.getAnswerMultiSelect
    rw [multiSelectLoop_spec q _ codes hcodes []]
    by_cases hm : ∀ c ∈ codes, c ∈ q.PossibleAnswers
    · rw [if_pos hm, if_pos hm, List.nil_append]
    · rw [if_neg hm, if_neg hm]
  refine ⟨?_, ?_, ?_⟩
  · rw [hloop]
    by_cases hm : ∀ c ∈ codes, c ∈ q.PossibleAnswers
    · rw [if_pos hm]
      exact ⟨fun _ => hm, fun _ => ⟨_, rfl⟩⟩
    · rw [if_neg hm]
      refine ⟨?_, fun h => absurd h hm⟩
      rintro ⟨a, ha⟩
      cases ha
  · intro a ha
    rw [hloop] at ha
    by_cases hm : ∀ c ∈ codes, c ∈ q.PossibleAnswers
    · rw [if_pos hm] at ha
      cases ha
      exact ⟨rfl, hcodes.length_eq.symm, fun _ => rfl⟩
    · rw [if_neg hm] at ha
      cases ha
  · intro hdup hm
    rw [hloop, if_pos hm]
    exact ⟨_, rfl, hdup⟩

/-- C11 as amended, witness: the multiselect question with possible answers `[1, 2, 3, 4]` and
the raw text `"2, 2,3"`: the answer carries the code 2 twice. -/
theorem multiselect_GetAnswer_keeps_duplicates_witness :
    testMultiQuestion.AnswerType = AnswerTypeMultiSelect ∧
    List.Forall₂ (fun arg v => ParseInt (TrimSpace arg) = .ok v) (SplitComma "2, 2,3")
      [2, 2, 3] ∧
    ∃ a, testMultiQuestion.GetAnswer "2, 2,3" = .ok a ∧ ¬ a.Data.Nodup ∧ a.Data.count 2 = 2 :=
  have h : List.Forall₂ (fun arg v => ParseInt (TrimSpace arg) = .ok v) (SplitComma "2, 2,3")
      [2, 2, 3] := by
    have hs : SplitComma "2, 2,3" = ["2", " 2", "3"] := by decide
    rw [hs]
    exact List.Forall₂.cons (by decide)
      (List.Forall₂.cons (by decide) (List.Forall₂.cons (by decide) List.Forall₂.nil))
  ⟨rfl, h, by
    obtain ⟨a, ha, hn⟩ :=
      (multiselect_GetAnswer_keeps_duplicates testMultiQuestion "2, 2,3" [2, 2, 3] rfl h).2.2
        (by decide) (by decide)
    have hd := ((multiselect_GetAnswer_keeps_duplicates testMultiQuestion "2, 2,3" [2, 2, 3]
      rfl h).2.1 a ha).2.2 2
    exact ⟨a, ha, hn, by rw [hd]; decide⟩⟩

theorem GetAnswer_ok_shape (q : Question) (answerRaw : String) (a : Answer)
    (h : q.GetAnswer answerRaw = .ok a) :
    a.Typ = q.AnswerType ∧ a.Data ≠ [] ∧
      (q.AnswerType = AnswerTypeSegment ∨ q.AnswerType = AnswerTypeSelect → a.Data.length = 1) ∧
      (q.AnswerType = AnswerTypeMultiSelect → 1 ≤ a.Data.length) := by
  unfold Question.GetAnswer at h
  by_cases hS : q.AnswerType = AnswerTypeSegment
  · rw [if_pos hS] at h
    unfold Question.getAnswerSegment at h
    have ha : a = { Typ := AnswerTypeSegment, Data := a.Data } ∧ a.Data.length = 1 := by
      repeat' split at h
      all_goals first | (cases h; done) | skip
      cases h
      exact ⟨rfl, rfl⟩
    refine ⟨by rw [ha.1, hS], ?_, fun _ => ha.2, fun _ => by omega⟩
    intro h0
    rw [h0] at ha
    exact absurd ha.2 (by decide)
  · rw [if_neg hS] at h
    by_cases hSel : q.AnswerType = AnswerTypeSelect
    · rw [if_pos hSel] at h
      unfold Question.getAnswerSelect at h
      have ha : a = { Typ := AnswerTypeSelect, Data := a.Data } ∧ a.Data.length = 1 := by
        repeat' split at h
        all_goals first | (cases h; done) | skip
        cases h
        exact ⟨rfl, rfl⟩
      refine ⟨by rw [ha.1, hSel], ?_, fun _ => ha.2, fun _ => by omega⟩
      intro h0
      rw [h0] at ha
      exact absurd ha.2 (by decide)
    · rw [if_neg hSel] at h
      by_cases hM : q.AnswerType = AnswerTypeMultiSelect
      · rw [if_pos hM] at h
        unfold Question.getAnswerMultiSelect at h
        cases hl : q.multiSelectLoop (SplitComma answerRaw) [] with
        | err e => rw [hl] at h; cases h
        | panic m => rw [hl] at h; cases h
        | ok answers =>
          rw [hl] at h
          cases h
          have hlen := multiSelectLoop_length q _ _ _ hl
          have hne : (SplitComma answerRaw).length ≠ 0 := by
            unfold SplitComma
            rw [List.length_map]
            exact fun h0 => splitComma_ne_nil _ (List.length_eq_zero.mp h0)
          simp only [List.length_nil, zero_add] at hlen
          refine ⟨hM.symm, ?_, ?_, fun _ => by show 1 ≤ answers.length; omega⟩
          · intro h0
            change answers = [] at h0
            rw [h0] at hlen
            exact hne hlen.symm
          · rintro (h1 | h1)
            · exact absurd h1 hS
            · exact absurd h1 hSel
      · rw [if_neg hM] at h
        cases h

/-- C12: when `GetAnswer` succeeds, the answer has the answer type of the question and a
non-empty `Data`, with exactly one code for a segment or select question and one or more codes
for a multiselect question; for a question whose answer type is none of the three, `GetAnswer`
returns the error "unknown answer type" on every raw text. -/
theorem GetAnswer_answer_shape (q : Question) (answerRaw : String) :
    (∀ a, q.GetAnswer answerRaw = .ok a →
      a.Typ = q.AnswerType ∧ a.Data ≠ [] ∧
      (q.AnswerType = AnswerTypeSegment ∨ q.AnswerType = AnswerTypeSelect → a.Data.length = 1) ∧
      (q.AnswerType = AnswerTypeMultiSelect → 1 ≤ a.Data.length)) ∧
    (q.AnswerType ≠ AnswerTypeSegment → q.AnswerType ≠ AnswerTypeSelect →
      q.AnswerType ≠ AnswerTypeMultiSelect →
      q.GetAnswer answerRaw = .err (.new "unknown answer type")) := by
  refine ⟨fun a h => GetAnswer_ok_shape q answerRaw a h, fun hS hSel hM => ?_⟩
  unfold Question.GetAnswer
  rw [if_neg hS, if_neg hSel, if_neg hM]

/-- C12, witness: the select question of the tests and the text `"2"`. -/
theorem GetAnswer_answer_shape_witness :
    testSelectQuestion.GetAnswer "2" = .ok { Typ := AnswerTypeSelect, Data := [2] } ∧
    (({ Typ := AnswerTypeSelect, Data := [2] } : Answer).Typ = testSelectQuestion.AnswerType ∧
      ({ Typ := AnswerTypeSelect, Data := [2] } : Answer).Data ≠ [] ∧
      (testSelectQuestion.AnswerType = AnswerTypeSegment ∨
        testSelectQuestion.AnswerType = AnswerTypeSelect →
          ({ Typ := AnswerTypeSelect, Data := [2] } : Answer).Data.length = 1) ∧
      (testSelectQuestion.AnswerType = AnswerTypeMultiSelect →
        1 ≤ ({ Typ := AnswerTypeSelect, Data := [2] } : Answer).Data.length)) :=
  ⟨by decide, (GetAnswer_answer_shape testSelectQuestion "2").1 _ (by decide)⟩

/-- C13, counterexample: a select question with the single possible answer 5 and one answer
text has every static invariant the claim lists, and `Question.Validate` rejects it, because
the code 5 is above the number of answer texts. -/
theorem Question_Validate_code_out_of_range :
    testCodeFiveQuestion.staticInvariants isUpperLatin1 ∧
    testCodeFiveQuestion.Validate isUpperLatin1 =
      .error (.new "possible answer is out of range") := by
  decide

/-- C13, as amended: `Question.Validate` accepts a question exactly when the static invariants
hold and, for a select or multiselect question, every possible answer is at least 0 and at
most the number of answer texts. -/
theorem Question_Validate_spec (IsUpper : Char → Bool) (q : Question) :
    q.Validate IsUpper = .ok () ↔
      q.staticInvariants IsUpper ∧
      ((q.AnswerType = AnswerTypeSelect ∨ q.AnswerType = AnswerTypeMultiSelect) →
        ∀ p ∈ q.PossibleAnswers, 0 ≤ p ∧ p ≤ (q.AnswersText.length : Int)) :=
  Question_Validate_iff IsUpper q

/-- C13, witness: the select question of the tests is accepted. -/
theorem Question_Validate_spec_witness :
    testSelectQuestion.Validate isUpperLatin1 = .ok () :=
  (Question_Validate_spec isUpperLatin1 testSelectQuestion).mpr ⟨by decide, by decide⟩

/-- C14, counterexample: `Survey.Validate` accepts a survey whose scoring type `"test_7"` is
not registered, and rejects a survey without a name although its only question passes
`Question.Validate` and its scoring type `"test_1"` is registered. -/
theorem Survey_Validate_not_the_registry :
    ((∀ q ∈ testUnregisteredSurvey.Questions, q.Validate isUpperLatin1 = .ok ()) ∧
      ¬ isRegistered testUnregisteredSurvey.CalculationsType ∧
      testUnregisteredSurvey.Validate isUpperLatin1 = .ok ()) ∧
    ((∀ q ∈ testUnnamedSurvey.Questions, q.Validate isUpperLatin1 = .ok ()) ∧
      isRegistered testUnnamedSurvey.CalculationsType ∧
      testUnnamedSurvey.Validate isUpperLatin1 = .error (.new "empty survey name")) := by
  decide

/-- C14, as amended: `Survey.Validate` accepts a survey exactly when its name, description and
scoring type are non-empty, it has at least one question and every question passes
`Question.Validate`; the registry of scoring types plays no part. In particular a survey with
one invalid question among otherwise valid ones is rejected. -/
theorem Survey_Validate_spec (IsUpper : Char → Bool) (s : Survey) :
    (s.Validate IsUpper = .ok () ↔
      s.Name ≠ "" ∧ s.Description ≠ "" ∧ s.CalculationsType ≠ "" ∧ s.Questions ≠ [] ∧
        ∀ q ∈ s.Questions, q.Validate IsUpper = .ok ()) ∧
    (∀ q ∈ s.Questions, q.Validate IsUpper ≠ .ok () → s.Validate IsUpper ≠ .ok ()) := by
  refine ⟨Survey_Validate_iff IsUpper s, fun q hq hbad hok => ?_⟩
  exact hbad (((Survey_Validate_iff IsUpper s).mp hok).2.2.2.2 q hq)

/-- C14, witness: the survey of the tests with two questions is accepted, and with its second
question replaced by one without text it is rejected. -/
theorem Survey_Validate_spec_witness :
    testSurvey.Validate isUpperLatin1 = .ok () ∧
    ({ testSurvey with Questions := [testSelectQuestion, { testSegmentQuestion with Text := "" }] } :
      Survey).Validate isUpperLatin1 ≠ .ok () :=
  ⟨(Survey_Validate_spec isUpperLatin1 testSurvey).1.mpr (by decide),
    (Survey_Validate_spec isUpperLatin1 _).2 { testSegmentQuestion with Text := "" } (by decide)
      (by decide)⟩

/-- C15: `processor.Validate` accepts a survey exactly when `Survey.Validate` accepts it (a
non-empty name, description and scoring type, at least one question, every question valid) and
the scoring type is a key of the registry; `GetResults` returns the error "unknown calculations
type" exactly when the scoring type is not a key of the registry, and returns no other error;
so `GetResults` returns no error for a survey that `processor.Validate` accepts. -/
theorem processor_Validate_spec (IsUpper : Char → Bool) (survey : Survey)
    (answers : List Answer) :
    (processor.Validate IsUpper survey = .ok () ↔
      survey.Validate IsUpper = .ok () ∧ isRegistered survey.CalculationsType) ∧
    (survey.Validate IsUpper = .ok () ↔
      survey.Name ≠ "" ∧ survey.Description ≠ "" ∧ survey.CalculationsType ≠ "" ∧
        survey.Questions ≠ [] ∧ ∀ q ∈ survey.Questions, q.Validate IsUpper = .ok ()) ∧
    (processor.GetResults survey answers =
        .err (.new ("unknown calculations type: " ++ survey.CalculationsType)) ↔
      ¬ isRegistered survey.CalculationsType) ∧
    (∀ e, processor.GetResults survey answers = .err e →
      e = .new ("unknown calculations type: " ++ survey.CalculationsType)) ∧
    (processor.Validate IsUpper survey = .ok () →
      ∀ e, processor.GetResults survey answers ≠ .err e) := by
  have hV : processor.Validate IsUpper survey = .ok () ↔
      survey.Validate IsUpper = .ok () ∧ isRegistered survey.CalculationsType := by
    unfold processor.Validate
    cases hS : survey.Validate IsUpper with
    | error e => simp
    | ok u =>
      cases hl : calculationsType.lookup survey.CalculationsType with
      | none => simp [(lookup_eq_none_iff _).mp hl]
      | some f =>
        have : isRegistered survey.CalculationsType := by
          by_contra hn
          rw [(lookup_eq_none_iff _).mpr hn] at hl
          cases hl
        simp [this]
  have hG : ∀ e, processor.GetResults survey answers = .err e →
      e = .new ("unknown calculations type: " ++ survey.CalculationsType) ∧
        ¬ isRegistered survey.CalculationsType := by
    intro e he
    unfold processor.GetResults at he
    cases hl : calculationsType.lookup survey.CalculationsType with
    | none =>
      rw [hl] at he
      cases he
      exact ⟨rfl, (lookup_eq_none_iff _).mp hl⟩
    | some f =>
      rw [hl] at he
      dsimp only at he
      split at he <;> cases he
  refine ⟨hV, Survey_Validate_iff IsUpper survey, ⟨fun h => (hG _ h).2, fun h => ?_⟩,
    fun e he => (hG e he).1, fun h e he => (hG e he).2 (hV.mp h).2⟩
  unfold processor.GetResults
  rw [(lookup_eq_none_iff _).mpr h]

/-- C15, witness: the survey of the tests is accepted by `processor.Validate`, and scoring the
survey with the unregistered type `"test_7"` gives the error. -/
theorem processor_Validate_spec_witness :
    processor.Validate isUpperLatin1 testSurvey = .ok () ∧
    processor.GetResults testUnregisteredSurvey [] =
      .err (.new "unknown calculations type: test_7") :=
  ⟨(processor_Validate_spec isUpperLatin1 testSurvey []).1.mpr (by decide),
    (processor_Validate_spec isUpperLatin1 testUnregisteredSurvey []).2.2.1.mpr (by decide)⟩

/-- C16: `processor.Validate` accepts the survey of the tests with two questions and scoring
type `"test_1"`; its two answers `"2"` and `"3"` are results of `GetAnswer`; and `GetResults`
panics on them, because `calculateTest1` reads the answer to a third question. -/
theorem GetResults_validated_survey_panics :
    processor.Validate isUpperLatin1 testSurvey = .ok () ∧
    testSelectQuestion.GetAnswer "2" = .ok { Typ := AnswerTypeSelect, Data := [2] } ∧
    testSegmentQuestion.GetAnswer "3" = .ok { Typ := AnswerTypeSegment, Data := [3] } ∧
    processor.GetResults testSurvey
        [{ Typ := AnswerTypeSelect, Data := [2] }, { Typ := AnswerTypeSegment, Data := [3] }] =
      .panic "index out of range" := by
  decide

/-! ## Scoring: the claims -/

theorem dataAt_of_code {answers : List Answer} {i : Nat} {c : Int}
    (h : (answers[i]?).map Answer.Data = some [c]) : dataAt answers i = some c := by
  unfold dataAt
  cases ha : answers[i]? with
  | none => rw [ha] at h; cases h
  | some a =>
    rw [ha] at h
    simp only [Option.map_some', Option.some.injEq] at h
    simp [h]

theorem sumCodes_cons (answers : List Answer) (id : Nat) (rest : List Nat) (v r : Int)
    (h1 : getCode answers id = some v) (h2 : sumCodes answers rest = some r) :
    sumCodes answers (id :: rest) = some (v + r) := by
  unfold sumCodes
  rw [h1, h2]

theorem wrapInt64_of_bounds (v : Int) (h1 : -(2 : Int) ^ 63 ≤ v) (h2 : v < (2 : Int) ^ 63) :
    wrapInt64 v = v := by
  unfold wrapInt64
  norm_num at h1 h2 ⊢
  omega

/-- C26: on answers of which the first 22 carry one code each, `calculateTest1` returns the
three sums of the codes minus 1 over the questions of each scale (with the arithmetic of Go's
`int`, exact when the codes are below `2 ^ 58` in absolute value), and the text gives each
scale exactly one label, by the thresholds 15 and 24, 5 and 10, 37 and 31. -/
theorem calculateTest1_spec (survey : Survey) (answers : List Answer) (code : Nat → Int)
    (hcode : ∀ i, i < 22 → (answers[i]?).map Answer.Data = some [code (i + 1)]) :
    let v : Nat → Int := fun i => wrapInt64 (code i - 1)
    ∃ s1 s2 s3 : Int, ∃ l1 l2 l3 : String,
      calculateTest1 survey answers = some
        { Text := "Эмоциональное истощение - " ++ l1 ++ ", Деперсонализация - " ++ l2 ++
            ", Редукция профессионализма - " ++ l3,
          Metadata := { Raw := [("s1", .int s1), ("s2", .int s2), ("s3", .int s3)] } } ∧
      s1 = wrapInt64 (v 1 + v 2 + v 3 + v 8 + v 13 + v 14 + v 16 + v 20 - v 6) ∧
      s2 = wrapInt64 (v 5 + v 10 + v 11 + v 15 + v 22) ∧
      s3 = wrapInt64 (v 4 + v 7 + v 9 + v 12 + v 17 + v 18 + v 19 + v 21) ∧
      ((∀ i, 1 ≤ i → i ≤ 22 → -(2 : Int) ^ 58 ≤ code i ∧ code i ≤ (2 : Int) ^ 58) →
        (∀ i, 1 ≤ i → i ≤ 22 → v i = code i - 1) ∧
        s1 = v 1 + v 2 + v 3 + v 8 + v 13 + v 14 + v 16 + v 20 - v 6 ∧
        s2 = v 5 + v 10 + v 11 + v 15 + v 22 ∧
        s3 = v 4 + v 7 + v 9 + v 12 + v 17 + v 18 + v 19 + v 21) ∧
      (l1 = "низкий уровень" ↔ s1 ≤ 15) ∧ (l1 = "средний уровень" ↔ 16 ≤ s1 ∧ s1 ≤ 24) ∧
      (l1 = "высокий уровень" ↔ 25 ≤ s1) ∧
      (l2 = "низкий уровень" ↔ s2 ≤ 5) ∧ (l2 = "средний уровень" ↔ 6 ≤ s2 ∧ s2 ≤ 10) ∧
      (l2 = "высокий уровень" ↔ 11 ≤ s2) ∧
      (l3 = "низкий уровень" ↔ 37 ≤ s3) ∧ (l3 = "средний уровень" ↔ 31 ≤ s3 ∧ s3 ≤ 36) ∧
      (l3 = "высокий уровень" ↔ s3 ≤ 30) := by
  intro v
  have hget : ∀ id, 1 ≤ id → id ≤ 22 → getCode answers id = some (v id) := by
    intro id h1 h2
    unfold getCode
    have := hcode (id - 1) (by omega)
    rw [show id - 1 + 1 = id by omega] at this
    rw [dataAt_of_code this]
    rfl
  have hnil : sumCodes answers [] = some 0 := rfl
  have e1 : sumCodes answers [1, 2, 3, 8, 13, 14, 16, 20] =
      some (v 1 + (v 2 + (v 3 + (v 8 + (v 13 + (v 14 + (v 16 + (v 20 + 0)))))))) := by
    repeat' (first | exact hnil | apply sumCodes_cons | (apply hget <;> decide))
  have e2 : sumCodes answers [5, 10, 11, 15, 22] =
      some (v 5 + (v 10 + (v 11 + (v 15 + (v 22 + 0))))) := by
    repeat' (first | exact hnil | apply sumCodes_cons | (apply hget <;> decide))
  have e3 : sumCodes answers [4, 7, 9, 12, 17, 18, 19, 21] =
      some (v 4 + (v 7 + (v 9 + (v 12 + (v 17 + (v 18 + (v 19 + (v 21 + 0)))))))) := by
    repeat' (first | exact hnil | apply sumCodes_cons | (apply hget <;> decide))
  unfold calculateTest1
  rw [e1, e2, e3, hget 6 (by decide) (by decide)]
  refine ⟨_, _, _, _, _, _, rfl, ?_, ?_, ?_, ?_, ?_⟩
  · congr 1; ring
  · congr 1; ring
  · congr 1; ring
  · intro hb
    have hv : ∀ i, 1 ≤ i → i ≤ 22 → v i = code i - 1 := by
      intro i h1 h2
      have := hb i h1 h2
      exact wrapInt64_of_bounds _ (by norm_num at this ⊢; omega) (by norm_num at this ⊢; omega)
    have hr : ∀ i, 1 ≤ i → i ≤ 22 → -(2 : Int) ^ 59 ≤ v i ∧ v i ≤ (2 : Int) ^ 59 := by
      intro i h1 h2
      have := hb i h1 h2
      rw [hv i h1 h2]
      norm_num at this ⊢
      omega
    refine ⟨hv, ?_, ?_, ?_⟩
    · have a1 := hr 1 (by decide) (by decide)
      have a2 := hr 2 (by decide) (by decide)
      have a3 := hr 3 (by decide) (by decide)
      have a8 := hr 8 (by decide) (by decide)
      have a13 := hr 13 (by decide) (by decide)
      have a14 := hr 14 (by decide) (by decide)
      have a16 := hr 16 (by decide) (by decide)
      have a20 := hr 20 (by decide) (by decide)
      have a6 := hr 6 (by decide) (by decide)
      rw [wrapInt64_of_bounds]
      · ring
      · norm_num at *; omega
      · norm_num at *; omega
    · have a5 := hr 5 (by decide) (by decide)
      have a10 := hr 10 (by decide) (by decide)
      have a11 := hr 11 (by decide) (by decide)
      have a15 := hr 15 (by decide) (by decide)
      have a22 := hr 22 (by decide) (by decide)
      rw [wrapInt64_of_bounds]
      · ring
      · norm_num at *; omega
      · norm_num at *; omega
    · have a4 := hr 4 (by decide) (by decide)
      have a7 := hr 7 (by decide) (by decide)
      have a9 := hr 9 (by decide) (by decide)
      have a12 := hr 12 (by decide) (by decide)
      have a17 := hr 17 (by decide) (by decide)
      have a18 := hr 18 (by decide) (by decide)
      have a19 := hr 19 (by decide) (by decide)
      have a21 := hr 21 (by decide) (by decide)
      rw [wrapInt64_of_bounds]
      · ring
      · norm_num at *; omega
      · norm_num at *; omega
  · generalize wrapInt64 (v 1 + (v 2 + (v 3 + (v 8 + (v 13 + (v 14 + (v 16 + (v 20 + 0))))))) - v 6)
      = s1
    generalize wrapInt64 (v 5 + (v 10 + (v 11 + (v 15 + (v 22 + 0))))) = s2
    generalize wrapInt64 (v 4 + (v 7 + (v 9 + (v 12 + (v 17 + (v 18 + (v 19 + (v 21 + 0))))))))
      = s3
    have d1 : "низкий уровень" ≠ "средний уровень" := by decide
    have d2 : "низкий уровень" ≠ "высокий уровень" := by decide
    have d3 : "средний уровень" ≠ "высокий уровень" := by decide
    refine ⟨?_, ?_, ?_, ?_, ?_, ?_, ?_, ?_, ?_⟩ <;> split_ifs <;>
      simp only [d1, d2, d3, d1.symm, d2.symm, d3.symm, true_iff, false_iff] <;> omega

/-- C26, witness: the answers of the first case of `Test_calculateTest1`; the sums are 10, 9
and 33. -/
theorem calculateTest1_spec_witness :
    (∀ i, i < 22 → (testAnswers22[i]?).map Answer.Data = some [testCodes22.getD i 0]) ∧
    ∃ s1 s2 s3 : Int, ∃ l1 l2 l3 : String,
      calculateTest1 testSurvey testAnswers22 = some
        { Text := "Эмоциональное истощение - " ++ l1 ++ ", Деперсонализация - " ++ l2 ++
            ", Редукция профессионализма - " ++ l3,
          Metadata := { Raw := [("s1", .int s1), ("s2", .int s2), ("s3", .int s3)] } } ∧
      s1 = 10 ∧ s2 = 9 ∧ s3 = 33 ∧ (l1 = "низкий уровень" ↔ s1 ≤ 15) :=
  ⟨by decide, by
    obtain ⟨s1, s2, s3, l1, l2, l3, h, h1, h2, h3, -, hl, -⟩ :=
      calculateTest1_spec testSurvey testAnswers22 (fun i => testCodes22.getD (i - 1) 0)
        (by decide)
    exact ⟨s1, s2, s3, l1, l2, l3, h, by rw [h1]; decide, by rw [h2]; decide, by rw [h3]; decide,
      hl⟩⟩

theorem sumExpected_cons (answers : List Answer) (id : Nat) (expected : Int)
    (rest : List (Nat × Int)) (v r : Int) (h1 : getExpected answers id expected = some v)
    (h2 : sumExpected answers rest = some r) :
    sumExpected answers ((id, expected) :: rest) = some (v + r) := by
  unfold sumExpected
  rw [h1, h2]
  rfl

/-- C30, counterexample: on 42 answers that all carry the code 1, the six scores of
`calculateTest6` are 14, 11, 8, 6, 2 and 2, which sum to 43. -/
theorem calculateTest6_all_ones :
    (calculateTest6 testSurvey testAnswers42).map
        (fun r => r.Metadata.Raw) =
      some [("realistic", .int 14), ("intillectual", .int 11), ("social", .int 8),
        ("conventional", .int 6), ("enterprising", .int 2), ("artistic", .int 2)] ∧
    (14 : Int) + 11 + 8 + 6 + 2 + 2 ≠ 42 := by
  decide

theorem sumExpected_terms (answers : List Answer) (code : Nat → Int)
    (hcode : ∀ i, i < 42 → (answers[i]?).map Answer.Data = some [code (i + 1)])
    (terms : List (Nat × Int)) (hterms : ∀ p ∈ terms, 1 ≤ p.1 ∧ p.1 ≤ 42) :
    sumExpected answers terms =
      some (∑ q ∈ Finset.Icc 1 42, ((terms.count (q, code q) : Nat) : Int)) := by
  induction terms with
  | nil => simp [sumExpected]
  | cons p rest ih =>
    obtain ⟨id, expected⟩ := p
    have hp := hterms (id, expected) (List.mem_cons_self _ _)
    have hrest := ih (fun p hp => hterms p (List.mem_cons_of_mem _ hp))
    have hget : getExpected answers id expected = some (if code id = expected then 1 else 0) := by
      unfold getExpected
      have := hcode (id - 1) (by omega)
      rw [show id - 1 + 1 = id by omega] at this
      rw [dataAt_of_code this]
      rfl
    rw [sumExpected_cons answers id expected rest _ _ hget hrest]
    congr 1
    have hone : (if code id = expected then (1 : Int) else 0) =
        ∑ q ∈ Finset.Icc 1 42, (if (id, expected) = (q, code q) then (1 : Int) else 0) := by
      by_cases hc : code id = expected
      · rw [if_pos hc]
        have : ∀ q ∈ Finset.Icc 1 42,
            (if (id, expected) = (q, code q) then (1 : Int) else 0) =
              if id = q then 1 else 0 := by
          intro q _
          by_cases hq : id = q
          · subst hq
            simp [hc]
          · simp [hq]
        rw [Finset.sum_congr rfl this, Finset.sum_ite_eq]
        simp [hp.1, hp.2]
      · rw [if_neg hc]
        symm
        apply Finset.sum_eq_zero
        intro q _
        by_cases hq : id = q
        · subst hq
          simp [Ne.symm hc]
        · simp [hq]
    rw [hone, ← Finset.sum_add_distrib]
    apply Finset.sum_congr rfl
    intro q _
    rw [List.count_cons]
    push_cast
    rw [add_comm]
    congr 1
    by_cases h : (id, expected) = (q, code q)
    · simp [h]
    · have : ((id, expected) == (q, code q)) = false := by simpa using h
      simp [h, this]

/-- C30, as amended: on answers of which the first 42 carry one code each, 1 or 2, each of the
six scores of `calculateTest6` is the sum, over the 42 questions, of the points that the code
of the question adds to the score. The code 1 on question 24 adds a point to two scores, the
intellectual and the artistic one, the code 2 on question 29 to two scores, the social and the
artistic one, and the code 2 on the questions 20, 24 and 26 to no score; every other code on
every question adds exactly one point to exactly one score. So the six scores sum to 42, plus
1 when the code of question 24 is 1 and plus 1 when the code of question 29 is 2, minus 1 for
each of the questions 20, 24 and 26 whose code is 2. -/
theorem calculateTest6_sum (survey : Survey) (answers : List Answer) (code : Nat → Int)
    (hcode : ∀ i, i < 42 → (answers[i]?).map Answer.Data = some [code (i + 1)])
    (h12 : ∀ i, 1 ≤ i → i ≤ 42 → code i = 1 ∨ code i = 2) :
    ∃ s1 s2 s3 s4 s5 s6 : Int,
      (calculateTest6 survey answers).map (fun r => r.Metadata.Raw) =
        some [("realistic", .int s1), ("intillectual", .int s2),
          ("social", .int s3), ("conventional", .int s4),
          ("enterprising", .int s5), ("artistic", .int s6)] ∧
      [s1, s2, s3, s4, s5, s6] =
        (List.range 6).map
          (fun k => ∑ q ∈ Finset.Icc 1 42, (test6Points q (code q)).getD k 0) ∧
      (∀ q, 1 ≤ q → q ≤ 42 → ∀ c : Int, c = 1 ∨ c = 2 →
        (q = 24 ∧ c = 1 → test6Points q c = [0, 1, 0, 0, 0, 1]) ∧
        (q = 29 ∧ c = 2 → test6Points q c = [0, 0, 1, 0, 0, 1]) ∧
        ((q = 20 ∨ q = 24 ∨ q = 26) ∧ c = 2 → test6Points q c = [0, 0, 0, 0, 0, 0]) ∧
        (¬ (q = 24 ∧ c = 1) → ¬ (q = 29 ∧ c = 2) → ¬ ((q = 20 ∨ q = 24 ∨ q = 26) ∧ c = 2) →
          ∃ k, k < 6 ∧
            test6Points q c = (List.range 6).map (fun j => if j = k then 1 else 0))) ∧
      s1 + s2 + s3 + s4 + s5 + s6 =
        42 + (if code 24 = 1 then 1 else 0) + (if code 29 = 2 then 1 else 0)
          - (if code 20 = 2 then 1 else 0) - (if code 24 = 2 then 1 else 0)
          - (if code 26 = 2 then 1 else 0) := by
  obtain ⟨ind, hind⟩ : ∃ ind : Nat → Int → Int, ∀ q e, ind q e = if code q = e then 1 else 0 :=
    ⟨_, fun _ _ => rfl⟩
  have hget : ∀ id e, 1 ≤ id → id ≤ 42 → getExpected answers id e = some (ind id e) := by
    intro id e h1 h2
    unfold getExpected
    have := hcode (id - 1) (by omega)
    rw [show id - 1 + 1 = id by omega] at this
    rw [dataAt_of_code this, hind]
    rfl
  have hsum : ∀ q, 1 ≤ q → q ≤ 42 → ind q 1 + ind q 2 = 1 := by
    intro q h1 h2
    rw [hind, hind]
    rcases h12 q h1 h2 with h | h <;> simp [h]
  have hnil : sumExpected answers [] = some 0 := rfl
  have e1 : sumExpected answers
      [(1, 1), (2, 1), (3, 1), (4, 1), (5, 1), (16, 1), (17, 1), (18, 1), (19, 1), (21, 1), (31,
      1), (32, 1), (33, 1), (34, 1)] =
      some (ind 1 1 + (ind 2 1 + (ind 3 1 + (ind 4 1 + (ind 5 1 + (ind 16 1 + (ind 17 1 + (ind 18 1 +
      (ind 19 1 + (ind 21 1 + (ind 31 1 + (ind 32 1 + (ind 33 1 + (ind 34 1 + (0))))))))))))))) := by
    repeat' (first | exact hnil | apply sumExpected_cons | (apply hget <;> decide))
  have e2 : sumExpected answers
      [(1, 2), (6, 1), (7, 1), (8, 1), (9, 1), (16, 2), (20, 1), (22, 1), (23, 1), (24, 1), (31,
      2), (35, 1), (36, 1), (37, 1)] =
      some (ind 1 2 + (ind 6 1 + (ind 7 1 + (ind 8 1 + (ind 9 1 + (ind 16 2 + (ind 20 1 + (ind 22 1 +
      (ind 23 1 + (ind 24 1 + (ind 31 2 + (ind 35 1 + (ind 36 1 + (ind 37 1 + (0))))))))))))))) := by
    repeat' (first | exact hnil | apply sumExpected_cons | (apply hget <;> decide))
  have e3 : sumExpected answers
      [(2, 2), (6, 2), (10, 1), (11, 1), (12, 1), (17, 2), (29, 2), (25, 1), (26, 1), (27, 1),
      (36, 2), (38, 1), (39, 1), (41, 2)] =
      some (ind 2 2 + (ind 6 2 + (ind 10 1 + (ind 11 1 + (ind 12 1 + (ind 17 2 + (ind 29 2 + (ind 25 1
      + (ind 26 1 + (ind 27 1 + (ind 36 2 + (ind 38 1 + (ind 39 1 + (ind 41 2 + (0))))))))))))))) := by
    repeat' (first | exact hnil | apply sumExpected_cons | (apply hget <;> decide))
  have e4 : sumExpected answers
      [(3, 2), (7, 2), (10, 2), (13, 1), (14, 1), (18, 2), (22, 2), (25, 2), (28, 1), (29, 1),
      (32, 2), (38, 2), (40, 1), (42, 1)] =
      some (ind 3 2 + (ind 7 2 + (ind 10 2 + (ind 13 1 + (ind 14 1 + (ind 18 2 + (ind 22 2 + (ind 25 2
      + (ind 28 1 + (ind 29 1 + (ind 32 2 + (ind 38 2 + (ind 40 1 + (ind 42 1 + (0))))))))))))))) := by
    repeat' (first | exact hnil | apply sumExpected_cons | (apply hget <;> decide))
  have e5 : sumExpected answers
      [(4, 2), (8, 2), (11, 2), (13, 2), (15, 1), (23, 2), (28, 2), (30, 1), (33, 2), (35, 2),
      (37, 2), (39, 2), (40, 2)] =
      some (ind 4 2 + (ind 8 2 + (ind 11 2 + (ind 13 2 + (ind 15 1 + (ind 23 2 + (ind 28 2 + (ind 30 1
      + (ind 33 2 + (ind 35 2 + (ind 37 2 + (ind 39 2 + (ind 40 2 + (0)))))))))))))) := by
    repeat' (first | exact hnil | apply sumExpected_cons | (apply hget <;> decide))
  have e6 : sumExpected answers
      [(5, 2), (9, 2), (12, 2), (14, 2), (15, 2), (19, 2), (21, 2), (24, 1), (27, 2), (29, 2),
      (30, 2), (34, 2), (41, 1), (42, 2)] =
      some (ind 5 2 + (ind 9 2 + (ind 12 2 + (ind 14 2 + (ind 15 2 + (ind 19 2 + (ind 21 2 + (ind 24 1
      + (ind 27 2 + (ind 29 2 + (ind 30 2 + (ind 34 2 + (ind 41 1 + (ind 42 2 + (0))))))))))))))) := by
    repeat' (first | exact hnil | apply sumExpected_cons | (apply hget <;> decide))
  have n1 := sumExpected_terms answers code hcode (test6Terms.getD 0 []) (by decide)
  have n2 := sumExpected_terms answers code hcode (test6Terms.getD 1 []) (by decide)
  have n3 := sumExpected_terms answers code hcode (test6Terms.getD 2 []) (by decide)
  have n4 := sumExpected_terms answers code hcode (test6Terms.getD 3 []) (by decide)
  have n5 := sumExpected_terms answers code hcode (test6Terms.getD 4 []) (by decide)
  have n6 := sumExpected_terms answers code hcode (test6Terms.getD 5 []) (by decide)
  have g1 := Option.some.inj (e1.symm.trans n1)
  have g2 := Option.some.inj (e2.symm.trans n2)
  have g3 := Option.some.inj (e3.symm.trans n3)
  have g4 := Option.some.inj (e4.symm.trans n4)
  have g5 := Option.some.inj (e5.symm.trans n5)
  have g6 := Option.some.inj (e6.symm.trans n6)
  have ht1 : ∀ q ∈ List.range' 1 42, ∀ c ∈ [(1 : Int), 2],
      (q = 24 ∧ c = 1 → test6Points q c = [0, 1, 0, 0, 0, 1]) := by
    decide
  have ht2 : ∀ q ∈ List.range' 1 42, ∀ c ∈ [(1 : Int), 2],
      (q = 29 ∧ c = 2 → test6Points q c = [0, 0, 1, 0, 0, 1]) := by
    decide
  have ht3 : ∀ q ∈ List.range' 1 42, ∀ c ∈ [(1 : Int), 2],
      ((q = 20 ∨ q = 24 ∨ q = 26) ∧ c = 2 → test6Points q c = [0, 0, 0, 0, 0, 0]) := by
    decide
  have ht4 : ∀ q ∈ List.range' 1 42, ∀ c ∈ [(1 : Int), 2],
      (¬ (q = 24 ∧ c = 1) → ¬ (q = 29 ∧ c = 2) → ¬ ((q = 20 ∨ q = 24 ∨ q = 26) ∧ c = 2) →
        ∃ k ∈ List.range 6,
          test6Points q c = (List.range 6).map (fun j => if j = k then 1 else 0)) := by
    decide
  unfold calculateTest6
  rw [e1, e2, e3, e4, e5, e6]
  refine ⟨_, _, _, _, _, _, rfl, ?_, ?_, ?_⟩
  · rw [g1, g2, g3, g4, g5, g6]
    rfl
  · intro q hq1 hq2 c hc
    have hq : q ∈ List.range' 1 42 := by
      rw [List.mem_range']
      exact ⟨q - 1, by omega, by omega⟩
    have hc2 : c ∈ [(1 : Int), 2] := by
      rcases hc with rfl | rfl <;> simp
    refine ⟨ht1 q hq c hc2, ht2 q hq c hc2, ht3 q hq c hc2, fun a1 a2 a3 => ?_⟩
    obtain ⟨k, hk, hv⟩ := ht4 q hq c hc2 a1 a2 a3
    exact ⟨k, List.mem_range.mp hk, hv⟩
  simp only [← hind]
  have f1 := hsum 1 (by decide) (by decide)
  have f2 := hsum 2 (by decide) (by decide)
  have f3 := hsum 3 (by decide) (by decide)
  have f4 := hsum 4 (by decide) (by decide)
  have f5 := hsum 5 (by decide) (by decide)
  have f6 := hsum 6 (by decide) (by decide)
  have f7 := hsum 7 (by decide) (by decide)
  have f8 := hsum 8 (by decide) (by decide)
  have f9 := hsum 9 (by decide) (by decide)
  have f10 := hsum 10 (by decide) (by decide)
  have f11 := hsum 11 (by decide) (by decide)
  have f12 := hsum 12 (by decide) (by decide)
  have f13 := hsum 13 (by decide) (by decide)
  have f14 := hsum 14 (by decide) (by decide)
  have f15 := hsum 15 (by decide) (by decide)
  have f16 := hsum 16 (by decide) (by decide)
  have f17 := hsum 17 (by decide) (by decide)
  have f18 := hsum 18 (by decide) (by decide)
  have f19 := hsum 19 (by decide) (by decide)
  have f20 := hsum 20 (by decide) (by decide)
  have f21 := hsum 21 (by decide) (by decide)
  have f22 := hsum 22 (by decide) (by decide)
  have f23 := hsum 23 (by decide) (by decide)
  have f24 := hsum 24 (by decide) (by decide)
  have f25 := hsum 25 (by decide) (by decide)
  have f26 := hsum 26 (by decide) (by decide)
  have f27 := hsum 27 (by decide) (by decide)
  have f28 := hsum 28 (by decide) (by decide)
  have f29 := hsum 29 (by decide) (by decide)
  have f30 := hsum 30 (by decide) (by decide)
  have f31 := hsum 31 (by decide) (by decide)
  have f32 := hsum 32 (by decide) (by decide)
  have f33 := hsum 33 (by decide) (by decide)
  have f34 := hsum 34 (by decide) (by decide)
  have f35 := hsum 35 (by decide) (by decide)
  have f36 := hsum 36 (by decide) (by decide)
  have f37 := hsum 37 (by decide) (by decide)
  have f38 := hsum 38 (by decide) (by decide)
  have f39 := hsum 39 (by decide) (by decide)
  have f40 := hsum 40 (by decide) (by decide)
  have f41 := hsum 41 (by decide) (by decide)
  have f42 := hsum 42 (by decide) (by decide)
  omega

/-- C30 as amended, witness: the 42 answers with the code 1. -/
theorem calculateTest6_sum_witness :
    (∀ i, i < 42 → (testAnswers42[i]?).map Answer.Data = some [(1 : Int)]) ∧
    ∃ s1 s2 s3 s4 s5 s6 : Int,
      (calculateTest6 testSurvey testAnswers42).map (fun r => r.Metadata.Raw) =
        some [("realistic", .int s1), ("intillectual", .int s2), ("social", .int s3),
          ("conventional", .int s4), ("enterprising", .int s5), ("artistic", .int s6)] ∧
      [s1, s2, s3, s4, s5, s6] =
        (List.range 6).map (fun k => ∑ q ∈ Finset.Icc 1 42, (test6Points q 1).getD k 0) ∧
      s1 + s2 + s3 + s4 + s5 + s6 = 43 :=
  ⟨by decide, by
    obtain ⟨s1, s2, s3, s4, s5, s6, h, hp, -, hs⟩ :=
      calculateTest6_sum testSurvey testAnswers42 (fun _ => 1) (by decide)
        (fun _ _ _ => Or.inl rfl)
    exact ⟨s1, s2, s3, s4, s5, s6, h, hp, by simpa using hs⟩⟩

/-- C29: `Question.Validate` accepts the segment question with the stored bounds `[5, 1]`, and
`GetAnswer` succeeds on no raw text for it. -/
theorem validated_segment_question_unanswerable :
    testBackwardsQuestion.Validate isUpperLatin1 = .ok () ∧
    ∀ (answerRaw : String) (a : Answer), testBackwardsQuestion.GetAnswer answerRaw ≠ .ok a := by
  refine ⟨by decide, fun answerRaw a h => ?_⟩
  have hG : testBackwardsQuestion.GetAnswer answerRaw =
      testBackwardsQuestion.getAnswerSegment answerRaw := by
    unfold Question.GetAnswer
    rw [if_pos (by decide)]
  rw [hG] at h
  unfold Question.getAnswerSegment at h
  cases hp : ParseInt answerRaw with
  | error e => rw [hp] at h; cases h
  | ok number =>
    rw [hp] at h
    have h0 : testBackwardsQuestion.PossibleAnswers[0]? = some 5 := by decide
    have h1 : testBackwardsQuestion.PossibleAnswers[1]? = some 1 := by decide
    simp only [h0, h1] at h
    by_cases hlo : number < 5
    · rw [if_pos hlo] at h; cases h
    · rw [if_neg hlo, if_pos (by omega)] at h; cases h

/-! ## Transactions -/

theorem wp_Transact {W α : Type} (s : service W) (fn : Prog W α)
    (Q : Res α → W → List Event → Prop) (w : W) :
    wp (s.Transact fn) Q w ↔
      (∀ e w1, s.dbRepo.BeginTx w = (.error e, w1) →
        Q (.err (.wrap "failed to begin transaction: " e)) w1 [⟨.BeginTx, .err e⟩]) ∧
      (∀ w1, s.dbRepo.BeginTx w = (.ok (), w1) → wp fn (transactPost s Q) w1) := by
  unfold service.Transact
  simp only [wp_bind, wp_call, bindPost, wp_attempt, wp_ret]
  rw [and_comm]
  refine and_congr ?_ ?_
  · simp
  · refine forall_congr' fun w1 => imp_congr_right fun _ => wp_congr _ _ _ _ ?_
    intro r w2 t
    cases r with
    | ok a =>
      simp only [attemptPost, bindPost, transactPost, wp_bind, wp_call, wp_ret, wp_pure]
      simp
    | err e =>
      simp only [attemptPost, bindPost, transactPost, wp_bind, wp_call, wp_ret, wp_pure,
        wp_loggerErrorf]
      simp
    | panic p =>
      simp [attemptPost, bindPost, transactPost]

/-- C20, as amended: `Transact` calls `BeginTx` first; when that fails it returns the error (wrapped) and
calls nothing else. When `BeginTx` succeeds the calls of the wrapped function follow, and then:
after the function returned nil, `Commit` alone, and `Transact` returns nil, or the (wrapped)
error of `Commit`; after the function returned an error, `Rollback` alone, followed only by a
log entry when it fails, and `Transact` returns the (wrapped) error of the function whether or
not `Rollback` failed. So `Commit` is called exactly when the function returned nil, `Rollback`
exactly when it returned an error, never both, and `Transact` returns an error exactly when
`BeginTx`, the function or `Commit` failed. When the function panics, the panic passes
through `Transact`, which then calls neither `Commit` nor `Rollback` and does not return. -/
theorem Transact_spec {W α : Type} (s : service W) (fn : Prog W α) (w : W) :
    (∀ e w1, s.dbRepo.BeginTx w = (.error e, w1) →
      (s.Transact fn w).res = .err (.wrap "failed to begin transaction: " e) ∧
      calls (s.Transact fn w).trace = [.BeginTx]) ∧
    (∀ w1, s.dbRepo.BeginTx w = (.ok (), w1) →
      ∃ post : List Event,
        (s.Transact fn w).trace = ⟨.BeginTx, .nil⟩ :: ((fn w1).trace ++ post) ∧
        (∀ a, (fn w1).res = .ok a →
          calls post = [.Commit] ∧
          (∀ w3, s.dbRepo.Commit (fn w1).world = (.ok (), w3) →
            (s.Transact fn w).res = .ok a) ∧
          (∀ e w3, s.dbRepo.Commit (fn w1).world = (.error e, w3) →
            (s.Transact fn w).res = .err (.wrap "failed to commit transaction: " e))) ∧
        (∀ e, (fn w1).res = .err e →
          (s.Transact fn w).res = .err (.wrap "failed to exec transaction: " e) ∧
          (∀ w3, s.dbRepo.Rollback (fn w1).world = (.ok (), w3) → calls post = [.Rollback]) ∧
          (∀ e2 w3, s.dbRepo.Rollback (fn w1).world = (.error e2, w3) →
            calls post = [.Rollback, .LoggerErrorf "failed to rollback transaction: %w" e2])) ∧
        (∀ p, (fn w1).res = .panic p → (s.Transact fn w).res = .panic p ∧ post = []) ∧
        (.Commit ∈ calls post ↔ ∃ a, (fn w1).res = .ok a) ∧
        (.Rollback ∈ calls post ↔ ∃ e, (fn w1).res = .err e) ∧
        (((∃ a, (fn w1).res = .ok a) ∨ ∃ e, (fn w1).res = .err e) →
          (calls post).count .Commit + (calls post).count .Rollback = 1) ∧
        ((∃ e, (s.Transact fn w).res = .err e) ↔
          (∃ e, (fn w1).res = .err e) ∨
            ((∃ a, (fn w1).res = .ok a) ∧ ∃ e w3, s.dbRepo.Commit (fn w1).world = (.error e, w3)))) := by
  have key := (wp_Transact s fn
    (fun r _ t => (s.Transact fn w).res = r ∧ (s.Transact fn w).trace = t) w).mp ⟨rfl, rfl⟩
  refine ⟨fun e w1 hb => ?_, fun w1 hb => ?_⟩
  · obtain ⟨h1, h2⟩ := key.1 e w1 hb
    exact ⟨h1, by rw [h2]; rfl⟩
  · have h := key.2 w1 hb
    unfold wp at h
    rcases hF : fn w1 with ⟨r, w2, t⟩
    rw [hF] at h
    dsimp only at h ⊢
    cases r with
    | ok a =>
      rcases hC : s.dbRepo.Commit w2 with ⟨rC, w3⟩
      cases rC with
      | error e =>
        obtain ⟨h1, h2⟩ := h.2 e w3 hC
        refine ⟨[⟨.Commit, .err e⟩], h2, ?_, ?_, ?_, ?_, ?_, ?_, ?_⟩
        · intro a2 ha
          cases ha
          refine ⟨rfl, fun w4 h4 => ?_, fun e4 w4 h4 => ?_⟩
          · simp at h4
          · simp only [Prod.mk.injEq, Except.error.injEq] at h4
            rw [← h4.1]; exact h1
        · intro e2 he; cases he
        · intro p hp; cases hp
        · simp [calls]
        · simp [calls]
        · intro _; simp [calls]
        · rw [h1]
          simp
      | ok u =>
        cases u
        obtain ⟨h1, h2⟩ := h.1 w3 hC
        refine ⟨[⟨.Commit, .nil⟩], h2, ?_, ?_, ?_, ?_, ?_, ?_, ?_⟩
        · intro a2 ha
          cases ha
          refine ⟨rfl, fun w4 h4 => h1, fun e4 w4 h4 => ?_⟩
          simp at h4
        · intro e2 he; cases he
        · intro p hp; cases hp
        · simp [calls]
        · simp [calls]
        · intro _; simp [calls]
        · rw [h1]
          simp
    | err e =>
      rcases hC : s.dbRepo.Rollback w2 with ⟨rC, w3⟩
      cases rC with
      | error e2 =>
        obtain ⟨h1, h2⟩ := h.2 e2 w3 hC
        refine ⟨[⟨.Rollback, .err e2⟩,
          ⟨.LoggerErrorf "failed to rollback transaction: %w" e2, .nil⟩], h2, ?_, ?_, ?_, ?_, ?_,
          ?_, ?_⟩
        · intro a2 ha; cases ha
        · intro e3 he
          cases he
          refine ⟨h1, fun w4 h4 => ?_, fun e4 w4 h4 => ?_⟩
          · simp at h4
          · simp only [Prod.mk.injEq, Except.error.injEq] at h4
            rw [← h4.1]
            rfl
        · intro p hp; cases hp
        · simp [calls]
        · simp [calls]
        · intro _; simp [calls]
        · rw [h1]
          simp
      | ok u =>
        cases u
        obtain ⟨h1, h2⟩ := h.1 w3 hC
        refine ⟨[⟨.Rollback, .nil⟩], h2, ?_, ?_, ?_, ?_, ?_, ?_, ?_⟩
        · intro a2 ha; cases ha
        · intro e3 he
          cases he
          refine ⟨h1, fun w4 h4 => rfl, fun e4 w4 h4 => ?_⟩
          simp at h4
        · intro p hp; cases hp
        · simp [calls]
        · simp [calls]
        · intro _; simp [calls]
        · rw [h1]
          simp
    | panic p =>
      obtain ⟨h1, h2⟩ := h
      refine ⟨[], by rw [h2, List.append_nil], ?_, ?_, ?_, ?_, ?_, ?_, ?_⟩
      · intro a2 ha; cases ha
      · intro e3 he; cases he
      · intro p2 hp; cases hp; exact ⟨h1, rfl⟩
      · simp [calls]
      · simp [calls]
      · rintro (⟨a, ha⟩ | ⟨e, he⟩)
        · cases ha
        · cases he
      · rw [h1]
        simp

/-- The function literal of `UpdateSurvey`: once `GetSurvey` returned the stored survey, a
different number of questions ends it with the error and without a call of `UpdateSurvey`, and
an equal number makes it call `UpdateSurvey`, once, with the stored survey overlaid. -/
theorem UpdateSurveyTx_post {W : Type} (s : service W) (new : Survey) (w : W) :
    wp (s.UpdateSurveyTx new) (fun r _ tr =>
      ∀ old, (⟨.GetSurvey new.GUID, .survey old⟩ : Event) ∈ tr →
        (old.Questions.length ≠ new.Questions.length →
          r = .err (.new "cannot update survey with different number of questions") ∧
          ∀ x, .UpdateSurvey x ∉ calls tr) ∧
        (old.Questions.length = new.Questions.length →
          .UpdateSurvey { old with Name := new.Name, Questions := new.Questions,
                                   CalculationsType := new.CalculationsType,
                                   Description := new.Description } ∈ calls tr ∧
          ∀ x, .UpdateSurvey x ∈ calls tr →
            x = { old with Name := new.Name, Questions := new.Questions,
                           CalculationsType := new.CalculationsType,
                           Description := new.Description })) w := by
  unfold service.UpdateSurveyTx
  simp only [wp_bind, wp_callV, wp_call, bindPost, wp_ite, wp_ret, wp_pure, List.nil_append,
    List.append_nil, List.cons_append]
  repeat' (first | intro _ | apply And.intro)
  all_goals simp_all [calls]

/-- C19: in a run of `UpdateSurvey` in which `GetSurvey` returned the stored survey: when the
incoming survey has a different number of questions, `UpdateSurvey` returns the error and the
repository's `UpdateSurvey` is not called; otherwise the repository's `UpdateSurvey` is called,
with one survey only, which has the `GUID` and `ID` of the stored survey and the name,
description, questions and scoring type of the incoming one. -/
theorem UpdateSurvey_spec {W : Type} (s : service W) (new : Survey) (w : W) (run : Run W Unit)
    (hrun : s.UpdateSurvey new w = run) (old : Survey)
    (hOld : (⟨.GetSurvey new.GUID, .survey old⟩ : Event) ∈ run.trace) :
    (old.Questions.length ≠ new.Questions.length →
      run.res = .err (.wrap "failed to transact: " (.wrap "failed to exec transaction: "
        (.new "cannot update survey with different number of questions"))) ∧
      ∀ x, .UpdateSurvey x ∉ calls run.trace) ∧
    (old.Questions.length = new.Questions.length →
      ∃ persisted : Survey,
        .UpdateSurvey persisted ∈ calls run.trace ∧
        (∀ x, .UpdateSurvey x ∈ calls run.trace → x = persisted) ∧
        persisted.GUID = old.GUID ∧ persisted.ID = old.ID ∧ persisted.Name = new.Name ∧
        persisted.Description = new.Description ∧ persisted.Questions = new.Questions ∧
        persisted.CalculationsType = new.CalculationsType) := by
  have key : wp (s.UpdateSurvey new) (fun r _ tr =>
      ∀ old, (⟨.GetSurvey new.GUID, .survey old⟩ : Event) ∈ tr →
        (old.Questions.length ≠ new.Questions.length →
          r = .err (.wrap "failed to transact: " (.wrap "failed to exec transaction: "
            (.new "cannot update survey with different number of questions"))) ∧
          ∀ x, .UpdateSurvey x ∉ calls tr) ∧
        (old.Questions.length = new.Questions.length →
          .UpdateSurvey { old with Name := new.Name, Questions := new.Questions,
                                   CalculationsType := new.CalculationsType,
                                   Description := new.Description } ∈ calls tr ∧
          ∀ x, .UpdateSurvey x ∈ calls tr →
            x = { old with Name := new.Name, Questions := new.Questions,
                           CalculationsType := new.CalculationsType,
                           Description := new.Description })) w := by
    unfold service.UpdateSurvey
    rw [wp_bind, wp_transacted]
    refine ⟨fun e w1 _ old h => ?_, fun w1 _ => wp_mono _ _ _ _ (UpdateSurveyTx_post s new w1) ?_⟩
    · simp at h
    intro r w2 t hP
    refine txPost_of_wrapRes s _ r w2 t fun r2 w3 post hw => ?_
    have hpost := wrapRes_isTxControl hw
    intro old h
    rw [mem_wrapped hpost (Call.GetSurvey new.GUID) (.survey old) rfl] at h
    obtain ⟨h1, h2⟩ := hP old h
    refine ⟨fun hne => ?_, fun heq => ?_⟩
    · obtain ⟨hr, hno⟩ := h1 hne
      subst hr
      refine ⟨hw.1, fun x hx => ?_⟩
      rw [mem_calls_wrapped hpost (Call.UpdateSurvey x) rfl] at hx
      exact hno x hx
    · obtain ⟨hin, huniq⟩ := h2 heq
      refine ⟨?_, fun x hx => ?_⟩
      · rw [mem_calls_wrapped hpost (Call.UpdateSurvey _) rfl]
        exact hin
      · rw [mem_calls_wrapped hpost (Call.UpdateSurvey x) rfl] at hx
        exact huniq x hx
  subst hrun
  unfold wp at key
  obtain ⟨h1, h2⟩ := key old hOld
  refine ⟨h1, fun heq => ?_⟩
  obtain ⟨hin, huniq⟩ := h2 heq
  exact ⟨_, hin, huniq, rfl, rfl, rfl, rfl, rfl, rfl⟩

/-- C20, counterexample: over the scripted collaborators, whose `BeginTx` succeeds, the function
that `HandleSurveyCommand` passes to `Transact` panics when the active state already holds an
answer to every question: `Transact` then calls neither `Commit` nor `Rollback`, and the panic
passes through it. -/
theorem Transact_function_panics :
    scenarioAllAnswered.service.dbRepo.BeginTx () = (.ok (), ()) ∧
    (scenarioAllAnswered.service.Transact
      (scenarioAllAnswered.service.HandleSurveyCommandTx testContext 1) ()).res =
        .panic "index out of range" ∧
    Call.BeginTx ∈ calls (scenarioAllAnswered.service.Transact
      (scenarioAllAnswered.service.HandleSurveyCommandTx testContext 1) ()).trace ∧
    (calls (scenarioAllAnswered.service.Transact
      (scenarioAllAnswered.service.HandleSurveyCommandTx testContext 1) ()).trace).count .Commit +
    (calls (scenarioAllAnswered.service.Transact
      (scenarioAllAnswered.service.HandleSurveyCommandTx testContext 1) ()).trace).count
        .Rollback = 0 := by
  decide

/-- C20 as amended, witness: over the scripted collaborators, whose `BeginTx` succeeds, a function that
returns an error is followed by `Rollback` alone. -/
theorem Transact_spec_witness :
    scenarioA.service.dbRepo.BeginTx () = (.ok (), ()) ∧
    ∃ post : List Event,
      (scenarioA.service.Transact (ret (.new "no luck") : Prog Unit Unit) ()).trace =
        ⟨.BeginTx, .nil⟩ :: (((ret (.new "no luck") : Prog Unit Unit) ()).trace ++ post) ∧
      calls post = [.Rollback] ∧
      (scenarioA.service.Transact (ret (.new "no luck") : Prog Unit Unit) ()).res =
        .err (.wrap "failed to exec transaction: " (.new "no luck")) :=
  ⟨rfl, by
    obtain ⟨post, h1, -, h3, -⟩ :=
      (Transact_spec scenarioA.service (ret (.new "no luck") : Prog Unit Unit) ()).2 () rfl
    exact ⟨post, h1, (h3 _ rfl).2.1 () rfl, (h3 _ rfl).1⟩⟩

/-- C19, witness: over the in-memory database that holds survey 5 with one question, an
incoming survey with one question and a new name. -/
theorem UpdateSurvey_spec_witness :
    (⟨.GetSurvey testRenamedSurvey.GUID, .survey testShortSurvey⟩ : Event) ∈
      (testMemService.UpdateSurvey testRenamedSurvey (testStore [])).trace ∧
    ∃ persisted : Survey,
      .UpdateSurvey persisted ∈
        calls (testMemService.UpdateSurvey testRenamedSurvey (testStore [])).trace ∧
      persisted.GUID = 5 ∧ persisted.ID = 1 ∧ persisted.Name = "Survey 1, renamed" :=
  ⟨by decide, by
    obtain ⟨p, h1, -, h2, h3, h4, -⟩ :=
      (UpdateSurvey_spec testMemService testRenamedSurvey (testStore []) _ rfl testShortSurvey
        (by decide)).2 (by decide)
    exact ⟨p, h1, h2, h3, h4⟩⟩

/-- C17: over the in-memory database that holds survey 5 with one question, `UpdateSurvey`
with an incoming survey that `processor.Validate` and `Survey.Validate` reject (no name, no
description, an unregistered scoring type, a question that `Question.Validate` rejects)
returns nil: it never calls `Validate`, it calls the repository's `UpdateSurvey` with that
content, and the content is committed. -/
theorem UpdateSurvey_persists_invalid_survey :
    processor.Validate isUpperLatin1 testInvalidSurvey =
      .error (.wrap "failed to validate survey, " (.new "empty survey name")) ∧
    (∀ q ∈ testInvalidSurvey.Questions, q.Validate isUpperLatin1 ≠ .ok ()) ∧
    ¬ isRegistered testInvalidSurvey.CalculationsType ∧
    (testMemService.UpdateSurvey testInvalidSurvey (testStore [])).res = .ok () ∧
    calls (testMemService.UpdateSurvey testInvalidSurvey (testStore [])).trace =
      [.BeginTx, .GetSurvey 5, .UpdateSurvey { testInvalidSurvey with ID := 1 }, .Commit] ∧
    (testMemService.UpdateSurvey testInvalidSurvey (testStore [])).world.committed.surveys =
      [{ testInvalidSurvey with ID := 1 }] := by
  decide

/-- C21: over the in-memory database in which the user has a finished state for survey 5, the
list that `HandleListCommand` and `HandleStartCommand` send shows survey 5 as `not_started`:
the states are looked up with the filter `[ActiveState]`, which leaves the finished row out. -/
theorem survey_list_shows_finished_as_not_started :
    (testStore [testFinishedRow]).db.survey_states = [testFinishedRow] ∧
    testFinishedRow.State = FinishedState ∧
    calls (testMemService.HandleListCommand testContext (testStore [testFinishedRow])).trace =
      [.BeginTx, .GetUserByID 10, .UpdateUserLastActivity 7, .GetSurveysList,
        .GetUserSurveyStates 7 [ActiveState],
        .SendSurveyList [{ UserGUID := 7, Survey := testShortSurvey, State := NotStartedState,
                           IsCurrent := false }],
        .Commit] ∧
    calls (testMemService.HandleStartCommand testContext (testStore [testFinishedRow])).trace =
      [.BeginTx, .GetUserByID 10, .UpdateUserLastActivity 7, .GetSurveysList,
        .GetUserSurveyStates 7 [ActiveState],
        .SendSurveyList [{ UserGUID := 7, Survey := testShortSurvey, State := NotStartedState,
                           IsCurrent := false }],
        .Commit] := by
  decide

/-- C28: over the in-memory database in which the user has survey 5 as the current survey, the
command run for the state of another survey, 6, sets the current survey of the user to null
all the same, and then deletes the state of survey 6. -/
theorem state_delete_clears_other_current_survey :
    testStoreCurrent.committed.users.map (fun u => u.CurrentSurvey) = [some 5] ∧
    (DeleteUserInfoCmd.Execute testMemService 7 6 testStoreCurrent).res = .ok .ExitSuccess ∧
    calls (DeleteUserInfoCmd.Execute testMemService 7 6 testStoreCurrent).trace =
      [.BeginTx, .GetUserByGUID 7, .Commit, .BeginTx, .SetUserCurrentSurveyToNil 7, .Commit,
        .BeginTx, .DeleteUserSurveyState 7 6, .Commit] ∧
    (DeleteUserInfoCmd.Execute testMemService 7 6 testStoreCurrent).world.committed.users.map
      (fun u => u.CurrentSurvey) = [none] ∧
    (DeleteUserInfoCmd.Execute testMemService 7 6 testStoreCurrent).world.committed.survey_states =
      [testState []] := by
  decide

/-! ## The export -/

theorem decimalValueFrom_append (xs ys : List Char) : ∀ acc : Nat,
    decimalValueFrom acc (xs ++ ys) =
      (decimalValueFrom acc xs).bind (fun m => decimalValueFrom m ys) := by
  induction xs with
  | nil => intro acc; simp [decimalValueFrom]
  | cons c cs ih =>
    intro acc
    simp only [List.cons_append, decimalValueFrom]
    cases digitValue c with
    | none => rfl
    | some d => exact ih _

theorem digitValue_digitChar (d : Nat) (h : d < 10) : digitValue (Nat.digitChar d) = some d := by
  interval_cases d <;> decide

theorem toDigitsCore_spec : ∀ (fuel n : Nat) (ds : List Char), n < fuel →
    ∃ pre : List Char, Nat.toDigitsCore 10 fuel n ds = pre ++ ds ∧ pre ≠ [] ∧
      ∀ acc, decimalValueFrom acc pre = some (acc * 10 ^ pre.length + n) := by
  intro fuel
  induction fuel with
  | zero => intro n ds h; omega
  | succ fuel ih =>
    intro n ds h
    unfold Nat.toDigitsCore
    by_cases h0 : n / 10 = 0
    · simp only [h0, ↓reduceIte]
      refine ⟨[Nat.digitChar (n % 10)], rfl, by simp, fun acc => ?_⟩
      have hlt : n % 10 < 10 := Nat.mod_lt _ (by decide)
      simp only [decimalValueFrom, digitValue_digitChar _ hlt, List.length_singleton, pow_one]
      congr 1
      omega
    · simp only [h0, ↓reduceIte]
      obtain ⟨pre, hpre, _, hval⟩ := ih (n / 10) (Nat.digitChar (n % 10) :: ds) (by omega)
      refine ⟨pre ++ [Nat.digitChar (n % 10)], by rw [hpre]; simp, by simp, fun acc => ?_⟩
      have hlt : n % 10 < 10 := Nat.mod_lt _ (by decide)
      rw [decimalValueFrom_append, hval]
      simp only [Option.some_bind, decimalValueFrom, digitValue_digitChar _ hlt,
        List.length_append, List.length_singleton, pow_succ]
      congr 1
      have := Nat.div_add_mod n 10
      ring_nf
      ring_nf at this
      omega

theorem decimalValue_toDigits (n : Nat) : decimalValue (Nat.toDigits 10 n) = some n := by
  obtain ⟨pre, hpre, hne, hval⟩ := toDigitsCore_spec (n + 1) n [] (by omega)
  unfold Nat.toDigits decimalValue
  rw [hpre, List.append_nil, if_neg hne, hval]
  simp

/-- The text of `Itoa` writes the number in base 10. -/
theorem base10Integer_Itoa (v : Int) : base10Integer (Itoa v) = some v := by
  unfold Itoa
  cases v with
  | ofNat m =>
    show base10Integer (Nat.repr m) = some (m : Int)
    unfold base10Integer
    have hd : (Nat.repr m).data = Nat.toDigits 10 m := rfl
    rw [hd]
    have hv := decimalValue_toDigits m
    cases hl : Nat.toDigits 10 m with
    | nil => rw [hl] at hv; simp [decimalValue] at hv
    | cons c cs =>
      rw [hl] at hv
      have hc : digitValue c ≠ none := by
        intro h
        simp [decimalValue, decimalValueFrom, h] at hv
      have hplus : ¬ c = '+' := by
        intro h; rw [h] at hc; exact hc (by decide)
      have hminus : ¬ c = '-' := by
        intro h; rw [h] at hc; exact hc (by decide)
      simp only [hplus, hminus, if_false, hv, signed]
      rfl
  | negSucc m =>
    show base10Integer ("-" ++ Nat.repr (m + 1)) = some (Int.negSucc m)
    unfold base10Integer
    have hd : ("-" ++ Nat.repr (m + 1)).data = '-' :: Nat.toDigits 10 (m + 1) := rfl
    rw [hd]
    simp only [if_neg (show ¬ '-' = '+' by decide), if_true, decimalValue_toDigits, signed]
    rfl

theorem answerColumns_spec (answers : List Answer)
    (h : ∀ a ∈ answers, a.Typ = AnswerTypeSegment ∨ a.Typ = AnswerTypeSelect → a.Data ≠ []) :
    ∃ columns, answerColumns answers = .ok columns ∧ columns.length = answers.length ∧
      ∀ (i : Nat) (a : Answer), answers[i]? = some a →
        (a.Typ = AnswerTypeSegment ∨ a.Typ = AnswerTypeSelect →
          ∃ c, a.Data[0]? = some c ∧ columns[i]? = some (Itoa c)) ∧
        (¬ (a.Typ = AnswerTypeSegment ∨ a.Typ = AnswerTypeSelect) →
          columns[i]? = some (" ".intercalate (toStringSlice a.Data))) := by
  induction answers with
  | nil => exact ⟨[], rfl, rfl, fun i a hi => by simp at hi⟩
  | cons answer rest ih =>
    obtain ⟨columns, hcols, hlen, hidx⟩ := ih (fun a ha => h a (List.mem_cons_of_mem _ ha))
    unfold answerColumns
    rw [hcols]
    by_cases hT : answer.Typ = AnswerTypeSegment ∨ answer.Typ = AnswerTypeSelect
    · rw [if_pos hT]
      have hne := h answer (List.mem_cons_self _ _) hT
      cases hD : answer.Data with
      | nil => exact absurd hD hne
      | cons c cs =>
        simp only [List.getElem?_cons_zero]
        refine ⟨Itoa c :: columns, rfl, by simp [hlen], fun i a hi => ?_⟩
        cases i with
        | zero =>
          simp only [List.getElem?_cons_zero, Option.some.injEq] at hi
          subst hi
          exact ⟨fun _ => ⟨c, by rw [hD]; exact List.getElem?_cons_zero, List.getElem?_cons_zero⟩,
            fun hn => absurd hT hn⟩
        | succ i =>
          simp only [List.getElem?_cons_succ] at hi ⊢
          exact hidx i a hi
    · rw [if_neg hT]
      refine ⟨_ :: columns, rfl, by simp [hlen], fun i a hi => ?_⟩
      cases i with
      | zero =>
        simp only [List.getElem?_cons_zero, Option.some.injEq] at hi
        subst hi
        exact ⟨fun ht => absurd ht hT, fun _ => List.getElem?_cons_zero⟩
      | succ i =>
        simp only [List.getElem?_cons_succ] at hi ⊢
        exact hidx i a hi

/-- C22: `ToCSV` gives the report of the tests, which has one answer, ten fields: nine fixed
ones and the answer. The third is the description of the survey, which the header row does not
name, so that from the third position on the fields stand one position to the right of their
names: under `user_guid` the description, under `user_id` the user GUID, and so on, the first
answer standing beyond the last name, `answers`. -/
theorem ToCSV_fields_against_header :
    testReport.ToCSV testEncoders =
      .ok ["guid-5", "Survey 1", "One question", "user-7", "10", "your result", "{}",
        "time-100", "time-200", "2"] ∧
    csvHeader =
      ["survey_guid", "survey_name", "user_guid", "user_id", "text", "metadata", "started_at",
        "finished_at", "answers"] ∧
    testReport.Answers.length = 1 ∧
    csvHeader[2]? = some "user_guid" ∧
    (testReport.ToCSV testEncoders = .ok ["guid-5", "Survey 1", testReport.Description,
        testReport.UserGUID, Itoa testReport.UserID, "your result", "{}", "time-100", "time-200",
        "2"]) := by
  decide

/-- C23: for a report whose answers are results of `GetAnswer` (and whose metadata
`json.Marshal` encodes), `ToCSV` returns, without a panic, nine fixed fields followed by one
column per answer, in order: for a segment or select answer the text of `Itoa` for its single
code, for a multiselect answer the texts of `Itoa` for its codes joined by single spaces; and
the text of `Itoa` for a code writes it in base 10. -/
theorem ToCSV_answer_columns (enc : Encoders) (ss : SurveyStateReport)
    (hAns : ∀ a ∈ ss.Answers, ∃ (q : Question) (answerRaw : String), q.GetAnswer answerRaw = .ok a)
    (hM : ∀ r, ss.Results = some r → ∃ m, enc.marshalMetadata r.Metadata = .ok m) :
    ∃ fixed columns : List String,
      ss.ToCSV enc = .ok (fixed ++ columns) ∧ fixed.length = 9 ∧
      columns.length = ss.Answers.length ∧
      ∀ (i : Nat) (a : Answer), ss.Answers[i]? = some a →
        (a.Typ = AnswerTypeSegment ∨ a.Typ = AnswerTypeSelect →
          ∃ c, a.Data = [c] ∧ columns[i]? = some (Itoa c) ∧ base10Integer (Itoa c) = some c) ∧
        (a.Typ = AnswerTypeMultiSelect →
          columns[i]? = some (" ".intercalate (a.Data.map Itoa)) ∧
          ∀ c ∈ a.Data, base10Integer (Itoa c) = some c) := by
  have hshape : ∀ a ∈ ss.Answers,
      (a.Typ = AnswerTypeSegment ∨ a.Typ = AnswerTypeSelect → a.Data.length = 1) := by
    intro a ha hT
    obtain ⟨q, raw, hq⟩ := hAns a ha
    obtain ⟨h1, -, h3, -⟩ := GetAnswer_ok_shape q raw a hq
    exact h3 (by rw [← h1]; exact hT)
  obtain ⟨columns, hcols, hlen, hidx⟩ := answerColumns_spec ss.Answers (fun a ha hT h0 => by
    have := hshape a ha hT
    rw [h0] at this
    cases this)
  have hfix : ∃ fixed : List String, ss.ToCSV enc = .ok (fixed ++ columns) ∧ fixed.length = 9 := by
    unfold SurveyStateReport.ToCSV
    cases hR : ss.Results with
    | none =>
      simp only [hcols]
      exact ⟨_, rfl, rfl⟩
    | some r =>
      obtain ⟨m, hm⟩ := hM r hR
      simp only [hm, hcols]
      exact ⟨_, rfl, rfl⟩
  obtain ⟨fixed, hres, hflen⟩ := hfix
  refine ⟨fixed, columns, hres, hflen, hlen, fun i a hi => ⟨fun hT => ?_, fun hT => ?_⟩⟩
  · obtain ⟨c, hc, hcol⟩ := (hidx i a hi).1 hT
    have hmem : a ∈ ss.Answers := by
      obtain ⟨hlt, hget⟩ := List.getElem?_eq_some.mp hi
      rw [← hget]
      exact List.getElem_mem _
    have hl := hshape a hmem hT
    have hD : a.Data = [c] := by
      cases hd : a.Data with
      | nil => rw [hd] at hl; cases hl
      | cons c0 cs =>
        rw [hd] at hl hc
        simp only [List.getElem?_cons_zero, Option.some.injEq] at hc
        simp only [List.length_cons, Nat.add_eq_right, List.length_eq_zero] at hl
        rw [hc, hl]
    exact ⟨c, hD, hcol, base10Integer_Itoa c⟩
  · have hn : ¬ (a.Typ = AnswerTypeSegment ∨ a.Typ = AnswerTypeSelect) := by
      rw [hT]; decide
    exact ⟨(hidx i a hi).2 hn, fun c _ => base10Integer_Itoa c⟩

/-- C23, witness: the report of the tests, whose answer `{segment, [2]}` is what `GetAnswer`
gives for the text `"2"`. -/
theorem ToCSV_answer_columns_witness :
    (∀ a ∈ testReport.Answers,
      ∃ (q : Question) (answerRaw : String), q.GetAnswer answerRaw = .ok a) ∧
    ∃ fixed columns : List String,
      testReport.ToCSV testEncoders = .ok (fixed ++ columns) ∧ fixed.length = 9 ∧
      columns.length = 1 ∧ columns[0]? = some "2" :=
  ⟨fun a ha => ⟨testSegmentQuestion, "2", by
      have : a = { Typ := AnswerTypeSegment, Data := [2] } := by simpa [testReport] using ha
      rw [this]
      decide⟩,
    by
      obtain ⟨fixed, columns, h1, h2, h3, h4⟩ :=
        ToCSV_answer_columns testEncoders testReport
          (fun a ha => ⟨testSegmentQuestion, "2", by
            have : a = { Typ := AnswerTypeSegment, Data := [2] } := by
              simpa [testReport] using ha
            rw [this]
            decide⟩)
          (fun r _ => ⟨"{}", rfl⟩)
      obtain ⟨c, hc, hcol, -⟩ :=
        (h4 0 { Typ := AnswerTypeSegment, Data := [2] } (by decide)).1 (Or.inl rfl)
      have hc2 : c = 2 := by
        simp only [List.cons.injEq, and_true] at hc
        exact hc.symm
      rw [hc2] at hcol
      exact ⟨fixed, columns, h1, h2, h3, by rw [hcol]; decide⟩⟩

/-! ## Queries of the repository: the claims -/

/-- C25: for the single argument `2024-01-01`, `handleResultsCommand` builds a filter with
`From` alone, and for a filter with `From` alone `GetFinishedSurveys` builds the condition
`state = $3 AND updated_at >= $5` with four arguments: the placeholder `$5` refers to no
argument, and `From`, the fourth argument, is referred to by no placeholder. The three other
shapes of the filter give conditions whose placeholders are `$3` to the last argument. -/
theorem finished_surveys_filter_from_only :
    handleResultsCommandFilter (fun _ => .ok 100) ["2024-01-01"] =
      some { From := some 100, To := none } ∧
    finishedSurveysFilter { From := some 100, To := none } 10 0 =
      ("state = $3 AND updated_at >= $5",
        [.int 10, .int 0, .state FinishedState, .time 100]) ∧
    placeholders (finishedSurveysFilter { From := some 100, To := none } 10 0).1 = [3, 5] ∧
    (finishedSurveysFilter { From := some 100, To := none } 10 0).2.length = 4 ∧
    placeholders (finishedSurveysFilter { From := none, To := none } 10 0).1 = [3] ∧
    (finishedSurveysFilter { From := none, To := none } 10 0).2.length = 3 ∧
    placeholders (finishedSurveysFilter { From := none, To := some 200 } 10 0).1 = [3, 4] ∧
    (finishedSurveysFilter { From := none, To := some 200 } 10 0).2.length = 4 ∧
    placeholders (finishedSurveysFilter { From := some 100, To := some 200 } 10 0).1 = [3, 4, 5] ∧
    (finishedSurveysFilter { From := some 100, To := some 200 } 10 0).2.length = 5 := by
  decide

theorem aggregateUsers_spec (unmarshal : String → Except GoError (List Answer))
    (users : List userListReportResponse)
    (hdec : ∀ u ∈ users, ∀ raw, u.Answers = some raw → ∃ a, unmarshal raw = .ok a) :
    ∀ m : ReportMap, m.keys.Nodup →
      ∃ m2 : ReportMap, aggregateUsers unmarshal users m = .ok m2 ∧ m2.keys.Nodup ∧
        (∀ g, g ∈ m2.keys ↔ g ∈ m.keys ∨ g ∈ users.map (fun u => u.GUID)) ∧
        (∀ g, g ∈ users.map (fun u => u.GUID) → (m2.value g).GUID = g) ∧
        (∀ g, g ∉ users.map (fun u => u.GUID) → m2.value g = m.value g) ∧
        (∀ g, (m2.value g).CompletedTests = (m.value g).CompletedTests +
          ((users.filter (fun u => u.GUID = g)).filter
            (fun u => u.SurveyState = some FinishedState)).length) ∧
        (∀ g, (m2.value g).AnsweredQuestions = (m.value g).AnsweredQuestions +
          ((users.filter (fun u => u.GUID = g)).map (answersOfRow unmarshal)).sum) := by
  induction users with
  | nil =>
    intro m hm
    exact ⟨m, rfl, hm, by simp, by simp, by simp, by simp, by simp⟩
  | cons u rest ih =>
    intro m hm
    have hdec2 : ∀ u2 ∈ rest, ∀ raw, u2.Answers = some raw → ∃ a, unmarshal raw = .ok a :=
      fun u2 h2 => hdec u2 (List.mem_cons_of_mem _ h2)
    have hset : ∀ v, (m.set u.GUID v).keys.Nodup := by
      intro v
      unfold ReportMap.set
      by_cases hk : u.GUID ∈ m.keys
      · simp only [hk, ↓reduceIte]; exact hm
      · simp only [hk, ↓reduceIte]
        rw [List.nodup_append]
        refine ⟨hm, by simp, ?_⟩
        intro a ha hb
        simp only [List.mem_singleton] at hb
        subst hb
        exact hk ha
    have hkeys : ∀ v g, g ∈ (m.set u.GUID v).keys ↔ g ∈ m.keys ∨ g = u.GUID := by
      intro v g
      unfold ReportMap.set
      by_cases hk : u.GUID ∈ m.keys
      · simp only [hk, ↓reduceIte]
        constructor
        · exact Or.inl
        · rintro (h | h)
          · exact h
          · rw [h]; exact hk
      · simp [hk]
    have hval : ∀ v g, (m.set u.GUID v).value g = if g = u.GUID then v else m.value g := by
      intro v g
      unfold ReportMap.set
      simp only [Function.update_apply]
    unfold aggregateUsers
    cases hA : u.Answers with
    | none =>
      dsimp only
      obtain ⟨m2, h1, h2, h3, h4, h5, h6, h7⟩ := ih hdec2 _ (hset _)
      refine ⟨m2, h1, h2, ?_, ?_, ?_, ?_, ?_⟩
      · intro g
        rw [h3, hkeys]
        simp only [List.map_cons, List.mem_cons]
        tauto
      · intro g hg
        simp only [List.map_cons, List.mem_cons] at hg
        by_cases hr : g ∈ rest.map (fun u => u.GUID)
        · exact h4 g hr
        · rw [h5 g hr, hval]
          rcases hg with hg | hg
          · simp only [hg, ↓reduceIte]
          · exact absurd hg hr
      · intro g hg
        simp only [List.map_cons, List.mem_cons, not_or] at hg
        rw [h5 g hg.2, hval, if_neg hg.1]
      · intro g
        rw [h6, hval]
        by_cases hg : g = u.GUID
        · subst hg
          by_cases hF : u.SurveyState = some FinishedState
          · simp [hF, List.filter_cons]
            ring
          · simp [hF, List.filter_cons]
        · have hg2 : ¬ u.GUID = g := fun h => hg h.symm
          simp [hg, hg2, List.filter_cons]
      · intro g
        rw [h7, hval]
        by_cases hg : g = u.GUID
        · subst hg
          by_cases hF : u.SurveyState = some FinishedState
          · simp [hF, List.filter_cons, answersOfRow, hA]
          · simp [hF, List.filter_cons, answersOfRow, hA]
        · have hg2 : ¬ u.GUID = g := fun h => hg h.symm
          simp [hg, hg2, List.filter_cons]
    | some raw =>
      obtain ⟨answers, hU⟩ := hdec u (List.mem_cons_self _ _) raw hA
      simp only [hU]
      obtain ⟨m2, h1, h2, h3, h4, h5, h6, h7⟩ := ih hdec2 _ (hset _)
      refine ⟨m2, h1, h2, ?_, ?_, ?_, ?_, ?_⟩
      · intro g
        rw [h3, hkeys]
        simp only [List.map_cons, List.mem_cons]
        tauto
      · intro g hg
        simp only [List.map_cons, List.mem_cons] at hg
        by_cases hr : g ∈ rest.map (fun u => u.GUID)
        · exact h4 g hr
        · rw [h5 g hr, hval]
          rcases hg with hg | hg
          · simp only [hg, ↓reduceIte]
          · exact absurd hg hr
      · intro g hg
        simp only [List.map_cons, List.mem_cons, not_or] at hg
        rw [h5 g hg.2, hval, if_neg hg.1]
      · intro g
        rw [h6, hval]
        by_cases hg : g = u.GUID
        · subst hg
          by_cases hF : u.SurveyState = some FinishedState
          · simp [hF, List.filter_cons]
            ring
          · simp [hF, List.filter_cons]
        · have hg2 : ¬ u.GUID = g := fun h => hg h.symm
          simp [hg, hg2, List.filter_cons]
      · intro g
        rw [h7, hval]
        by_cases hg : g = u.GUID
        · subst hg
          by_cases hF : u.SurveyState = some FinishedState
          · simp [hF, List.filter_cons, answersOfRow, hA, hU]
            ring
          · simp [hF, List.filter_cons, answersOfRow, hA, hU]
            ring
        · have hg2 : ¬ u.GUID = g := fun h => hg h.symm
          simp [hg, hg2, List.filter_cons]

theorem lessReport_total (a b : UserReport) : ¬ lessReport b a ∨ ¬ lessReport a b := by
  have key : ∀ x y u v : Nat,
      ¬ (if y = x then v < u else y > x) ∨ ¬ (if x = y then u < v else x > y) := by
    intro x y u v
    split_ifs <;> omega
  exact key a.LastActivity b.LastActivity a.GUID b.GUID

theorem lessReport_trans (a b c : UserReport) (h1 : ¬ lessReport b a) (h2 : ¬ lessReport c b) :
    ¬ lessReport c a := by
  have key : ∀ x y z u v w : Nat, ¬ (if y = x then v < u else y > x) →
      ¬ (if z = y then w < v else z > y) → ¬ (if z = x then w < u else z > x) := by
    intro x y z u v w
    split_ifs <;> omega
  exact key a.LastActivity b.LastActivity c.LastActivity a.GUID b.GUID c.GUID h1 h2

theorem lessReport_of_not (a b : UserReport) (h : ¬ lessReport b a) (hne : a.GUID ≠ b.GUID) :
    a.LastActivity > b.LastActivity ∨ (a.LastActivity = b.LastActivity ∧ a.GUID < b.GUID) := by
  have key : ∀ x y u v : Nat, ¬ (if y = x then v < u else y > x) → u ≠ v →
      x > y ∨ (x = y ∧ u < v) := by
    intro x y u v
    split_ifs <;> omega
  exact key a.LastActivity b.LastActivity a.GUID b.GUID h hne

/-- C27: for fetched rows whose `answers` columns decode, the aggregation of `GetUsersList`
gives a result with exactly one report per distinct user GUID of the rows; a report's
`CompletedTests` is the number of that user's rows whose state is finished, its
`AnsweredQuestions` the total number of answers over that user's rows (none for a row
without a state); and every report stands before every later one in the order of `less`:
later `LastActivity` first and, for equal ones, the smaller GUID first. -/
theorem GetUsersList_aggregation (unmarshal : String → Except GoError (List Answer))
    (users : List userListReportResponse)
    (hdec : ∀ u ∈ users, ∀ raw, u.Answers = some raw → ∃ a, unmarshal raw = .ok a) :
    ∃ reports : List UserReport, usersListReports unmarshal users = .ok reports ∧
      (reports.map (fun r => r.GUID)).Nodup ∧
      (∀ g, g ∈ reports.map (fun r => r.GUID) ↔ g ∈ users.map (fun u => u.GUID)) ∧
      (∀ r ∈ reports,
        r.CompletedTests = ((users.filter (fun u => u.GUID = r.GUID)).filter
          (fun u => u.SurveyState = some FinishedState)).length ∧
        r.AnsweredQuestions =
          ((users.filter (fun u => u.GUID = r.GUID)).map (answersOfRow unmarshal)).sum) ∧
      reports.Pairwise (fun a b => a.LastActivity > b.LastActivity ∨
        (a.LastActivity = b.LastActivity ∧ a.GUID < b.GUID)) := by
  obtain ⟨m2, h1, h2, h3, h4, _, h6, h7⟩ :=
    aggregateUsers_spec unmarshal users hdec ReportMap.empty List.nodup_nil
  have hperm := List.perm_insertionSort (fun a b => ¬ lessReport b a) (m2.keys.map m2.value)
  haveI : IsTotal UserReport (fun a b => ¬ lessReport b a) := ⟨lessReport_total⟩
  haveI : IsTrans UserReport (fun a b => ¬ lessReport b a) := ⟨lessReport_trans⟩
  have hsorted := List.sorted_insertionSort (fun a b => ¬ lessReport b a) (m2.keys.map m2.value)
  have hg : (m2.keys.map m2.value).map (fun r => r.GUID) = m2.keys := by
    rw [List.map_map]
    conv_rhs => rw [← List.map_id m2.keys]
    apply List.map_congr_left
    intro g hgk
    have : g ∈ users.map (fun u => u.GUID) := by
      have := (h3 g).mp hgk
      simpa [ReportMap.empty] using this
    simpa using h4 g this
  have hpg := (hperm.map (fun r => r.GUID))
  rw [hg] at hpg
  have hnd : (((m2.keys.map m2.value).insertionSort
      (fun a b => ¬ lessReport b a)).map (fun r => r.GUID)).Nodup := hpg.nodup_iff.mpr h2
  refine ⟨_, by unfold usersListReports; rw [h1], hnd, ?_, ?_, ?_⟩
  · intro g
    rw [hpg.mem_iff, h3]
    simp [ReportMap.empty]
  · intro r hr
    have hr2 : r ∈ m2.keys.map m2.value := hperm.mem_iff.mp hr
    obtain ⟨g, hgk, rfl⟩ := List.mem_map.mp hr2
    have hgu : g ∈ users.map (fun u => u.GUID) := by
      have := (h3 g).mp hgk
      simpa [ReportMap.empty] using this
    rw [h4 g hgu, h6 g, h7 g]
    simp [ReportMap.empty, UserReport.zero]
  · have hboth := (List.pairwise_map.mp hnd).and hsorted
    refine hboth.imp ?_
    intro a b hab
    exact lessReport_of_not a b hab.2 hab.1

/-- The rows of three users aggregate to three reports: users 3 and 5, last active at the
same time, come first, the smaller GUID before the larger, then user 7; the counts are those
of the rows. -/
theorem GetUsersList_aggregation_witness :
    (∀ u ∈ testUserRows, ∀ raw, u.Answers = some raw → ∃ a, testUnmarshal raw = .ok a) ∧
    usersListReports testUnmarshal testUserRows = .ok
      [ { GUID := 3, NickName := "cid", CompletedTests := 0, AnsweredQuestions := 0,
          RegisteredAt := 12, LastActivity := 90 },
        { GUID := 5, NickName := "bob", CompletedTests := 2, AnsweredQuestions := 4,
          RegisteredAt := 11, LastActivity := 90 },
        { GUID := 7, NickName := "ann", CompletedTests := 1, AnsweredQuestions := 2,
          RegisteredAt := 10, LastActivity := 50 } ] ∧
    ∃ reports : List UserReport, usersListReports testUnmarshal testUserRows = .ok reports ∧
      (reports.map (fun r => r.GUID)).Nodup ∧
      (∀ g, g ∈ reports.map (fun r => r.GUID) ↔ g ∈ testUserRows.map (fun u => u.GUID)) ∧
      (∀ r ∈ reports,
        r.CompletedTests = ((testUserRows.filter (fun u => u.GUID = r.GUID)).filter
          (fun u => u.SurveyState = some FinishedState)).length ∧
        r.AnsweredQuestions =
          ((testUserRows.filter (fun u => u.GUID = r.GUID)).map
            (answersOfRow testUnmarshal)).sum) ∧
      reports.Pairwise (fun a b => a.LastActivity > b.LastActivity ∨
        (a.LastActivity = b.LastActivity ∧ a.GUID < b.GUID)) :=
  have h : ∀ u ∈ testUserRows, ∀ raw, u.Answers = some raw →
      ∃ a, testUnmarshal raw = .ok a := by
    intro u hu raw hraw
    simp only [testUserRows, List.mem_cons, List.mem_singleton, List.not_mem_nil, or_false] at hu
    rcases hu with rfl | rfl | rfl | rfl | rfl <;>
      simp only [Option.some.injEq] at hraw <;> first
        | exact absurd hraw (by simp)
        | (subst hraw; exact ⟨_, rfl⟩)
  ⟨h, by decide, GetUsersList_aggregation testUnmarshal testUserRows h⟩

/-! ## The export: pages -/

end SurveyBot
